import Mathlib

/-!
Verification development for the wasp WebAssembly library core.

The definitions below are shallow embeddings of the C++ sources:
* `src/binary/reader-inl.h` — the byte reader (LEB128 integers, counts,
  strings, instructions, const-expressions, the `LazyModule` header reader);
* `src/text/lex.cc` and `src/text/keywords-inl.cc` — the text lexer.

Byte slices are modelled as `List Nat` (each element a byte value `< 256`);
the C++ cursor-advancing style (`SpanU8*`) becomes explicit state passing:
a reader takes the remaining input and returns `Option (result × rest)`.
Machine integers are modelled as `Nat`/`Int` with explicit `% 2 ^ w`
truncation where the C++ relies on fixed-width wraparound.
-/

set_option maxRecDepth 10000

namespace Wasp

namespace Binary

/-- Byte values for opcodes, from the `Opcode` enum (the opcodes referenced by
`reader-inl.h`, plus the reference-types opcodes used by the text layer). -/
inductive Opcode
  | Unreachable | Nop | Block | Loop | If | Else | End
  | Br | BrIf | BrTable | Return | Call | CallIndirect
  | Drop | Select
  | GetLocal | SetLocal | TeeLocal | GetGlobal | SetGlobal
  | I32Load | I64Load | F32Load | F64Load
  | I32Load8S | I32Load8U | I32Load16S | I32Load16U
  | I64Load8S | I64Load8U | I64Load16S | I64Load16U | I64Load32S | I64Load32U
  | I32Store | I64Store | F32Store | F64Store
  | I32Store8 | I32Store16 | I64Store8 | I64Store16 | I64Store32
  | MemorySize | MemoryGrow
  | I32Const | I64Const | F32Const | F64Const
  | I32Eqz | I32Eq | I32Ne | I32LtS | I32LtU | I32GtS | I32GtU
  | I32LeS | I32LeU | I32GeS | I32GeU
  | I64Eqz | I64Eq | I64Ne | I64LtS | I64LtU | I64GtS | I64GtU
  | I64LeS | I64LeU | I64GeS | I64GeU
  | F32Eq | F32Ne | F32Lt | F32Gt | F32Le | F32Ge
  | F64Eq | F64Ne | F64Lt | F64Gt | F64Le | F64Ge
  | I32Clz | I32Ctz | I32Popcnt
  | I32Add | I32Sub | I32Mul | I32DivS | I32DivU | I32RemS | I32RemU
  | I32And | I32Or | I32Xor | I32Shl | I32ShrS | I32ShrU | I32Rotl | I32Rotr
  | I64Clz | I64Ctz | I64Popcnt
  | I64Add | I64Sub | I64Mul | I64DivS | I64DivU | I64RemS | I64RemU
  | I64And | I64Or | I64Xor | I64Shl | I64ShrS | I64ShrU | I64Rotl | I64Rotr
  | F32Abs | F32Neg | F32Ceil | F32Floor | F32Trunc | F32Nearest | F32Sqrt
  | F32Add | F32Sub | F32Mul | F32Div | F32Min | F32Max | F32Copysign
  | F64Abs | F64Neg | F64Ceil | F64Floor | F64Trunc | F64Nearest | F64Sqrt
  | F64Add | F64Sub | F64Mul | F64Div | F64Min | F64Max | F64Copysign
  | I32WrapI64 | I32TruncSF32 | I32TruncUF32 | I32TruncSF64 | I32TruncUF64
  | I64ExtendSI32 | I64ExtendUI32
  | I64TruncSF32 | I64TruncUF32 | I64TruncSF64 | I64TruncUF64
  | F32ConvertSI32 | F32ConvertUI32 | F32ConvertSI64 | F32ConvertUI64 | F32DemoteF64
  | F64ConvertSI32 | F64ConvertUI32 | F64ConvertSI64 | F64ConvertUI64 | F64PromoteF32
  | I32ReinterpretF32 | I64ReinterpretF64 | F32ReinterpretI32 | F64ReinterpretI64
  | RefNull | RefFunc | V128Const
  | AtomicNotify | BrOnExn | Catch | DataDrop | ElemDrop
  | F32ConvertI32S | F32ConvertI32U | F32ConvertI64S | F32ConvertI64U | F32X4Abs
  | F32X4Add | F32X4ConvertI32X4S | F32X4ConvertI32X4U | F32X4Div | F32X4Eq
  | F32X4ExtractLane | F32X4Ge | F32X4Gt | F32X4Le | F32X4Lt
  | F32X4Max | F32X4Min | F32X4Mul | F32X4Ne | F32X4Neg
  | F32X4ReplaceLane | F32X4Splat | F32X4Sqrt | F32X4Sub | F64ConvertI32S
  | F64ConvertI32U | F64ConvertI64S | F64ConvertI64U | F64X2Abs | F64X2Add
  | F64X2Div | F64X2Eq | F64X2ExtractLane | F64X2Ge | F64X2Gt
  | F64X2Le | F64X2Lt | F64X2Max | F64X2Min | F64X2Mul
  | F64X2Ne | F64X2Neg | F64X2ReplaceLane | F64X2Splat | F64X2Sqrt
  | F64X2Sub | GlobalGet | GlobalSet | I16X8Add | I16X8AddSaturateS
  | I16X8AddSaturateU | I16X8AllTrue | I16X8AnyTrue | I16X8AvgrU | I16X8Eq
  | I16X8ExtractLaneS | I16X8ExtractLaneU | I16X8GeS | I16X8GeU | I16X8GtS
  | I16X8GtU | I16X8LeS | I16X8LeU | I16X8Load8X8S | I16X8Load8X8U
  | I16X8LtS | I16X8LtU | I16X8MaxS | I16X8MaxU | I16X8MinS
  | I16X8MinU | I16X8Mul | I16X8NarrowI32X4S | I16X8NarrowI32X4U | I16X8Ne
  | I16X8Neg | I16X8ReplaceLane | I16X8Shl | I16X8ShrS | I16X8ShrU
  | I16X8Splat | I16X8Sub | I16X8SubSaturateS | I16X8SubSaturateU | I16X8WidenHighI8X16S
  | I16X8WidenHighI8X16U | I16X8WidenLowI8X16S | I16X8WidenLowI8X16U | I32AtomicLoad | I32AtomicLoad16U
  | I32AtomicLoad8U | I32AtomicRmw16AddU | I32AtomicRmw16AndU | I32AtomicRmw16CmpxchgU | I32AtomicRmw16OrU
  | I32AtomicRmw16SubU | I32AtomicRmw16XchgU | I32AtomicRmw16XorU | I32AtomicRmw8AddU | I32AtomicRmw8AndU
  | I32AtomicRmw8CmpxchgU | I32AtomicRmw8OrU | I32AtomicRmw8SubU | I32AtomicRmw8XchgU | I32AtomicRmw8XorU
  | I32AtomicRmwAdd | I32AtomicRmwAnd | I32AtomicRmwCmpxchg | I32AtomicRmwOr | I32AtomicRmwSub
  | I32AtomicRmwXchg | I32AtomicRmwXor | I32AtomicStore | I32AtomicStore16 | I32AtomicStore8
  | I32AtomicWait | I32Extend16S | I32Extend8S | I32TruncF32S | I32TruncF32U
  | I32TruncF64S | I32TruncF64U | I32TruncSatF32S | I32TruncSatF32U | I32TruncSatF64S
  | I32TruncSatF64U | I32X4Add | I32X4AllTrue | I32X4AnyTrue | I32X4Eq
  | I32X4ExtractLane | I32X4GeS | I32X4GeU | I32X4GtS | I32X4GtU
  | I32X4LeS | I32X4LeU | I32X4Load16X4S | I32X4Load16X4U | I32X4LtS
  | I32X4LtU | I32X4MaxS | I32X4MaxU | I32X4MinS | I32X4MinU
  | I32X4Mul | I32X4Ne | I32X4Neg | I32X4ReplaceLane | I32X4Shl
  | I32X4ShrS | I32X4ShrU | I32X4Splat | I32X4Sub | I32X4TruncSatF32X4S
  | I32X4TruncSatF32X4U | I32X4WidenHighI16X8S | I32X4WidenHighI16X8U | I32X4WidenLowI16X8S | I32X4WidenLowI16X8U
  | I64AtomicLoad | I64AtomicLoad16U | I64AtomicLoad32U | I64AtomicLoad8U | I64AtomicRmw16AddU
  | I64AtomicRmw16AndU | I64AtomicRmw16CmpxchgU | I64AtomicRmw16OrU | I64AtomicRmw16SubU | I64AtomicRmw16XchgU
  | I64AtomicRmw16XorU | I64AtomicRmw32AddU | I64AtomicRmw32AndU | I64AtomicRmw32CmpxchgU | I64AtomicRmw32OrU
  | I64AtomicRmw32SubU | I64AtomicRmw32XchgU | I64AtomicRmw32XorU | I64AtomicRmw8AddU | I64AtomicRmw8AndU
  | I64AtomicRmw8CmpxchgU | I64AtomicRmw8OrU | I64AtomicRmw8SubU | I64AtomicRmw8XchgU | I64AtomicRmw8XorU
  | I64AtomicRmwAdd | I64AtomicRmwAnd | I64AtomicRmwCmpxchg | I64AtomicRmwOr | I64AtomicRmwSub
  | I64AtomicRmwXchg | I64AtomicRmwXor | I64AtomicStore | I64AtomicStore16 | I64AtomicStore32
  | I64AtomicStore8 | I64AtomicWait | I64Extend16S | I64Extend32S | I64Extend8S
  | I64ExtendI32S | I64ExtendI32U | I64TruncF32S | I64TruncF32U | I64TruncF64S
  | I64TruncF64U | I64TruncSatF32S | I64TruncSatF32U | I64TruncSatF64S | I64TruncSatF64U
  | I64X2Add | I64X2ExtractLane | I64X2Load32X2S | I64X2Load32X2U | I64X2Mul
  | I64X2Neg | I64X2ReplaceLane | I64X2Shl | I64X2ShrS | I64X2ShrU
  | I64X2Splat | I64X2Sub | I8X16Add | I8X16AddSaturateS | I8X16AddSaturateU
  | I8X16AllTrue | I8X16AnyTrue | I8X16AvgrU | I8X16Eq | I8X16ExtractLaneS
  | I8X16ExtractLaneU | I8X16GeS | I8X16GeU | I8X16GtS | I8X16GtU
  | I8X16LeS | I8X16LeU | I8X16LtS | I8X16LtU | I8X16MaxS
  | I8X16MaxU | I8X16MinS | I8X16MinU | I8X16NarrowI16X8S | I8X16NarrowI16X8U
  | I8X16Ne | I8X16Neg | I8X16ReplaceLane | I8X16Shl | I8X16ShrS
  | I8X16ShrU | I8X16Splat | I8X16Sub | I8X16SubSaturateS | I8X16SubSaturateU
  | LocalGet | LocalSet | LocalTee | MemoryCopy | MemoryFill
  | MemoryInit | RefIsNull | Rethrow | ReturnCall | ReturnCallIndirect
  | TableCopy | TableFill | TableGet | TableGrow | TableInit
  | TableSet | TableSize | Throw | Try | V128And
  | V128Andnot | V128BitSelect | V128Load | V128Not | V128Or
  | V128Store | V128Xor | V16X8LoadSplat | V32X4LoadSplat | V64X2LoadSplat
  | V8X16LoadSplat | V8X16Shuffle | V8X16Swizzle
  deriving DecidableEq, Repr

/-- `Read<u8>`: one byte, or failure on empty input. -/
def readU8 : List Nat → Option (Nat × List Nat)
  | [] => none
  | b :: rest => some (b, rest)

/-- `ReadBytes(data, N)`: `N` raw bytes, or failure if fewer remain. -/
def readBytes (n : Nat) (data : List Nat) : Option (List Nat × List Nat) :=
  if data.length < n then none else some (data.take n, data.drop n)

/-- `kMaxBytes` for a LEB128 target of `W` bits: `(sizeof(T)*8 + 6) / 7`. -/
def kMaxBytes (W : Nat) : Nat := (W + 6) / 7

/-- `kUsedBitsInLastByte`: `W - 7 * (kMaxBytes - 1)`. -/
def kUsedBitsInLastByte (W : Nat) : Nat := W - 7 * (kMaxBytes W - 1)

/-- `kMaskBits`: payload bits of the last byte, minus one for a signed target. -/
def kMaskBits (W : Nat) (isSigned : Bool) : Nat :=
  kUsedBitsInLastByte W - (if isSigned then 1 else 0)

/-- `kMask = ~((1 << kMaskBits) - 1)` truncated to a byte. -/
def kMask (W : Nat) (isSigned : Bool) : Nat := 256 - 2 ^ kMaskBits W isSigned

/-- `kOnes = kMask & 0x7f`. -/
def kOnes (W : Nat) (isSigned : Bool) : Nat := kMask W isSigned &&& 0x7f

/-- Two's-complement reinterpretation of a `W`-bit unsigned value
(`static_cast<S>(result)` for `x < 2 ^ W`). -/
def toSigned (W x : Nat) : Int :=
  if x < 2 ^ (W - 1) then (x : Int) else (x : Int) - 2 ^ W

/-- `SignExtend<S>(x, N) = S(x << (W-N-1)) >> (W-N-1)` with an arithmetic
right shift (flooring division on the signed value). -/
def signExtend (W N : Nat) (x : Nat) : Int :=
  Int.fdiv (toSigned W ((x <<< (W - N - 1)) % 2 ^ W)) (2 ^ (W - N - 1))

/-- The loop of `ReadVarInt<T>`: `i` is the byte counter, `result` the
accumulated unsigned value (a `W`-bit machine integer). -/
def readVarIntCore (W : Nat) (isSigned : Bool) :
    Nat → Nat → List Nat → Option (Int × List Nat)
  | _, _, [] => none
  | i, result, b :: rest =>
    let shift := 7 * i
    let result := (result ||| ((b &&& 0x7f) <<< shift)) % 2 ^ W
    if i + 1 = kMaxBytes W then
      if b &&& kMask W isSigned = 0 ∨ (isSigned = true ∧ b &&& kMask W isSigned = kOnes W isSigned) then
        some (if isSigned then toSigned W result else (result : Int), rest)
      else
        none
    else if b &&& 0x80 = 0 then
      some (if isSigned then signExtend W (6 + shift) result else (result : Int), rest)
    else
      readVarIntCore W isSigned (i + 1) result rest

/-- `ReadVarInt<T>` for a `W`-bit target (`W = 8 * sizeof(T)`). -/
def readVarInt (W : Nat) (isSigned : Bool) (data : List Nat) : Option (Int × List Nat) :=
  readVarIntCore W isSigned 0 0 data

/-- `Read<u32>` (`vu32`), with its value as a `Nat`. -/
def readU32 (data : List Nat) : Option (Nat × List Nat) :=
  (readVarInt 32 false data).map fun vr => (vr.1.toNat, vr.2)

/-- `ReadIndex` (`Index` is `u32`). -/
def readIndex (data : List Nat) : Option (Nat × List Nat) := readU32 data

/-- `ReadCount`: a `u32` count, rejected when it exceeds the remaining bytes. -/
def readCount (data : List Nat) : Option (Nat × List Nat) :=
  match readIndex data with
  | none => none
  | some (count, rest) =>
    if count > rest.length then none else some (count, rest)

/-- `ReadStr`: length-prefixed byte run, with the (claimed unreachable)
second length check kept from the source. -/
def readStr (data : List Nat) : Option (List Nat × List Nat) :=
  match readCount data with
  | none => none
  | some (len, rest) =>
    if len > rest.length then none
    else some (rest.take len, rest.drop len)

/-- `ReadStr` with the second length check removed; used to state that the
check in `readStr` is unreachable. -/
def readStrUnchecked (data : List Nat) : Option (List Nat × List Nat) :=
  match readCount data with
  | none => none
  | some (len, rest) => some (rest.take len, rest.drop len)

/-- Modelled from the spec: `encoding::Opcode::Decode` lives in
`src/binary/encoding.h`, which is not among the sources; this is the
standard one-byte MVP opcode table of §4.C/§6, covering exactly the opcodes
handled by `Read(Tag<Instr>)` in `reader-inl.h`. Escaped (`0xFC/0xFD/0xFE`)
and reference-types opcodes are not decoded by this reader. -/
def decodeOpcode (b : Nat) : Option Opcode :=
  match b with
  | 0x00 => some .Unreachable
  | 0x01 => some .Nop
  | 0x02 => some .Block
  | 0x03 => some .Loop
  | 0x04 => some .If
  | 0x05 => some .Else
  | 0x0B => some .End
  | 0x0C => some .Br
  | 0x0D => some .BrIf
  | 0x0E => some .BrTable
  | 0x0F => some .Return
  | 0x10 => some .Call
  | 0x11 => some .CallIndirect
  | 0x1A => some .Drop
  | 0x1B => some .Select
  | 0x20 => some .GetLocal
  | 0x21 => some .SetLocal
  | 0x22 => some .TeeLocal
  | 0x23 => some .GetGlobal
  | 0x24 => some .SetGlobal
  | 0x28 => some .I32Load
  | 0x29 => some .I64Load
  | 0x2A => some .F32Load
  | 0x2B => some .F64Load
  | 0x2C => some .I32Load8S
  | 0x2D => some .I32Load8U
  | 0x2E => some .I32Load16S
  | 0x2F => some .I32Load16U
  | 0x30 => some .I64Load8S
  | 0x31 => some .I64Load8U
  | 0x32 => some .I64Load16S
  | 0x33 => some .I64Load16U
  | 0x34 => some .I64Load32S
  | 0x35 => some .I64Load32U
  | 0x36 => some .I32Store
  | 0x37 => some .I64Store
  | 0x38 => some .F32Store
  | 0x39 => some .F64Store
  | 0x3A => some .I32Store8
  | 0x3B => some .I32Store16
  | 0x3C => some .I64Store8
  | 0x3D => some .I64Store16
  | 0x3E => some .I64Store32
  | 0x3F => some .MemorySize
  | 0x40 => some .MemoryGrow
  | 0x41 => some .I32Const
  | 0x42 => some .I64Const
  | 0x43 => some .F32Const
  | 0x44 => some .F64Const
  | 0x45 => some .I32Eqz
  | 0x46 => some .I32Eq
  | 0x47 => some .I32Ne
  | 0x48 => some .I32LtS
  | 0x49 => some .I32LtU
  | 0x4A => some .I32GtS
  | 0x4B => some .I32GtU
  | 0x4C => some .I32LeS
  | 0x4D => some .I32LeU
  | 0x4E => some .I32GeS
  | 0x4F => some .I32GeU
  | 0x50 => some .I64Eqz
  | 0x51 => some .I64Eq
  | 0x52 => some .I64Ne
  | 0x53 => some .I64LtS
  | 0x54 => some .I64LtU
  | 0x55 => some .I64GtS
  | 0x56 => some .I64GtU
  | 0x57 => some .I64LeS
  | 0x58 => some .I64LeU
  | 0x59 => some .I64GeS
  | 0x5A => some .I64GeU
  | 0x5B => some .F32Eq
  | 0x5C => some .F32Ne
  | 0x5D => some .F32Lt
  | 0x5E => some .F32Gt
  | 0x5F => some .F32Le
  | 0x60 => some .F32Ge
  | 0x61 => some .F64Eq
  | 0x62 => some .F64Ne
  | 0x63 => some .F64Lt
  | 0x64 => some .F64Gt
  | 0x65 => some .F64Le
  | 0x66 => some .F64Ge
  | 0x67 => some .I32Clz
  | 0x68 => some .I32Ctz
  | 0x69 => some .I32Popcnt
  | 0x6A => some .I32Add
  | 0x6B => some .I32Sub
  | 0x6C => some .I32Mul
  | 0x6D => some .I32DivS
  | 0x6E => some .I32DivU
  | 0x6F => some .I32RemS
  | 0x70 => some .I32RemU
  | 0x71 => some .I32And
  | 0x72 => some .I32Or
  | 0x73 => some .I32Xor
  | 0x74 => some .I32Shl
  | 0x75 => some .I32ShrS
  | 0x76 => some .I32ShrU
  | 0x77 => some .I32Rotl
  | 0x78 => some .I32Rotr
  | 0x79 => some .I64Clz
  | 0x7A => some .I64Ctz
  | 0x7B => some .I64Popcnt
  | 0x7C => some .I64Add
  | 0x7D => some .I64Sub
  | 0x7E => some .I64Mul
  | 0x7F => some .I64DivS
  | 0x80 => some .I64DivU
  | 0x81 => some .I64RemS
  | 0x82 => some .I64RemU
  | 0x83 => some .I64And
  | 0x84 => some .I64Or
  | 0x85 => some .I64Xor
  | 0x86 => some .I64Shl
  | 0x87 => some .I64ShrS
  | 0x88 => some .I64ShrU
  | 0x89 => some .I64Rotl
  | 0x8A => some .I64Rotr
  | 0x8B => some .F32Abs
  | 0x8C => some .F32Neg
  | 0x8D => some .F32Ceil
  | 0x8E => some .F32Floor
  | 0x8F => some .F32Trunc
  | 0x90 => some .F32Nearest
  | 0x91 => some .F32Sqrt
  | 0x92 => some .F32Add
  | 0x93 => some .F32Sub
  | 0x94 => some .F32Mul
  | 0x95 => some .F32Div
  | 0x96 => some .F32Min
  | 0x97 => some .F32Max
  | 0x98 => some .F32Copysign
  | 0x99 => some .F64Abs
  | 0x9A => some .F64Neg
  | 0x9B => some .F64Ceil
  | 0x9C => some .F64Floor
  | 0x9D => some .F64Trunc
  | 0x9E => some .F64Nearest
  | 0x9F => some .F64Sqrt
  | 0xA0 => some .F64Add
  | 0xA1 => some .F64Sub
  | 0xA2 => some .F64Mul
  | 0xA3 => some .F64Div
  | 0xA4 => some .F64Min
  | 0xA5 => some .F64Max
  | 0xA6 => some .F64Copysign
  | 0xA7 => some .I32WrapI64
  | 0xA8 => some .I32TruncSF32
  | 0xA9 => some .I32TruncUF32
  | 0xAA => some .I32TruncSF64
  | 0xAB => some .I32TruncUF64
  | 0xAC => some .I64ExtendSI32
  | 0xAD => some .I64ExtendUI32
  | 0xAE => some .I64TruncSF32
  | 0xAF => some .I64TruncUF32
  | 0xB0 => some .I64TruncSF64
  | 0xB1 => some .I64TruncUF64
  | 0xB2 => some .F32ConvertSI32
  | 0xB3 => some .F32ConvertUI32
  | 0xB4 => some .F32ConvertSI64
  | 0xB5 => some .F32ConvertUI64
  | 0xB6 => some .F32DemoteF64
  | 0xB7 => some .F64ConvertSI32
  | 0xB8 => some .F64ConvertUI32
  | 0xB9 => some .F64ConvertSI64
  | 0xBA => some .F64ConvertUI64
  | 0xBB => some .F64PromoteF32
  | 0xBC => some .I32ReinterpretF32
  | 0xBD => some .I64ReinterpretF64
  | 0xBE => some .F32ReinterpretI32
  | 0xBF => some .F64ReinterpretI64
  | _ => none

/-- Modelled from the spec: `encoding::BlockType::Decode` (also from the
missing `encoding.h`); the standard MVP block types. -/
def decodeBlockType (b : Nat) : Option Nat :=
  match b with
  | 0x40 => some 0x40
  | 0x7F => some 0x7F
  | 0x7E => some 0x7E
  | 0x7D => some 0x7D
  | 0x7C => some 0x7C
  | _ => none

/-- `Read<Opcode>`: one byte, decoded through the opcode table. -/
def readOpcode (data : List Nat) : Option (Opcode × List Nat) :=
  match readU8 data with
  | none => none
  | some (b, rest) =>
    match decodeOpcode b with
    | none => none
    | some op => some (op, rest)

/-- Instruction immediates (`reader-inl.h` shapes used by the MVP reader). -/
inductive Immediate
  | empty
  | blockType (bt : Nat)
  | index (i : Nat)
  | brTable (targets : List Nat) (defaultTarget : Nat)
  | callIndirect (index : Nat) (reserved : Nat)
  | memArg (alignLog2 : Nat) (offset : Nat)
  | reservedByte (b : Nat)
  | s32 (v : Int)
  | s64 (v : Int)
  | f32bits (bytes : List Nat)
  | f64bits (bytes : List Nat)
  deriving DecidableEq, Repr

/-- `Instruction`: opcode plus immediate. -/
structure Instr where
  opcode : Opcode
  immediate : Immediate
  deriving DecidableEq, Repr

/-- `ReadVec<Index>`: count-prefixed vector of indices. -/
def readIndexVecLoop : Nat → List Nat → Option (List Nat × List Nat)
  | 0, data => some ([], data)
  | n + 1, data =>
    match readIndex data with
    | none => none
    | some (i, rest) =>
      match readIndexVecLoop n rest with
      | none => none
      | some (is, rest') => some (i :: is, rest')

/-- `ReadVec<Index>` (used for `br_table` targets). -/
def readIndexVec (data : List Nat) : Option (List Nat × List Nat) :=
  match readCount data with
  | none => none
  | some (len, rest) => readIndexVecLoop len rest

/-- Whether an opcode is in the no-immediate case list of `Read(Tag<Instr>)`. -/
def hasNoImmediate : Opcode → Bool
  | .End | .Unreachable | .Nop | .Else | .Return | .Drop | .Select
  | .I32Eqz | .I32Eq | .I32Ne | .I32LtS | .I32LeS | .I32LtU | .I32LeU
  | .I32GtS | .I32GeS | .I32GtU | .I32GeU
  | .I64Eqz | .I64Eq | .I64Ne | .I64LtS | .I64LeS | .I64LtU | .I64LeU
  | .I64GtS | .I64GeS | .I64GtU | .I64GeU
  | .F32Eq | .F32Ne | .F32Lt | .F32Le | .F32Gt | .F32Ge
  | .F64Eq | .F64Ne | .F64Lt | .F64Le | .F64Gt | .F64Ge
  | .I32Clz | .I32Ctz | .I32Popcnt
  | .I32Add | .I32Sub | .I32Mul | .I32DivS | .I32DivU | .I32RemS | .I32RemU
  | .I32And | .I32Or | .I32Xor | .I32Shl | .I32ShrS | .I32ShrU | .I32Rotl | .I32Rotr
  | .I64Clz | .I64Ctz | .I64Popcnt
  | .I64Add | .I64Sub | .I64Mul | .I64DivS | .I64DivU | .I64RemS | .I64RemU
  | .I64And | .I64Or | .I64Xor | .I64Shl | .I64ShrS | .I64ShrU | .I64Rotl | .I64Rotr
  | .F32Abs | .F32Neg | .F32Ceil | .F32Floor | .F32Trunc | .F32Nearest | .F32Sqrt
  | .F32Add | .F32Sub | .F32Mul | .F32Div | .F32Min | .F32Max | .F32Copysign
  | .F64Abs | .F64Neg | .F64Ceil | .F64Floor | .F64Trunc | .F64Nearest | .F64Sqrt
  | .F64Add | .F64Sub | .F64Mul | .F64Div | .F64Min | .F64Max | .F64Copysign
  | .I32WrapI64 | .I32TruncSF32 | .I32TruncUF32 | .I32TruncSF64 | .I32TruncUF64
  | .I64ExtendSI32 | .I64ExtendUI32
  | .I64TruncSF32 | .I64TruncUF32 | .I64TruncSF64 | .I64TruncUF64
  | .F32ConvertSI32 | .F32ConvertUI32 | .F32ConvertSI64 | .F32ConvertUI64 | .F32DemoteF64
  | .F64ConvertSI32 | .F64ConvertUI32 | .F64ConvertSI64 | .F64ConvertUI64 | .F64PromoteF32
  | .I32ReinterpretF32 | .I64ReinterpretF64 | .F32ReinterpretI32 | .F64ReinterpretI64 => true
  | _ => false

/-- Whether an opcode takes a block-type immediate (`block`, `loop`, `if`). -/
def hasBlockTypeImmediate : Opcode → Bool
  | .Block | .Loop | .If => true
  | _ => false

/-- Whether an opcode takes a plain index immediate. -/
def hasIndexImmediate : Opcode → Bool
  | .Br | .BrIf | .Call | .GetLocal | .SetLocal | .TeeLocal | .GetGlobal | .SetGlobal => true
  | _ => false

/-- Whether an opcode takes a memarg immediate. -/
def hasMemArgImmediate : Opcode → Bool
  | .I32Load | .I64Load | .F32Load | .F64Load
  | .I32Load8S | .I32Load8U | .I32Load16S | .I32Load16U
  | .I64Load8S | .I64Load8U | .I64Load16S | .I64Load16U | .I64Load32S | .I64Load32U
  | .I32Store | .I64Store | .F32Store | .F64Store
  | .I32Store8 | .I32Store16 | .I64Store8 | .I64Store16 | .I64Store32 => true
  | _ => false

/-- `Read<MemArg>`: alignment then offset, both `vu32`. -/
def readMemArg (data : List Nat) : Option ((Nat × Nat) × List Nat) :=
  match readU32 data with
  | none => none
  | some (a, d1) =>
    match readU32 d1 with
    | none => none
    | some (o, d2) => some ((a, o), d2)

/-- `Read(Tag<Instr>)`: one instruction (opcode plus immediate). -/
def readInstr (data : List Nat) : Option (Instr × List Nat) :=
  match readOpcode data with
  | none => none
  | some (op, d0) =>
    if hasNoImmediate op then
      some (⟨op, .empty⟩, d0)
    else if hasBlockTypeImmediate op then
      match readU8 d0 with
      | none => none
      | some (b, d1) =>
        match decodeBlockType b with
        | none => none
        | some bt => some (⟨op, .blockType bt⟩, d1)
    else if hasIndexImmediate op then
      match readIndex d0 with
      | none => none
      | some (i, d1) => some (⟨op, .index i⟩, d1)
    else if hasMemArgImmediate op then
      match readMemArg d0 with
      | none => none
      | some ((a, o), d1) => some (⟨op, .memArg a o⟩, d1)
    else
      match op with
      | .BrTable =>
        match readIndexVec d0 with
        | none => none
        | some (targets, d1) =>
          match readIndex d1 with
          | none => none
          | some (dt, d2) => some (⟨op, .brTable targets dt⟩, d2)
      | .CallIndirect =>
        match readIndex d0 with
        | none => none
        | some (i, d1) =>
          match readU8 d1 with
          | none => none
          | some (r, d2) => some (⟨op, .callIndirect i r⟩, d2)
      | .MemorySize =>
        match readU8 d0 with
        | none => none
        | some (r, d1) => some (⟨op, .reservedByte r⟩, d1)
      | .MemoryGrow =>
        match readU8 d0 with
        | none => none
        | some (r, d1) => some (⟨op, .reservedByte r⟩, d1)
      | .I32Const =>
        match readVarInt 32 true d0 with
        | none => none
        | some (v, d1) => some (⟨op, .s32 v⟩, d1)
      | .I64Const =>
        match readVarInt 64 true d0 with
        | none => none
        | some (v, d1) => some (⟨op, .s64 v⟩, d1)
      | .F32Const =>
        match readBytes 4 d0 with
        | none => none
        | some (bs, d1) => some (⟨op, .f32bits bs⟩, d1)
      | .F64Const =>
        match readBytes 8 d0 with
        | none => none
        | some (bs, d1) => some (⟨op, .f64bits bs⟩, d1)
      | _ => none

/-- The case list of the const-expr switch in `Read(Tag<ConstExpr>)`. -/
def constExprOpcodeOk : Opcode → Bool
  | .I32Const | .I64Const | .F32Const | .F64Const | .GetGlobal => true
  | _ => false

/-- `Read(Tag<ConstExpr>)`: a single accepted instruction followed by `end`. -/
def readConstExpr (data : List Nat) : Option (List Nat × List Nat) :=
  match readInstr data with
  | none => none
  | some (instr, d1) =>
    if constExprOpcodeOk instr.opcode then
      match readInstr d1 with
      | none => none
      | some (instr2, d2) =>
        if instr2.opcode = .End then
          let len := data.length - d2.length
          some (data.take len, data.drop len)
        else none
    else none

/-- Modelled from the spec: the binary encoding of the const-expression
`(ref.func 0) end` — `0xD2` is the `ref.func` opcode byte of the
reference-types proposal (§4.C: `ref.func` carries an index immediate),
followed by index `0` and `end` (`0x0B`). -/
def refFuncConstExprBytes : List Nat := [0xD2, 0x00, 0x0B]

/-- `encoding::Magic` (`"\0asm"`). -/
def kMagic : List Nat := [0x00, 0x61, 0x73, 0x6D]

/-- `encoding::Version` (`01 00 00 00`). -/
def kVersion : List Nat := [0x01, 0x00, 0x00, 0x00]

/-- The state built by the `LazyModule` constructor: the two optional
4-byte reads and the remaining section data. -/
structure LazyModuleState where
  magic : Option (List Nat)
  version : Option (List Nat)
  sections : List Nat
  deriving DecidableEq, Repr

/-- The member-initializer part of `LazyModule::LazyModule`: `magic` and
`version` are read in order; a failed `ReadBytes` leaves the cursor alone. -/
def lazyModuleInit (data : List Nat) : LazyModuleState :=
  match readBytes 4 data with
  | none => { magic := none, version := (readBytes 4 data).map Prod.fst,
              sections := data }
  | some (m, d1) =>
    match readBytes 4 d1 with
    | none => { magic := some m, version := none, sections := d1 }
    | some (v, d2) => { magic := some m, version := some v, sections := d2 }

/-- Whether the constructor body dereferences a disengaged optional: the
magic (resp. version) mismatch branch is entered whenever the optional
differs from the expected bytes — in particular when it is `nullopt` — and
its error message evaluates `*magic` (resp. `*version`). -/
def lazyModuleDerefsAbsent (data : List Nat) : Bool :=
  let s := lazyModuleInit data
  (decide (s.magic ≠ some kMagic) && s.magic.isNone) ||
  (decide (s.version ≠ some kVersion) && s.version.isNone)

/-- The accumulator of the `ReadVarInt` loop after a run of bytes, starting
from byte counter `i` and accumulated value `result`. -/
def lebAccum (W : Nat) (i result : Nat) : List Nat → Nat
  | [] => result
  | b :: bs => lebAccum W (i + 1) ((result ||| ((b &&& 0x7f) <<< (7 * i))) % 2 ^ W) bs

/-- The little-endian base-128 payload value of a byte run: the integer
whose bits are the concatenated 7-bit payloads of the bytes. -/
def lebPayload : List Nat → Nat
  | [] => 0
  | b :: bs => b % 128 + 128 * lebPayload bs

end Binary

namespace Text

/-- Token categories (`TokenType`), as used by `lex.cc` and the keyword
table. -/
inductive TokenType
  | Eof | Lpar | Rpar | LparAnn | Whitespace
  | LineComment | InvalidLineComment | BlockComment | InvalidBlockComment
  | Id | Text | InvalidText | Reserved | InvalidChar
  | Nat | Int | Float
  | ValueType | BareInstr
  | OffsetEqNat | AlignEqNat
  | AssertExhaustion | AssertInvalid | AssertMalformed | AssertReturn
  | AssertTrap | AssertUnlinkable
  | Binary | BlockInstr | BrOnExnInstr | BrTableInstr | CallIndirectInstr
  | Catch | Data | Declare | Elem | Else | End | Event | Export
  | F32ConstInstr | F32X4 | F64ConstInstr | F64X2
  | Func | Get | Global | I16X8 | I32ConstInstr | I32X4 | I64ConstInstr
  | I64X2 | I8X16 | Import | Invoke | Item | Local | Memory | MemoryInstr
  | Module | Mut | NanArithmetic | NanCanonical | Offset | Param | Quote
  | RefAny | RefFuncInstr | RefHost | RefNullInstr | Register | Result
  | SelectInstr | Shared | SimdConstInstr | SimdLaneInstr | SimdShuffleInstr
  | Start | Table | TableCopyInstr | TableInitInstr | Then | Type | VarInstr
  deriving DecidableEq, Repr

/-- Feature bits gating keywords (`Features::Bits`); a keyword carries at
most one. -/
inductive Feature
  | BulkMemory | Exceptions | ReferenceTypes | SaturatingFloatToInt
  | SignExtension | Simd | TailCall | Threads
  deriving DecidableEq, Repr

/-- Text-level value types carried by `ValueType` keyword tokens. -/
inductive ValueType
  | I32 | I64 | F32 | F64 | V128 | Funcref | Anyref | Nullref | Exnref
  deriving DecidableEq, Repr

/-- Number sign prefix (`Sign`). -/
inductive Sign
  | None | Plus | Minus
  deriving DecidableEq, Repr

/-- Whether a numeric literal contained `_` separators. -/
inductive HasUnderscores
  | No | Yes
  deriving DecidableEq, Repr

/-- `LiteralKind` values used by keyword-table literal tokens. -/
inductive LiteralKind
  | Infinity | Nan
  deriving DecidableEq, Repr

/-- `LiteralInfo`, by the factory used to build it in `lex.cc`. -/
inductive LiteralInfo
  | Nat (u : HasUnderscores)
  | HexNat (u : HasUnderscores)
  | Number (s : Sign) (u : HasUnderscores)
  | HexNumber (s : Sign) (u : HasUnderscores)
  | Infinity (s : Sign)
  | Nan (s : Sign)
  | NanPayload (s : Sign) (u : HasUnderscores)
  | ofKind (k : LiteralKind)
  deriving DecidableEq, Repr

/-- The auxiliary payload carried by a token. -/
inductive TokenInfo
  | none
  | opcodeInfo (op : Binary.Opcode) (f : Option Feature)
  | literal (l : LiteralInfo)
  | valueType (vt : ValueType)
  | text (byteSize : Nat)
  deriving DecidableEq, Repr

/-- A token: its type, the byte run designated by its location, and the
payload. -/
structure Token where
  type : TokenType
  text : List Nat
  info : TokenInfo
  deriving DecidableEq, Repr

/-- The 257-entry character-class table of `lex.cc` (index `c + 1` for
`c = -1 .. 255`), bit mask `{reserved = 1, keyword = 2, hexdigit = 4,
digit = 8}`. -/
def kCharClasses : List Nat :=
  [0, 0, 0, 0, 0, 0, 0, 0, 0, 0, 0, 0, 0, 0, 0, 0, 0, 0, 0,
   0, 0, 0, 0, 0, 0, 0, 0, 0, 0, 0, 0, 0, 0, 0, 1, 0, 1, 1,
   1, 1, 1, 0, 0, 1, 1, 0, 1, 1, 1, 13, 13, 13, 13, 13, 13, 13, 13,
   13, 13, 1, 0, 1, 1, 1, 1, 1, 5, 5, 5, 5, 5, 5, 1, 1, 1, 1,
   1, 1, 1, 1, 1, 1, 1, 1, 1, 1, 1, 1, 1, 1, 1, 1, 0, 1, 0,
   1, 1, 1, 7, 7, 7, 7, 7, 7, 3, 3, 3, 3, 3, 3, 3, 3, 3, 3,
   3, 3, 3, 3, 3, 3, 3, 3, 3, 3, 0, 1, 0, 1]

/-- `PeekChar(data, offset)`: the byte at `offset`, or `-1` past the end. -/
def peekChar (data : List Nat) (offset : Nat) : Int :=
  if offset < data.length then (data.getD offset 0 : Int) else -1

/-- `IsCharClass(c, bit)` via the table (class 0 outside the table). -/
def isCharClass (c : Int) (bit : Nat) : Bool :=
  kCharClasses.getD (c + 1).toNat 0 &&& bit ≠ 0

/-- `IsDigit`. -/
def isDigit (c : Int) : Bool := isCharClass c 8

/-- `IsHexDigit`. -/
def isHexDigit (c : Int) : Bool := isCharClass c 4

/-- `IsReserved`. -/
def isReserved (c : Int) : Bool := isCharClass c 1

/-- `ReadReservedChars`: count and skip the run of reserved characters. -/
def readReservedChars : List Nat → Nat × List Nat
  | [] => (0, [])
  | c :: rest =>
    if isReserved (c : Int) then
      let nr := readReservedChars rest
      (nr.1 + 1, nr.2)
    else (0, c :: rest)

/-- `MatchChar`: consume `c` if it is the next byte. -/
def matchChar (data : List Nat) (c : Nat) : Option (List Nat) :=
  if peekChar data 0 = (c : Int) then some data.tail else none

/-- `MatchSign`. -/
def matchSign (data : List Nat) : Sign × List Nat :=
  match matchChar data 43 with
  | some r => (.Plus, r)
  | none =>
    match matchChar data 45 with
    | some r => (.Minus, r)
    | none => (.None, data)

/-- `MatchString`: consume `sv` or fail (the guard restores the cursor, so
the caller keeps its own `data` on failure). -/
def matchString (data : List Nat) : List Nat → Option (List Nat)
  | [] => some data
  | c :: cs =>
    match matchChar data c with
    | some d1 => matchString d1 cs
    | none => none

/-- The loop of `MatchNum`: digits with single `_` separators; `ok` records
whether the last consumed character was a digit. -/
def matchNumLoop (u : HasUnderscores) (ok : Bool) :
    List Nat → Bool × HasUnderscores × List Nat
  | [] => (ok, u, [])
  | c :: rest =>
    if isDigit (c : Int) then
      if peekChar rest 0 = 95 then matchNumLoop .Yes false rest.tail
      else matchNumLoop u true rest
    else (ok, u, c :: rest)
  termination_by data => data.length
  decreasing_by
    · simp [List.length_tail]; omega
    · simp

/-- `MatchNum`: the guard resets the cursor unless `ok`. -/
def matchNum (u : HasUnderscores) (data : List Nat) :
    Option (HasUnderscores × List Nat) :=
  let r := matchNumLoop u false data
  if r.1 then some (r.2.1, r.2.2) else none

/-- The loop of `MatchHexNum`. -/
def matchHexNumLoop (u : HasUnderscores) (ok : Bool) :
    List Nat → Bool × HasUnderscores × List Nat
  | [] => (ok, u, [])
  | c :: rest =>
    if isHexDigit (c : Int) then
      if peekChar rest 0 = 95 then matchHexNumLoop .Yes false rest.tail
      else matchHexNumLoop u true rest
    else (ok, u, c :: rest)
  termination_by data => data.length
  decreasing_by
    · simp [List.length_tail]; omega
    · simp

/-- `MatchHexNum`. -/
def matchHexNum (u : HasUnderscores) (data : List Nat) :
    Option (HasUnderscores × List Nat) :=
  let r := matchHexNumLoop u false data
  if r.1 then some (r.2.1, r.2.2) else none

/-- The token location: the prefix of `orig` consumed down to `rest`. -/
def locTake (orig rest : List Nat) : List Nat :=
  orig.take (orig.length - rest.length)

/-- `LexReserved`: the maximal run of reserved characters as one token. -/
def lexReserved (data : List Nat) : Token × List Nat :=
  let nr := readReservedChars data
  (⟨.Reserved, data.take nr.1, .none⟩, nr.2)

/-- `LexAnnotation`: reserved chars from the guard position (note the
leading `(` is not reserved, so nothing is consumed). -/
def lexAnnot (data : List Nat) : Token × List Nat :=
  let nr := readReservedChars data
  (⟨.LparAnn, locTake data nr.2, .none⟩, nr.2)

/-- The loop of `LexBlockComment` (`(;` nests, `;)` closes). -/
def lexBlockCommentLoop (nesting : Int) : List Nat → TokenType × List Nat
  | [] => (.InvalidBlockComment, [])
  | c :: rest =>
    if c = 59 then
      if peekChar rest 0 = 41 then
        if nesting - 1 = 0 then (.BlockComment, rest.tail)
        else lexBlockCommentLoop (nesting - 1) rest.tail
      else lexBlockCommentLoop nesting rest
    else if c = 40 then
      if peekChar rest 0 = 59 then lexBlockCommentLoop (nesting + 1) rest.tail
      else lexBlockCommentLoop nesting rest
    else lexBlockCommentLoop nesting rest
  termination_by data => data.length
  decreasing_by
    all_goals simp [List.length_tail]
    all_goals omega

/-- `LexBlockComment`. -/
def lexBlockComment (data : List Nat) : Token × List Nat :=
  let tr := lexBlockCommentLoop 0 data
  (⟨tr.1, locTake data tr.2, .none⟩, tr.2)

/-- `LexId`: `$` followed by at least one reserved character. -/
def lexId (data : List Nat) : Token × List Nat :=
  let d1 := data.tail
  let nr := readReservedChars d1
  if nr.1 = 0 then (⟨.Reserved, locTake data nr.2, .none⟩, nr.2)
  else (⟨.Id, locTake data nr.2, .none⟩, nr.2)

/-- The loop of `LexLineComment`. -/
def lexLineCommentLoop : List Nat → TokenType × List Nat
  | [] => (.InvalidLineComment, [])
  | c :: rest =>
    if c = 10 then (.LineComment, rest)
    else lexLineCommentLoop rest

/-- `LexLineComment`. -/
def lexLineComment (data : List Nat) : Token × List Nat :=
  let tr := lexLineCommentLoop data
  (⟨tr.1, locTake data tr.2, .none⟩, tr.2)

/-- `LexNameEqNum` (`offset=N`, `align=N`). -/
def lexNameEqNum (data sv : List Nat) (tt : TokenType) : Token × List Nat :=
  match matchString data sv with
  | some d1 =>
    match matchString d1 [48, 120] with
    | some d2 =>
      match matchHexNum .No d2 with
      | some ur =>
        let nr := readReservedChars ur.2
        if nr.1 = 0 then (⟨tt, locTake data nr.2, .literal (.HexNat ur.1)⟩, nr.2)
        else lexReserved data
      | none => lexReserved data
    | none =>
      match matchNum .No d1 with
      | some ur =>
        let nr := readReservedChars ur.2
        if nr.1 = 0 then (⟨tt, locTake data nr.2, .literal (.Nat ur.1)⟩, nr.2)
        else lexReserved data
      | none => lexReserved data
  | none => lexReserved data

/-- The byte string `"inf"`. -/
def strInf : List Nat := [105, 110, 102]

/-- The byte string `"nan"`. -/
def strNan : List Nat := [110, 97, 110]

/-- The byte string `"0x"`. -/
def str0x : List Nat := [48, 120]

/-- `LexInf`; on the failure paths the cursor is handed to `LexReserved`
without a reset. -/
def lexInf (data : List Nat) : Token × List Nat :=
  let sd := matchSign data
  match matchString sd.2 strInf with
  | some d2 =>
    let nr := readReservedChars d2
    if nr.1 = 0 then (⟨.Float, locTake data nr.2, .literal (.Infinity sd.1)⟩, nr.2)
    else lexReserved nr.2
  | none => lexReserved sd.2

/-- `LexNan` (`nan`, `nan:0x…`); failure paths also skip the reset. -/
def lexNan (data : List Nat) : Token × List Nat :=
  let sd := matchSign data
  match matchString sd.2 strNan with
  | some d2 =>
    match matchChar d2 58 with
    | some d3 =>
      match matchString d3 str0x with
      | some d4 =>
        match matchHexNum .No d4 with
        | some ur =>
          let nr := readReservedChars ur.2
          if nr.1 = 0 then
            (⟨.Float, locTake data nr.2, .literal (.NanPayload sd.1 ur.1)⟩, nr.2)
          else lexReserved nr.2
        | none => lexReserved d4
      | none => lexReserved d3
    | none =>
      let nr := readReservedChars d2
      if nr.1 = 0 then (⟨.Float, locTake data nr.2, .literal (.Nan sd.1)⟩, nr.2)
      else lexReserved nr.2
  | none => lexReserved sd.2

/-- The shared tail of `LexNumber`/`LexHexNumber`: no trailing reserved
characters, or a full reset to `LexReserved`. -/
def lexNumberFinish (orig : List Nat) (sign : Sign) (hex : Bool)
    (tt : TokenType) (u : HasUnderscores) (d : List Nat) : Token × List Nat :=
  let nr := readReservedChars d
  if nr.1 = 0 then
    (⟨tt, locTake orig nr.2,
       .literal (if hex then .HexNumber sign u else .Number sign u)⟩, nr.2)
  else lexReserved orig

/-- The exponent tail of `LexNumber` (after `e`/`E`): optional sign, then
digits, else a full reset. -/
def lexNumberExpTail (orig : List Nat) (sign : Sign)
    (u : HasUnderscores) (d : List Nat) : Token × List Nat :=
  let sd2 := matchSign d
  match matchNum u sd2.2 with
  | none => lexReserved orig
  | some ur3 => lexNumberFinish orig sign false .Float ur3.1 ur3.2

/-- The optional exponent of `LexNumber`. -/
def lexNumberExp (orig : List Nat) (sign : Sign) (tt : TokenType)
    (u : HasUnderscores) (d : List Nat) : Token × List Nat :=
  match matchChar d 101 with
  | some d5 => lexNumberExpTail orig sign u d5
  | none =>
    match matchChar d 69 with
    | some d5 => lexNumberExpTail orig sign u d5
    | none => lexNumberFinish orig sign false tt u d

/-- `LexNumber`: decimal integer or float. -/
def lexNumber (data : List Nat) (tt0 : TokenType) : Token × List Nat :=
  let sd := matchSign data
  match matchNum .No sd.2 with
  | none => lexReserved data
  | some ur1 =>
    match matchChar ur1.2 46 with
    | some d3 =>
      if isDigit (peekChar d3 0) then
        match matchNum ur1.1 d3 with
        | none => lexReserved data
        | some ur2 => lexNumberExp data sd.1 .Float ur2.1 ur2.2
      else lexNumberExp data sd.1 .Float ur1.1 d3
    | none => lexNumberExp data sd.1 tt0 ur1.1 ur1.2

/-- The exponent tail of `LexHexNumber` (after `p`/`P`); exponent digits
are decimal. -/
def lexHexNumberExpTail (orig : List Nat) (sign : Sign)
    (u : HasUnderscores) (d : List Nat) : Token × List Nat :=
  let sd2 := matchSign d
  match matchNum u sd2.2 with
  | none => lexReserved orig
  | some ur3 => lexNumberFinish orig sign true .Float ur3.1 ur3.2

/-- The optional exponent of `LexHexNumber`. -/
def lexHexNumberExp (orig : List Nat) (sign : Sign) (tt : TokenType)
    (u : HasUnderscores) (d : List Nat) : Token × List Nat :=
  match matchChar d 112 with
  | some d5 => lexHexNumberExpTail orig sign u d5
  | none =>
    match matchChar d 80 with
    | some d5 => lexHexNumberExpTail orig sign u d5
    | none => lexNumberFinish orig sign true tt u d

/-- `LexHexNumber`: hex integer or hex float. -/
def lexHexNumber (data : List Nat) (tt0 : TokenType) : Token × List Nat :=
  let sd := matchSign data
  let d1 :=
    match matchString sd.2 str0x with
    | some d => d
    | none => sd.2
  match matchHexNum .No d1 with
  | none => lexReserved data
  | some ur1 =>
    match matchChar ur1.2 46 with
    | some d3 =>
      if isHexDigit (peekChar d3 0) then
        match matchHexNum ur1.1 d3 with
        | none => lexReserved data
        | some ur2 => lexHexNumberExp data sd.1 .Float ur2.1 ur2.2
      else lexHexNumberExp data sd.1 .Float ur1.1 d3
    | none => lexHexNumberExp data sd.1 tt0 ur1.1 ur1.2

/-- The loop of `LexText`: `(has_error, byte_size, rest)`. -/
def lexTextLoop (hasError : Bool) (byteSize : Nat) :
    List Nat → Bool × Nat × List Nat
  | [] => (true, byteSize, [])
  | c :: rest =>
    if c = 10 then lexTextLoop true byteSize rest
    else if c = 34 then (hasError, byteSize, rest)
    else if c = 92 then
      match rest with
      | [] => (true, byteSize, [])
      | e :: rest2 =>
        if e = 116 ∨ e = 110 ∨ e = 114 ∨ e = 34 ∨ e = 39 ∨ e = 92 then
          lexTextLoop hasError (byteSize + 1) rest2
        else if isHexDigit (e : Int) then
          if isHexDigit (peekChar rest2 0) then
            lexTextLoop hasError (byteSize + 1) rest2.tail
          else lexTextLoop true byteSize rest2
        else lexTextLoop true byteSize rest2
    else lexTextLoop hasError (byteSize + 1) rest
  termination_by data => data.length
  decreasing_by
    all_goals simp_all [List.length_tail]
    all_goals omega

/-- `LexText`: a double-quoted string literal. -/
def lexText (data : List Nat) : Token × List Nat :=
  let d1 :=
    match matchChar data 34 with
    | some d => d
    | none => data
  let r := lexTextLoop false 0 d1
  if r.1 then (⟨.InvalidText, locTake data r.2.2, .none⟩, r.2.2)
  else (⟨.Text, locTake data r.2.2, .text r.2.1⟩, r.2.2)

/-- The loop of `LexWhitespace`. -/
def lexWhitespaceLoop : List Nat → List Nat
  | [] => []
  | c :: rest =>
    if c = 32 ∨ c = 9 ∨ c = 13 ∨ c = 10 then lexWhitespaceLoop rest
    else c :: rest

/-- `LexWhitespace`. -/
def lexWhitespace (data : List Nat) : Token × List Nat :=
  let rest := lexWhitespaceLoop data
  (⟨.Whitespace, locTake data rest, .none⟩, rest)

/-- `LexKeyword`, all overloads: the keyword bytes followed by no reserved
character, or the whole run is re-lexed as `Reserved` from the start. -/
def lexKeyword (data sv : List Nat) (tt : TokenType) (info : TokenInfo) :
    Token × List Nat :=
  match matchString data sv with
  | some d1 =>
    let nr := readReservedChars d1
    if nr.1 = 0 then (⟨tt, locTake data nr.2, info⟩, nr.2)
    else lexReserved data
  | none => lexReserved data

end Text

namespace Text

/-- The token types carried by `LexKeyword(data, sv, TokenType, …)`
leaves of the keyword table (the `Float` literal leaves and the
`offset=`/`align=` leaves have dedicated `KwLeaf` constructors). -/
inductive KwTT
  | AssertExhaustion | AssertInvalid | AssertMalformed | AssertReturn | AssertTrap | AssertUnlinkable
  | Binary | BlockInstr | BrOnExnInstr | BrTableInstr | CallIndirectInstr | Catch
  | Data | Declare | Elem | Else | End | Event
  | Export | F32ConstInstr | F32X4 | F64ConstInstr | F64X2 | Func
  | Get | Global | I16X8 | I32ConstInstr | I32X4 | I64ConstInstr
  | I64X2 | I8X16 | Import | Invoke | Item | Local
  | Memory | MemoryInstr | Module | Mut | NanArithmetic | NanCanonical
  | Offset | Param | Quote | RefAny | RefFuncInstr | RefHost
  | RefNullInstr | Register | Result | SelectInstr | Shared | SimdConstInstr
  | SimdLaneInstr | SimdShuffleInstr | Start | Table | TableCopyInstr | TableInitInstr
  | Then | Type | VarInstr
  deriving DecidableEq, Repr

/-- The `TokenType` denoted by a `KwTT`. -/
def kwTTtoTT : KwTT → TokenType
  | .AssertExhaustion => .AssertExhaustion
  | .AssertInvalid => .AssertInvalid
  | .AssertMalformed => .AssertMalformed
  | .AssertReturn => .AssertReturn
  | .AssertTrap => .AssertTrap
  | .AssertUnlinkable => .AssertUnlinkable
  | .Binary => .Binary
  | .BlockInstr => .BlockInstr
  | .BrOnExnInstr => .BrOnExnInstr
  | .BrTableInstr => .BrTableInstr
  | .CallIndirectInstr => .CallIndirectInstr
  | .Catch => .Catch
  | .Data => .Data
  | .Declare => .Declare
  | .Elem => .Elem
  | .Else => .Else
  | .End => .End
  | .Event => .Event
  | .Export => .Export
  | .F32ConstInstr => .F32ConstInstr
  | .F32X4 => .F32X4
  | .F64ConstInstr => .F64ConstInstr
  | .F64X2 => .F64X2
  | .Func => .Func
  | .Get => .Get
  | .Global => .Global
  | .I16X8 => .I16X8
  | .I32ConstInstr => .I32ConstInstr
  | .I32X4 => .I32X4
  | .I64ConstInstr => .I64ConstInstr
  | .I64X2 => .I64X2
  | .I8X16 => .I8X16
  | .Import => .Import
  | .Invoke => .Invoke
  | .Item => .Item
  | .Local => .Local
  | .Memory => .Memory
  | .MemoryInstr => .MemoryInstr
  | .Module => .Module
  | .Mut => .Mut
  | .NanArithmetic => .NanArithmetic
  | .NanCanonical => .NanCanonical
  | .Offset => .Offset
  | .Param => .Param
  | .Quote => .Quote
  | .RefAny => .RefAny
  | .RefFuncInstr => .RefFuncInstr
  | .RefHost => .RefHost
  | .RefNullInstr => .RefNullInstr
  | .Register => .Register
  | .Result => .Result
  | .SelectInstr => .SelectInstr
  | .Shared => .Shared
  | .SimdConstInstr => .SimdConstInstr
  | .SimdLaneInstr => .SimdLaneInstr
  | .SimdShuffleInstr => .SimdShuffleInstr
  | .Start => .Start
  | .Table => .Table
  | .TableCopyInstr => .TableCopyInstr
  | .TableInitInstr => .TableInitInstr
  | .Then => .Then
  | .Type => .Type
  | .VarInstr => .VarInstr

/-- One leaf of the keyword dispatch tree: which `Lex*` call the
tree selects. Every leaf re-validates its keyword via `lexKeyword`
(or `lexNameEqNum` / `lexNan`). -/
inductive KwLeaf
  | bare (sv : List Nat) (op : Binary.Opcode) (f : Option Feature)
  | typed (tt : KwTT) (sv : List Nat) (op : Binary.Opcode) (f : Option Feature)
  | plain (tt : KwTT) (sv : List Nat)
  | valType (sv : List Nat) (vt : ValueType)
  | litInf
  | litNan
  | offsetEq
  | alignEq
  | nanCall
  deriving DecidableEq, Repr

/-- The keyword prefix-dispatch tree of `keywords-inl.cc`: nested
switches on peeked characters selecting a leaf; `none` falls through
to the reserved/invalid handling at the end of `Lex`. -/
def kwDispatch (data : List Nat) : Option KwLeaf :=
  if peekChar data 2 = 50 then
    if peekChar data 3 = 46 then
      if peekChar data 6 = 95 then
        if peekChar data 7 = 115 then
          if peekChar data 5 = 101 then
            if peekChar data 4 = 103 then
              some (.bare [105, 51, 50, 46, 103, 101, 95, 115] .I32GeS none)  -- i32.ge_s
            else if peekChar data 4 = 108 then
              some (.bare [105, 51, 50, 46, 108, 101, 95, 115] .I32LeS none)  -- i32.le_s
            else
              none
          else if peekChar data 5 = 116 then
            if peekChar data 4 = 103 then
              some (.bare [105, 51, 50, 46, 103, 116, 95, 115] .I32GtS none)  -- i32.gt_s
            else if peekChar data 4 = 108 then
              some (.bare [105, 51, 50, 46, 108, 116, 95, 115] .I32LtS none)  -- i32.lt_s
            else
              none
          else
            none
        else if peekChar data 7 = 117 then
          if peekChar data 5 = 101 then
            if peekChar data 4 = 103 then
              some (.bare [105, 51, 50, 46, 103, 101, 95, 117] .I32GeU none)  -- i32.ge_u
            else if peekChar data 4 = 108 then
              some (.bare [105, 51, 50, 46, 108, 101, 95, 117] .I32LeU none)  -- i32.le_u
            else
              none
          else if peekChar data 5 = 116 then
            if peekChar data 4 = 103 then
              some (.bare [105, 51, 50, 46, 103, 116, 95, 117] .I32GtU none)  -- i32.gt_u
            else if peekChar data 4 = 108 then
              some (.bare [105, 51, 50, 46, 108, 116, 95, 117] .I32LtU none)  -- i32.lt_u
            else
              none
          else
            none
        else
          none
      else if peekChar data 6 = 97 then
        if peekChar data 8 = 47 then
          some (.bare [105, 51, 50, 46, 119, 114, 97, 112, 47, 105, 54, 52] .I32WrapI64 none)  -- i32.wrap/i64
        else if peekChar data 8 = 49 then
          if peekChar data 11 = 115 then
            some (.typed .MemoryInstr [105, 51, 50, 46, 108, 111, 97, 100, 49, 54, 95, 115] .I32Load16S none)  -- i32.load16_s
          else if peekChar data 11 = 117 then
            some (.typed .MemoryInstr [105, 51, 50, 46, 108, 111, 97, 100, 49, 54, 95, 117] .I32Load16U none)  -- i32.load16_u
          else
            none
        else if peekChar data 8 = 56 then
          if peekChar data 10 = 115 then
            some (.typed .MemoryInstr [105, 51, 50, 46, 108, 111, 97, 100, 56, 95, 115] .I32Load8S none)  -- i32.load8_s
          else if peekChar data 10 = 117 then
            some (.typed .MemoryInstr [105, 51, 50, 46, 108, 111, 97, 100, 56, 95, 117] .I32Load8U none)  -- i32.load8_u
          else
            none
        else if peekChar data 8 = 95 then
          some (.bare [105, 51, 50, 46, 119, 114, 97, 112, 95, 105, 54, 52] .I32WrapI64 none)  -- i32.wrap_i64
        else if peekChar data 8 = 101 then
          some (.bare [102, 51, 50, 46, 110, 101, 97, 114, 101, 115, 116] .F32Nearest none)  -- f32.nearest
        else
          if peekChar data 0 = 102 then
            some (.typed .MemoryInstr [102, 51, 50, 46, 108, 111, 97, 100] .F32Load none)  -- f32.load
          else if peekChar data 0 = 105 then
            some (.typed .MemoryInstr [105, 51, 50, 46, 108, 111, 97, 100] .I32Load none)  -- i32.load
          else
            none
      else if peekChar data 6 = 98 then
        if peekChar data 0 = 102 then
          some (.bare [102, 51, 50, 46, 115, 117, 98] .F32Sub none)  -- f32.sub
        else if peekChar data 0 = 105 then
          some (.bare [105, 51, 50, 46, 115, 117, 98] .I32Sub none)  -- i32.sub
        else
          none
      else if peekChar data 6 = 100 then
        if peekChar data 5 = 100 then
          if peekChar data 0 = 102 then
            some (.bare [102, 51, 50, 46, 97, 100, 100] .F32Add none)  -- f32.add
          else if peekChar data 0 = 105 then
            some (.bare [105, 51, 50, 46, 97, 100, 100] .I32Add none)  -- i32.add
          else
            none
        else if peekChar data 5 = 110 then
          some (.bare [105, 51, 50, 46, 97, 110, 100] .I32And none)  -- i32.and
        else
          none
      else if peekChar data 6 = 103 then
        some (.bare [102, 51, 50, 46, 110, 101, 103] .F32Neg none)  -- f32.neg
      else if peekChar data 6 = 105 then
        if peekChar data 8 = 116 then
          if peekChar data 16 = 102 then
            if peekChar data 15 = 47 then
              some (.bare [105, 51, 50, 46, 114, 101, 105, 110, 116, 101, 114, 112, 114, 101, 116, 47, 102, 51, 50] .I32ReinterpretF32 none)  -- i32.reinterpret/f32
            else if peekChar data 15 = 95 then
              some (.bare [105, 51, 50, 46, 114, 101, 105, 110, 116, 101, 114, 112, 114, 101, 116, 95, 102, 51, 50] .I32ReinterpretF32 none)  -- i32.reinterpret_f32
            else
              none
          else if peekChar data 16 = 105 then
            if peekChar data 15 = 47 then
              some (.bare [102, 51, 50, 46, 114, 101, 105, 110, 116, 101, 114, 112, 114, 101, 116, 47, 105, 51, 50] .F32ReinterpretI32 none)  -- f32.reinterpret/i32
            else if peekChar data 15 = 95 then
              some (.bare [102, 51, 50, 46, 114, 101, 105, 110, 116, 101, 114, 112, 114, 101, 116, 95, 105, 51, 50] .F32ReinterpretI32 none)  -- f32.reinterpret_i32
            else
              none
          else
            none
        else
          some (.bare [102, 51, 50, 46, 99, 101, 105, 108] .F32Ceil none)  -- f32.ceil
      else if peekChar data 6 = 108 then
        if peekChar data 5 = 104 then
          some (.bare [105, 51, 50, 46, 115, 104, 108] .I32Shl none)  -- i32.shl
        else if peekChar data 5 = 117 then
          if peekChar data 0 = 102 then
            some (.bare [102, 51, 50, 46, 109, 117, 108] .F32Mul none)  -- f32.mul
          else if peekChar data 0 = 105 then
            some (.bare [105, 51, 50, 46, 109, 117, 108] .I32Mul none)  -- i32.mul
          else
            none
        else
          none
      else if peekChar data 6 = 109 then
        if peekChar data 8 = 115 then
          some (.bare [105, 51, 50, 46, 114, 101, 109, 95, 115] .I32RemS none)  -- i32.rem_s
        else if peekChar data 8 = 116 then
          if peekChar data 10 = 47 then
            some (.bare [102, 51, 50, 46, 100, 101, 109, 111, 116, 101, 47, 102, 54, 52] .F32DemoteF64 none)  -- f32.demote/f64
          else if peekChar data 10 = 95 then
            some (.bare [102, 51, 50, 46, 100, 101, 109, 111, 116, 101, 95, 102, 54, 52] .F32DemoteF64 none)  -- f32.demote_f64
          else
            none
        else if peekChar data 8 = 117 then
          some (.bare [105, 51, 50, 46, 114, 101, 109, 95, 117] .I32RemU none)  -- i32.rem_u
        else
          none
      else if peekChar data 6 = 110 then
        if peekChar data 7 = 115 then
          if peekChar data 0 = 102 then
            some (.typed .F32ConstInstr [102, 51, 50, 46, 99, 111, 110, 115, 116] .F32Const none)  -- f32.const
          else if peekChar data 0 = 105 then
            some (.typed .I32ConstInstr [105, 51, 50, 46, 99, 111, 110, 115, 116] .I32Const none)  -- i32.const
          else
            none
        else if peekChar data 7 = 118 then
          if peekChar data 16 = 50 then
            if peekChar data 12 = 115 then
              some (.bare [102, 51, 50, 46, 99, 111, 110, 118, 101, 114, 116, 95, 115, 47, 105, 51, 50] .F32ConvertI32S none)  -- f32.convert_s/i32
            else if peekChar data 12 = 117 then
              some (.bare [102, 51, 50, 46, 99, 111, 110, 118, 101, 114, 116, 95, 117, 47, 105, 51, 50] .F32ConvertI32U none)  -- f32.convert_u/i32
            else
              none
          else if peekChar data 16 = 52 then
            if peekChar data 12 = 115 then
              some (.bare [102, 51, 50, 46, 99, 111, 110, 118, 101, 114, 116, 95, 115, 47, 105, 54, 52] .F32ConvertI64S none)  -- f32.convert_s/i64
            else if peekChar data 12 = 117 then
              some (.bare [102, 51, 50, 46, 99, 111, 110, 118, 101, 114, 116, 95, 117, 47, 105, 54, 52] .F32ConvertI64U none)  -- f32.convert_u/i64
            else
              none
          else if peekChar data 16 = 115 then
            if peekChar data 14 = 50 then
              some (.bare [102, 51, 50, 46, 99, 111, 110, 118, 101, 114, 116, 95, 105, 51, 50, 95, 115] .F32ConvertI32S none)  -- f32.convert_i32_s
            else if peekChar data 14 = 52 then
              some (.bare [102, 51, 50, 46, 99, 111, 110, 118, 101, 114, 116, 95, 105, 54, 52, 95, 115] .F32ConvertI64S none)  -- f32.convert_i64_s
            else
              none
          else if peekChar data 16 = 117 then
            if peekChar data 14 = 50 then
              some (.bare [102, 51, 50, 46, 99, 111, 110, 118, 101, 114, 116, 95, 105, 51, 50, 95, 117] .F32ConvertI32U none)  -- f32.convert_i32_u
            else if peekChar data 14 = 52 then
              some (.bare [102, 51, 50, 46, 99, 111, 110, 118, 101, 114, 116, 95, 105, 54, 52, 95, 117] .F32ConvertI64U none)  -- f32.convert_i64_u
            else
              none
          else
            none
        else
          some (.bare [102, 51, 50, 46, 109, 105, 110] .F32Min none)  -- f32.min
      else if peekChar data 6 = 111 then
        if peekChar data 9 = 49 then
          some (.typed .MemoryInstr [105, 51, 50, 46, 115, 116, 111, 114, 101, 49, 54] .I32Store16 none)  -- i32.store16
        else if peekChar data 9 = 56 then
          some (.typed .MemoryInstr [105, 51, 50, 46, 115, 116, 111, 114, 101, 56] .I32Store8 none)  -- i32.store8
        else if peekChar data 9 = 99 then
          if peekChar data 15 = 46 then
            if peekChar data 17 = 99 then
              some (.typed .MemoryInstr [105, 51, 50, 46, 97, 116, 111, 109, 105, 99, 46, 114, 109, 119, 56, 46, 120, 99, 104, 103, 95, 117] .I32AtomicRmw8XchgU (some .Threads))  -- i32.atomic.rmw8.xchg_u
            else if peekChar data 17 = 100 then
              some (.typed .MemoryInstr [105, 51, 50, 46, 97, 116, 111, 109, 105, 99, 46, 114, 109, 119, 56, 46, 97, 100, 100, 95, 117] .I32AtomicRmw8AddU (some .Threads))  -- i32.atomic.rmw8.add_u
            else if peekChar data 17 = 109 then
              some (.typed .MemoryInstr [105, 51, 50, 46, 97, 116, 111, 109, 105, 99, 46, 114, 109, 119, 56, 46, 99, 109, 112, 120, 99, 104, 103, 95, 117] .I32AtomicRmw8CmpxchgU (some .Threads))  -- i32.atomic.rmw8.cmpxchg_u
            else if peekChar data 17 = 110 then
              some (.typed .MemoryInstr [105, 51, 50, 46, 97, 116, 111, 109, 105, 99, 46, 114, 109, 119, 56, 46, 97, 110, 100, 95, 117] .I32AtomicRmw8AndU (some .Threads))  -- i32.atomic.rmw8.and_u
            else if peekChar data 17 = 111 then
              some (.typed .MemoryInstr [105, 51, 50, 46, 97, 116, 111, 109, 105, 99, 46, 114, 109, 119, 56, 46, 120, 111, 114, 95, 117] .I32AtomicRmw8XorU (some .Threads))  -- i32.atomic.rmw8.xor_u
            else if peekChar data 17 = 114 then
              some (.typed .MemoryInstr [105, 51, 50, 46, 97, 116, 111, 109, 105, 99, 46, 114, 109, 119, 56, 46, 111, 114, 95, 117] .I32AtomicRmw8OrU (some .Threads))  -- i32.atomic.rmw8.or_u
            else if peekChar data 17 = 117 then
              some (.typed .MemoryInstr [105, 51, 50, 46, 97, 116, 111, 109, 105, 99, 46, 114, 109, 119, 56, 46, 115, 117, 98, 95, 117] .I32AtomicRmw8SubU (some .Threads))  -- i32.atomic.rmw8.sub_u
            else
              none
          else if peekChar data 15 = 49 then
            some (.typed .MemoryInstr [105, 51, 50, 46, 97, 116, 111, 109, 105, 99, 46, 108, 111, 97, 100, 49, 54, 95, 117] .I32AtomicLoad16U (some .Threads))  -- i32.atomic.load16_u
          else if peekChar data 15 = 54 then
            if peekChar data 18 = 99 then
              some (.typed .MemoryInstr [105, 51, 50, 46, 97, 116, 111, 109, 105, 99, 46, 114, 109, 119, 49, 54, 46, 120, 99, 104, 103, 95, 117] .I32AtomicRmw16XchgU (some .Threads))  -- i32.atomic.rmw16.xchg_u
            else if peekChar data 18 = 100 then
              some (.typed .MemoryInstr [105, 51, 50, 46, 97, 116, 111, 109, 105, 99, 46, 114, 109, 119, 49, 54, 46, 97, 100, 100, 95, 117] .I32AtomicRmw16AddU (some .Threads))  -- i32.atomic.rmw16.add_u
            else if peekChar data 18 = 109 then
              some (.typed .MemoryInstr [105, 51, 50, 46, 97, 116, 111, 109, 105, 99, 46, 114, 109, 119, 49, 54, 46, 99, 109, 112, 120, 99, 104, 103, 95, 117] .I32AtomicRmw16CmpxchgU (some .Threads))  -- i32.atomic.rmw16.cmpxchg_u
            else if peekChar data 18 = 110 then
              some (.typed .MemoryInstr [105, 51, 50, 46, 97, 116, 111, 109, 105, 99, 46, 114, 109, 119, 49, 54, 46, 97, 110, 100, 95, 117] .I32AtomicRmw16AndU (some .Threads))  -- i32.atomic.rmw16.and_u
            else if peekChar data 18 = 111 then
              some (.typed .MemoryInstr [105, 51, 50, 46, 97, 116, 111, 109, 105, 99, 46, 114, 109, 119, 49, 54, 46, 120, 111, 114, 95, 117] .I32AtomicRmw16XorU (some .Threads))  -- i32.atomic.rmw16.xor_u
            else if peekChar data 18 = 114 then
              some (.typed .MemoryInstr [105, 51, 50, 46, 97, 116, 111, 109, 105, 99, 46, 114, 109, 119, 49, 54, 46, 111, 114, 95, 117] .I32AtomicRmw16OrU (some .Threads))  -- i32.atomic.rmw16.or_u
            else if peekChar data 18 = 117 then
              some (.typed .MemoryInstr [105, 51, 50, 46, 97, 116, 111, 109, 105, 99, 46, 114, 109, 119, 49, 54, 46, 115, 117, 98, 95, 117] .I32AtomicRmw16SubU (some .Threads))  -- i32.atomic.rmw16.sub_u
            else
              none
          else if peekChar data 15 = 56 then
            some (.typed .MemoryInstr [105, 51, 50, 46, 97, 116, 111, 109, 105, 99, 46, 108, 111, 97, 100, 56, 95, 117] .I32AtomicLoad8U (some .Threads))  -- i32.atomic.load8_u
          else if peekChar data 15 = 97 then
            if peekChar data 16 = 100 then
              some (.typed .MemoryInstr [105, 51, 50, 46, 97, 116, 111, 109, 105, 99, 46, 114, 109, 119, 46, 97, 100, 100] .I32AtomicRmwAdd (some .Threads))  -- i32.atomic.rmw.add
            else if peekChar data 16 = 110 then
              some (.typed .MemoryInstr [105, 51, 50, 46, 97, 116, 111, 109, 105, 99, 46, 114, 109, 119, 46, 97, 110, 100] .I32AtomicRmwAnd (some .Threads))  -- i32.atomic.rmw.and
            else
              none
          else if peekChar data 15 = 99 then
            some (.typed .MemoryInstr [105, 51, 50, 46, 97, 116, 111, 109, 105, 99, 46, 114, 109, 119, 46, 99, 109, 112, 120, 99, 104, 103] .I32AtomicRmwCmpxchg (some .Threads))  -- i32.atomic.rmw.cmpxchg
          else if peekChar data 15 = 101 then
            if peekChar data 16 = 49 then
              some (.typed .MemoryInstr [105, 51, 50, 46, 97, 116, 111, 109, 105, 99, 46, 115, 116, 111, 114, 101, 49, 54] .I32AtomicStore16 (some .Threads))  -- i32.atomic.store16
            else if peekChar data 16 = 56 then
              some (.typed .MemoryInstr [105, 51, 50, 46, 97, 116, 111, 109, 105, 99, 46, 115, 116, 111, 114, 101, 56] .I32AtomicStore8 (some .Threads))  -- i32.atomic.store8
            else
              some (.typed .MemoryInstr [105, 51, 50, 46, 97, 116, 111, 109, 105, 99, 46, 115, 116, 111, 114, 101] .I32AtomicStore (some .Threads))  -- i32.atomic.store
          else if peekChar data 15 = 111 then
            some (.typed .MemoryInstr [105, 51, 50, 46, 97, 116, 111, 109, 105, 99, 46, 114, 109, 119, 46, 111, 114] .I32AtomicRmwOr (some .Threads))  -- i32.atomic.rmw.or
          else if peekChar data 15 = 115 then
            some (.typed .MemoryInstr [105, 51, 50, 46, 97, 116, 111, 109, 105, 99, 46, 114, 109, 119, 46, 115, 117, 98] .I32AtomicRmwSub (some .Threads))  -- i32.atomic.rmw.sub
          else if peekChar data 15 = 120 then
            if peekChar data 18 = 103 then
              some (.typed .MemoryInstr [105, 51, 50, 46, 97, 116, 111, 109, 105, 99, 46, 114, 109, 119, 46, 120, 99, 104, 103] .I32AtomicRmwXchg (some .Threads))  -- i32.atomic.rmw.xchg
            else
              some (.typed .MemoryInstr [105, 51, 50, 46, 97, 116, 111, 109, 105, 99, 46, 114, 109, 119, 46, 120, 111, 114] .I32AtomicRmwXor (some .Threads))  -- i32.atomic.rmw.xor
          else
            if peekChar data 14 = 100 then
              some (.typed .MemoryInstr [105, 51, 50, 46, 97, 116, 111, 109, 105, 99, 46, 108, 111, 97, 100] .I32AtomicLoad (some .Threads))  -- i32.atomic.load
            else if peekChar data 14 = 116 then
              some (.typed .MemoryInstr [105, 51, 50, 46, 97, 116, 111, 109, 105, 99, 46, 119, 97, 105, 116] .I32AtomicWait (some .Threads))  -- i32.atomic.wait
            else
              none
        else
          if peekChar data 8 = 101 then
            if peekChar data 0 = 102 then
              some (.typed .MemoryInstr [102, 51, 50, 46, 115, 116, 111, 114, 101] .F32Store none)  -- f32.store
            else if peekChar data 0 = 105 then
              some (.typed .MemoryInstr [105, 51, 50, 46, 115, 116, 111, 114, 101] .I32Store none)  -- i32.store
            else
              none
          else if peekChar data 8 = 114 then
            some (.bare [102, 51, 50, 46, 102, 108, 111, 111, 114] .F32Floor none)  -- f32.floor
          else
            none
      else if peekChar data 6 = 112 then
        if peekChar data 10 = 103 then
          some (.bare [102, 51, 50, 46, 99, 111, 112, 121, 115, 105, 103, 110] .F32Copysign none)  -- f32.copysign
        else
          some (.bare [105, 51, 50, 46, 112, 111, 112, 99, 110, 116] .I32Popcnt none)  -- i32.popcnt
      else if peekChar data 6 = 114 then
        if peekChar data 7 = 95 then
          if peekChar data 8 = 115 then
            some (.bare [105, 51, 50, 46, 115, 104, 114, 95, 115] .I32ShrS none)  -- i32.shr_s
          else if peekChar data 8 = 117 then
            some (.bare [105, 51, 50, 46, 115, 104, 114, 95, 117] .I32ShrU none)  -- i32.shr_u
          else
            none
        else if peekChar data 7 = 116 then
          some (.bare [102, 51, 50, 46, 115, 113, 114, 116] .F32Sqrt none)  -- f32.sqrt
        else
          some (.bare [105, 51, 50, 46, 120, 111, 114] .I32Xor none)  -- i32.xor
      else if peekChar data 6 = 115 then
        some (.bare [102, 51, 50, 46, 97, 98, 115] .F32Abs none)  -- f32.abs
      else if peekChar data 6 = 116 then
        if peekChar data 7 = 101 then
          if peekChar data 13 = 115 then
            some (.bare [105, 51, 50, 46, 101, 120, 116, 101, 110, 100, 49, 54, 95, 115] .I32Extend16S (some .SignExtension))  -- i32.extend16_s
          else
            some (.bare [105, 51, 50, 46, 101, 120, 116, 101, 110, 100, 56, 95, 115] .I32Extend8S (some .SignExtension))  -- i32.extend8_s
        else if peekChar data 7 = 108 then
          some (.bare [105, 51, 50, 46, 114, 111, 116, 108] .I32Rotl none)  -- i32.rotl
        else if peekChar data 7 = 114 then
          some (.bare [105, 51, 50, 46, 114, 111, 116, 114] .I32Rotr none)  -- i32.rotr
        else
          none
      else if peekChar data 6 = 117 then
        if peekChar data 9 = 95 then
          if peekChar data 14 = 50 then
            if peekChar data 10 = 115 then
              some (.bare [105, 51, 50, 46, 116, 114, 117, 110, 99, 95, 115, 47, 102, 51, 50] .I32TruncF32S none)  -- i32.trunc_s/f32
            else if peekChar data 10 = 117 then
              some (.bare [105, 51, 50, 46, 116, 114, 117, 110, 99, 95, 117, 47, 102, 51, 50] .I32TruncF32U none)  -- i32.trunc_u/f32
            else
              none
          else if peekChar data 14 = 52 then
            if peekChar data 10 = 115 then
              some (.bare [105, 51, 50, 46, 116, 114, 117, 110, 99, 95, 115, 47, 102, 54, 52] .I32TruncF64S none)  -- i32.trunc_s/f64
            else if peekChar data 10 = 117 then
              some (.bare [105, 51, 50, 46, 116, 114, 117, 110, 99, 95, 117, 47, 102, 54, 52] .I32TruncF64U none)  -- i32.trunc_u/f64
            else
              none
          else if peekChar data 14 = 102 then
            if peekChar data 18 = 115 then
              if peekChar data 16 = 50 then
                some (.bare [105, 51, 50, 46, 116, 114, 117, 110, 99, 95, 115, 97, 116, 95, 102, 51, 50, 95, 115] .I32TruncSatF32S (some .SaturatingFloatToInt))  -- i32.trunc_sat_f32_s
              else if peekChar data 16 = 52 then
                some (.bare [105, 51, 50, 46, 116, 114, 117, 110, 99, 95, 115, 97, 116, 95, 102, 54, 52, 95, 115] .I32TruncSatF64S (some .SaturatingFloatToInt))  -- i32.trunc_sat_f64_s
              else
                none
            else if peekChar data 18 = 117 then
              if peekChar data 16 = 50 then
                some (.bare [105, 51, 50, 46, 116, 114, 117, 110, 99, 95, 115, 97, 116, 95, 102, 51, 50, 95, 117] .I32TruncSatF32U (some .SaturatingFloatToInt))  -- i32.trunc_sat_f32_u
              else if peekChar data 16 = 52 then
                some (.bare [105, 51, 50, 46, 116, 114, 117, 110, 99, 95, 115, 97, 116, 95, 102, 54, 52, 95, 117] .I32TruncSatF64U (some .SaturatingFloatToInt))  -- i32.trunc_sat_f64_u
              else
                none
            else
              none
          else if peekChar data 14 = 115 then
            if peekChar data 12 = 50 then
              some (.bare [105, 51, 50, 46, 116, 114, 117, 110, 99, 95, 102, 51, 50, 95, 115] .I32TruncF32S none)  -- i32.trunc_f32_s
            else if peekChar data 12 = 52 then
              some (.bare [105, 51, 50, 46, 116, 114, 117, 110, 99, 95, 102, 54, 52, 95, 115] .I32TruncF64S none)  -- i32.trunc_f64_s
            else
              none
          else if peekChar data 14 = 116 then
            if peekChar data 18 = 50 then
              if peekChar data 10 = 115 then
                some (.bare [105, 51, 50, 46, 116, 114, 117, 110, 99, 95, 115, 58, 115, 97, 116, 47, 102, 51, 50] .I32TruncSatF32S (some .SaturatingFloatToInt))  -- i32.trunc_s:sat/f32
              else if peekChar data 10 = 117 then
                some (.bare [105, 51, 50, 46, 116, 114, 117, 110, 99, 95, 117, 58, 115, 97, 116, 47, 102, 51, 50] .I32TruncSatF32U (some .SaturatingFloatToInt))  -- i32.trunc_u:sat/f32
              else
                none
            else if peekChar data 18 = 52 then
              if peekChar data 10 = 115 then
                some (.bare [105, 51, 50, 46, 116, 114, 117, 110, 99, 95, 115, 58, 115, 97, 116, 47, 102, 54, 52] .I32TruncSatF64S (some .SaturatingFloatToInt))  -- i32.trunc_s:sat/f64
              else if peekChar data 10 = 117 then
                some (.bare [105, 51, 50, 46, 116, 114, 117, 110, 99, 95, 117, 58, 115, 97, 116, 47, 102, 54, 52] .I32TruncSatF64U (some .SaturatingFloatToInt))  -- i32.trunc_u:sat/f64
              else
                none
            else
              none
          else if peekChar data 14 = 117 then
            if peekChar data 12 = 50 then
              some (.bare [105, 51, 50, 46, 116, 114, 117, 110, 99, 95, 102, 51, 50, 95, 117] .I32TruncF32U none)  -- i32.trunc_f32_u
            else if peekChar data 12 = 52 then
              some (.bare [105, 51, 50, 46, 116, 114, 117, 110, 99, 95, 102, 54, 52, 95, 117] .I32TruncF64U none)  -- i32.trunc_f64_u
            else
              none
          else
            none
        else
          some (.bare [102, 51, 50, 46, 116, 114, 117, 110, 99] .F32Trunc none)  -- f32.trunc
      else if peekChar data 6 = 118 then
        if peekChar data 7 = 95 then
          if peekChar data 8 = 115 then
            some (.bare [105, 51, 50, 46, 100, 105, 118, 95, 115] .I32DivS none)  -- i32.div_s
          else if peekChar data 8 = 117 then
            some (.bare [105, 51, 50, 46, 100, 105, 118, 95, 117] .I32DivU none)  -- i32.div_u
          else
            none
        else
          some (.bare [102, 51, 50, 46, 100, 105, 118] .F32Div none)  -- f32.div
      else if peekChar data 6 = 120 then
        some (.bare [102, 51, 50, 46, 109, 97, 120] .F32Max none)  -- f32.max
      else if peekChar data 6 = 122 then
        if peekChar data 5 = 108 then
          some (.bare [105, 51, 50, 46, 99, 108, 122] .I32Clz none)  -- i32.clz
        else if peekChar data 5 = 113 then
          some (.bare [105, 51, 50, 46, 101, 113, 122] .I32Eqz none)  -- i32.eqz
        else if peekChar data 5 = 116 then
          some (.bare [105, 51, 50, 46, 99, 116, 122] .I32Ctz none)  -- i32.ctz
        else
          none
      else
        if peekChar data 4 = 101 then
          if peekChar data 0 = 102 then
            some (.bare [102, 51, 50, 46, 101, 113] .F32Eq none)  -- f32.eq
          else if peekChar data 0 = 105 then
            some (.bare [105, 51, 50, 46, 101, 113] .I32Eq none)  -- i32.eq
          else
            none
        else if peekChar data 4 = 103 then
          if peekChar data 5 = 101 then
            some (.bare [102, 51, 50, 46, 103, 101] .F32Ge none)  -- f32.ge
          else if peekChar data 5 = 116 then
            some (.bare [102, 51, 50, 46, 103, 116] .F32Gt none)  -- f32.gt
          else
            none
        else if peekChar data 4 = 108 then
          if peekChar data 5 = 101 then
            some (.bare [102, 51, 50, 46, 108, 101] .F32Le none)  -- f32.le
          else if peekChar data 5 = 116 then
            some (.bare [102, 51, 50, 46, 108, 116] .F32Lt none)  -- f32.lt
          else
            none
        else if peekChar data 4 = 110 then
          if peekChar data 0 = 102 then
            some (.bare [102, 51, 50, 46, 110, 101] .F32Ne none)  -- f32.ne
          else if peekChar data 0 = 105 then
            some (.bare [105, 51, 50, 46, 110, 101] .I32Ne none)  -- i32.ne
          else
            none
        else if peekChar data 4 = 111 then
          some (.bare [105, 51, 50, 46, 111, 114] .I32Or none)  -- i32.or
        else
          none
    else if peekChar data 3 = 56 then
      if peekChar data 4 = 46 then
        if peekChar data 5 = 97 then
          if peekChar data 8 = 110 then
            some (.bare [118, 49, 50, 56, 46, 97, 110, 100, 110, 111, 116] .V128Andnot (some .Simd))  -- v128.andnot
          else
            some (.bare [118, 49, 50, 56, 46, 97, 110, 100] .V128And (some .Simd))  -- v128.and
        else if peekChar data 5 = 98 then
          some (.bare [118, 49, 50, 56, 46, 98, 105, 116, 115, 101, 108, 101, 99, 116] .V128BitSelect (some .Simd))  -- v128.bitselect
        else if peekChar data 5 = 99 then
          some (.typed .SimdConstInstr [118, 49, 50, 56, 46, 99, 111, 110, 115, 116] .V128Const (some .Simd))  -- v128.const
        else if peekChar data 5 = 108 then
          some (.typed .MemoryInstr [118, 49, 50, 56, 46, 108, 111, 97, 100] .V128Load (some .Simd))  -- v128.load
        else if peekChar data 5 = 110 then
          some (.bare [118, 49, 50, 56, 46, 110, 111, 116] .V128Not (some .Simd))  -- v128.not
        else if peekChar data 5 = 111 then
          some (.bare [118, 49, 50, 56, 46, 111, 114] .V128Or (some .Simd))  -- v128.or
        else if peekChar data 5 = 115 then
          some (.typed .MemoryInstr [118, 49, 50, 56, 46, 115, 116, 111, 114, 101] .V128Store (some .Simd))  -- v128.store
        else if peekChar data 5 = 120 then
          some (.bare [118, 49, 50, 56, 46, 120, 111, 114] .V128Xor (some .Simd))  -- v128.xor
        else
          none
      else
        some (.valType [118, 49, 50, 56] .V128)  -- v128
    else if peekChar data 3 = 120 then
      if peekChar data 0 = 102 then
        if peekChar data 5 = 46 then
          if peekChar data 8 = 98 then
            some (.bare [102, 51, 50, 120, 52, 46, 115, 117, 98] .F32X4Sub (some .Simd))  -- f32x4.sub
          else if peekChar data 8 = 100 then
            some (.bare [102, 51, 50, 120, 52, 46, 97, 100, 100] .F32X4Add (some .Simd))  -- f32x4.add
          else if peekChar data 8 = 103 then
            some (.bare [102, 51, 50, 120, 52, 46, 110, 101, 103] .F32X4Neg (some .Simd))  -- f32x4.neg
          else if peekChar data 8 = 108 then
            if peekChar data 9 = 97 then
              some (.bare [102, 51, 50, 120, 52, 46, 115, 112, 108, 97, 116] .F32X4Splat (some .Simd))  -- f32x4.splat
            else
              some (.bare [102, 51, 50, 120, 52, 46, 109, 117, 108] .F32X4Mul (some .Simd))  -- f32x4.mul
          else if peekChar data 8 = 110 then
            if peekChar data 9 = 118 then
              if peekChar data 20 = 115 then
                some (.bare [102, 51, 50, 120, 52, 46, 99, 111, 110, 118, 101, 114, 116, 95, 105, 51, 50, 120, 52, 95, 115] .F32X4ConvertI32X4S (some .Simd))  -- f32x4.convert_i32x4_s
              else if peekChar data 20 = 117 then
                some (.bare [102, 51, 50, 120, 52, 46, 99, 111, 110, 118, 101, 114, 116, 95, 105, 51, 50, 120, 52, 95, 117] .F32X4ConvertI32X4U (some .Simd))  -- f32x4.convert_i32x4_u
              else
                none
            else
              some (.bare [102, 51, 50, 120, 52, 46, 109, 105, 110] .F32X4Min (some .Simd))  -- f32x4.min
          else if peekChar data 8 = 112 then
            some (.typed .SimdLaneInstr [102, 51, 50, 120, 52, 46, 114, 101, 112, 108, 97, 99, 101, 95, 108, 97, 110, 101] .F32X4ReplaceLane (some .Simd))  -- f32x4.replace_lane
          else if peekChar data 8 = 114 then
            some (.bare [102, 51, 50, 120, 52, 46, 115, 113, 114, 116] .F32X4Sqrt (some .Simd))  -- f32x4.sqrt
          else if peekChar data 8 = 115 then
            some (.bare [102, 51, 50, 120, 52, 46, 97, 98, 115] .F32X4Abs (some .Simd))  -- f32x4.abs
          else if peekChar data 8 = 116 then
            some (.typed .SimdLaneInstr [102, 51, 50, 120, 52, 46, 101, 120, 116, 114, 97, 99, 116, 95, 108, 97, 110, 101] .F32X4ExtractLane (some .Simd))  -- f32x4.extract_lane
          else if peekChar data 8 = 118 then
            some (.bare [102, 51, 50, 120, 52, 46, 100, 105, 118] .F32X4Div (some .Simd))  -- f32x4.div
          else if peekChar data 8 = 120 then
            some (.bare [102, 51, 50, 120, 52, 46, 109, 97, 120] .F32X4Max (some .Simd))  -- f32x4.max
          else
            if peekChar data 6 = 101 then
              some (.bare [102, 51, 50, 120, 52, 46, 101, 113] .F32X4Eq (some .Simd))  -- f32x4.eq
            else if peekChar data 6 = 103 then
              if peekChar data 7 = 101 then
                some (.bare [102, 51, 50, 120, 52, 46, 103, 101] .F32X4Ge (some .Simd))  -- f32x4.ge
              else if peekChar data 7 = 116 then
                some (.bare [102, 51, 50, 120, 52, 46, 103, 116] .F32X4Gt (some .Simd))  -- f32x4.gt
              else
                none
            else if peekChar data 6 = 108 then
              if peekChar data 7 = 101 then
                some (.bare [102, 51, 50, 120, 52, 46, 108, 101] .F32X4Le (some .Simd))  -- f32x4.le
              else if peekChar data 7 = 116 then
                some (.bare [102, 51, 50, 120, 52, 46, 108, 116] .F32X4Lt (some .Simd))  -- f32x4.lt
              else
                none
            else if peekChar data 6 = 110 then
              some (.bare [102, 51, 50, 120, 52, 46, 110, 101] .F32X4Ne (some .Simd))  -- f32x4.ne
            else
              none
        else
          some (.plain .F32X4 [102, 51, 50, 120, 52])  -- f32x4
      else if peekChar data 0 = 105 then
        if peekChar data 5 = 46 then
          if peekChar data 8 = 95 then
            if peekChar data 9 = 115 then
              if peekChar data 7 = 101 then
                if peekChar data 6 = 103 then
                  some (.bare [105, 51, 50, 120, 52, 46, 103, 101, 95, 115] .I32X4GeS (some .Simd))  -- i32x4.ge_s
                else if peekChar data 6 = 108 then
                  some (.bare [105, 51, 50, 120, 52, 46, 108, 101, 95, 115] .I32X4LeS (some .Simd))  -- i32x4.le_s
                else
                  none
              else if peekChar data 7 = 116 then
                if peekChar data 6 = 103 then
                  some (.bare [105, 51, 50, 120, 52, 46, 103, 116, 95, 115] .I32X4GtS (some .Simd))  -- i32x4.gt_s
                else if peekChar data 6 = 108 then
                  some (.bare [105, 51, 50, 120, 52, 46, 108, 116, 95, 115] .I32X4LtS (some .Simd))  -- i32x4.lt_s
                else
                  none
              else
                none
            else if peekChar data 9 = 117 then
              if peekChar data 7 = 101 then
                if peekChar data 6 = 103 then
                  some (.bare [105, 51, 50, 120, 52, 46, 103, 101, 95, 117] .I32X4GeU (some .Simd))  -- i32x4.ge_u
                else if peekChar data 6 = 108 then
                  some (.bare [105, 51, 50, 120, 52, 46, 108, 101, 95, 117] .I32X4LeU (some .Simd))  -- i32x4.le_u
                else
                  none
              else if peekChar data 7 = 116 then
                if peekChar data 6 = 103 then
                  some (.bare [105, 51, 50, 120, 52, 46, 103, 116, 95, 117] .I32X4GtU (some .Simd))  -- i32x4.gt_u
                else if peekChar data 6 = 108 then
                  some (.bare [105, 51, 50, 120, 52, 46, 108, 116, 95, 117] .I32X4LtU (some .Simd))  -- i32x4.lt_u
                else
                  none
              else
                none
            else
              none
          else if peekChar data 8 = 97 then
            if peekChar data 15 = 115 then
              some (.typed .MemoryInstr [105, 51, 50, 120, 52, 46, 108, 111, 97, 100, 49, 54, 120, 52, 95, 115] .I32X4Load16X4S (some .Simd))  -- i32x4.load16x4_s
            else if peekChar data 15 = 117 then
              some (.typed .MemoryInstr [105, 51, 50, 120, 52, 46, 108, 111, 97, 100, 49, 54, 120, 52, 95, 117] .I32X4Load16X4U (some .Simd))  -- i32x4.load16x4_u
            else
              none
          else if peekChar data 8 = 98 then
            some (.bare [105, 51, 50, 120, 52, 46, 115, 117, 98] .I32X4Sub (some .Simd))  -- i32x4.sub
          else if peekChar data 8 = 100 then
            if peekChar data 9 = 101 then
              if peekChar data 23 = 115 then
                some (.bare [105, 51, 50, 120, 52, 46, 119, 105, 100, 101, 110, 95, 104, 105, 103, 104, 95, 105, 49, 54, 120, 56, 95, 115] .I32X4WidenHighI16X8S (some .Simd))  -- i32x4.widen_high_i16x8_s
              else if peekChar data 23 = 117 then
                some (.bare [105, 51, 50, 120, 52, 46, 119, 105, 100, 101, 110, 95, 104, 105, 103, 104, 95, 105, 49, 54, 120, 56, 95, 117] .I32X4WidenHighI16X8U (some .Simd))  -- i32x4.widen_high_i16x8_u
              else
                if peekChar data 22 = 115 then
                  some (.bare [105, 51, 50, 120, 52, 46, 119, 105, 100, 101, 110, 95, 108, 111, 119, 95, 105, 49, 54, 120, 56, 95, 115] .I32X4WidenLowI16X8S (some .Simd))  -- i32x4.widen_low_i16x8_s
                else if peekChar data 22 = 117 then
                  some (.bare [105, 51, 50, 120, 52, 46, 119, 105, 100, 101, 110, 95, 108, 111, 119, 95, 105, 49, 54, 120, 56, 95, 117] .I32X4WidenLowI16X8U (some .Simd))  -- i32x4.widen_low_i16x8_u
                else
                  none
            else
              some (.bare [105, 51, 50, 120, 52, 46, 97, 100, 100] .I32X4Add (some .Simd))  -- i32x4.add
          else if peekChar data 8 = 103 then
            some (.bare [105, 51, 50, 120, 52, 46, 110, 101, 103] .I32X4Neg (some .Simd))  -- i32x4.neg
          else if peekChar data 8 = 108 then
            if peekChar data 7 = 104 then
              some (.bare [105, 51, 50, 120, 52, 46, 115, 104, 108] .I32X4Shl (some .Simd))  -- i32x4.shl
            else if peekChar data 7 = 108 then
              some (.bare [105, 51, 50, 120, 52, 46, 97, 108, 108, 95, 116, 114, 117, 101] .I32X4AllTrue (some .Simd))  -- i32x4.all_true
            else if peekChar data 7 = 112 then
              some (.bare [105, 51, 50, 120, 52, 46, 115, 112, 108, 97, 116] .I32X4Splat (some .Simd))  -- i32x4.splat
            else if peekChar data 7 = 117 then
              some (.bare [105, 51, 50, 120, 52, 46, 109, 117, 108] .I32X4Mul (some .Simd))  -- i32x4.mul
            else
              none
          else if peekChar data 8 = 110 then
            if peekChar data 10 = 115 then
              some (.bare [105, 51, 50, 120, 52, 46, 109, 105, 110, 95, 115] .I32X4MinS (some .Simd))  -- i32x4.min_s
            else if peekChar data 10 = 117 then
              some (.bare [105, 51, 50, 120, 52, 46, 109, 105, 110, 95, 117] .I32X4MinU (some .Simd))  -- i32x4.min_u
            else
              none
          else if peekChar data 8 = 112 then
            some (.typed .SimdLaneInstr [105, 51, 50, 120, 52, 46, 114, 101, 112, 108, 97, 99, 101, 95, 108, 97, 110, 101] .I32X4ReplaceLane (some .Simd))  -- i32x4.replace_lane
          else if peekChar data 8 = 114 then
            if peekChar data 10 = 115 then
              some (.bare [105, 51, 50, 120, 52, 46, 115, 104, 114, 95, 115] .I32X4ShrS (some .Simd))  -- i32x4.shr_s
            else if peekChar data 10 = 117 then
              some (.bare [105, 51, 50, 120, 52, 46, 115, 104, 114, 95, 117] .I32X4ShrU (some .Simd))  -- i32x4.shr_u
            else
              none
          else if peekChar data 8 = 116 then
            some (.typed .SimdLaneInstr [105, 51, 50, 120, 52, 46, 101, 120, 116, 114, 97, 99, 116, 95, 108, 97, 110, 101] .I32X4ExtractLane (some .Simd))  -- i32x4.extract_lane
          else if peekChar data 8 = 117 then
            if peekChar data 22 = 115 then
              some (.bare [105, 51, 50, 120, 52, 46, 116, 114, 117, 110, 99, 95, 115, 97, 116, 95, 102, 51, 50, 120, 52, 95, 115] .I32X4TruncSatF32X4S (some .Simd))  -- i32x4.trunc_sat_f32x4_s
            else if peekChar data 22 = 117 then
              some (.bare [105, 51, 50, 120, 52, 46, 116, 114, 117, 110, 99, 95, 115, 97, 116, 95, 102, 51, 50, 120, 52, 95, 117] .I32X4TruncSatF32X4U (some .Simd))  -- i32x4.trunc_sat_f32x4_u
            else
              none
          else if peekChar data 8 = 120 then
            if peekChar data 10 = 115 then
              some (.bare [105, 51, 50, 120, 52, 46, 109, 97, 120, 95, 115] .I32X4MaxS (some .Simd))  -- i32x4.max_s
            else if peekChar data 10 = 117 then
              some (.bare [105, 51, 50, 120, 52, 46, 109, 97, 120, 95, 117] .I32X4MaxU (some .Simd))  -- i32x4.max_u
            else
              none
          else if peekChar data 8 = 121 then
            some (.bare [105, 51, 50, 120, 52, 46, 97, 110, 121, 95, 116, 114, 117, 101] .I32X4AnyTrue (some .Simd))  -- i32x4.any_true
          else
            if peekChar data 7 = 101 then
              some (.bare [105, 51, 50, 120, 52, 46, 110, 101] .I32X4Ne (some .Simd))  -- i32x4.ne
            else if peekChar data 7 = 113 then
              some (.bare [105, 51, 50, 120, 52, 46, 101, 113] .I32X4Eq (some .Simd))  -- i32x4.eq
            else
              none
        else
          some (.plain .I32X4 [105, 51, 50, 120, 52])  -- i32x4
      else if peekChar data 0 = 118 then
        some (.typed .MemoryInstr [118, 51, 50, 120, 52, 46, 108, 111, 97, 100, 95, 115, 112, 108, 97, 116] .V32X4LoadSplat (some .Simd))  -- v32x4.load_splat
      else
        none
    else
      if peekChar data 0 = 102 then
        some (.valType [102, 51, 50] .F32)  -- f32
      else if peekChar data 0 = 105 then
        some (.valType [105, 51, 50] .I32)  -- i32
      else
        none
  else if peekChar data 2 = 52 then
    if peekChar data 3 = 46 then
      if peekChar data 6 = 95 then
        if peekChar data 7 = 115 then
          if peekChar data 5 = 101 then
            if peekChar data 4 = 103 then
              some (.bare [105, 54, 52, 46, 103, 101, 95, 115] .I64GeS none)  -- i64.ge_s
            else if peekChar data 4 = 108 then
              some (.bare [105, 54, 52, 46, 108, 101, 95, 115] .I64LeS none)  -- i64.le_s
            else
              none
          else if peekChar data 5 = 116 then
            if peekChar data 4 = 103 then
              some (.bare [105, 54, 52, 46, 103, 116, 95, 115] .I64GtS none)  -- i64.gt_s
            else if peekChar data 4 = 108 then
              some (.bare [105, 54, 52, 46, 108, 116, 95, 115] .I64LtS none)  -- i64.lt_s
            else
              none
          else
            none
        else if peekChar data 7 = 117 then
          if peekChar data 5 = 101 then
            if peekChar data 4 = 103 then
              some (.bare [105, 54, 52, 46, 103, 101, 95, 117] .I64GeU none)  -- i64.ge_u
            else if peekChar data 4 = 108 then
              some (.bare [105, 54, 52, 46, 108, 101, 95, 117] .I64LeU none)  -- i64.le_u
            else
              none
          else if peekChar data 5 = 116 then
            if peekChar data 4 = 103 then
              some (.bare [105, 54, 52, 46, 103, 116, 95, 117] .I64GtU none)  -- i64.gt_u
            else if peekChar data 4 = 108 then
              some (.bare [105, 54, 52, 46, 108, 116, 95, 117] .I64LtU none)  -- i64.lt_u
            else
              none
          else
            none
        else
          none
      else if peekChar data 6 = 97 then
        if peekChar data 8 = 49 then
          if peekChar data 11 = 115 then
            some (.typed .MemoryInstr [105, 54, 52, 46, 108, 111, 97, 100, 49, 54, 95, 115] .I64Load16S none)  -- i64.load16_s
          else if peekChar data 11 = 117 then
            some (.typed .MemoryInstr [105, 54, 52, 46, 108, 111, 97, 100, 49, 54, 95, 117] .I64Load16U none)  -- i64.load16_u
          else
            none
        else if peekChar data 8 = 51 then
          if peekChar data 11 = 115 then
            some (.typed .MemoryInstr [105, 54, 52, 46, 108, 111, 97, 100, 51, 50, 95, 115] .I64Load32S none)  -- i64.load32_s
          else if peekChar data 11 = 117 then
            some (.typed .MemoryInstr [105, 54, 52, 46, 108, 111, 97, 100, 51, 50, 95, 117] .I64Load32U none)  -- i64.load32_u
          else
            none
        else if peekChar data 8 = 56 then
          if peekChar data 10 = 115 then
            some (.typed .MemoryInstr [105, 54, 52, 46, 108, 111, 97, 100, 56, 95, 115] .I64Load8S none)  -- i64.load8_s
          else if peekChar data 10 = 117 then
            some (.typed .MemoryInstr [105, 54, 52, 46, 108, 111, 97, 100, 56, 95, 117] .I64Load8U none)  -- i64.load8_u
          else
            none
        else if peekChar data 8 = 101 then
          some (.bare [102, 54, 52, 46, 110, 101, 97, 114, 101, 115, 116] .F64Nearest none)  -- f64.nearest
        else
          if peekChar data 0 = 102 then
            some (.typed .MemoryInstr [102, 54, 52, 46, 108, 111, 97, 100] .F64Load none)  -- f64.load
          else if peekChar data 0 = 105 then
            some (.typed .MemoryInstr [105, 54, 52, 46, 108, 111, 97, 100] .I64Load none)  -- i64.load
          else
            none
      else if peekChar data 6 = 98 then
        if peekChar data 0 = 102 then
          some (.bare [102, 54, 52, 46, 115, 117, 98] .F64Sub none)  -- f64.sub
        else if peekChar data 0 = 105 then
          some (.bare [105, 54, 52, 46, 115, 117, 98] .I64Sub none)  -- i64.sub
        else
          none
      else if peekChar data 6 = 100 then
        if peekChar data 5 = 100 then
          if peekChar data 0 = 102 then
            some (.bare [102, 54, 52, 46, 97, 100, 100] .F64Add none)  -- f64.add
          else if peekChar data 0 = 105 then
            some (.bare [105, 54, 52, 46, 97, 100, 100] .I64Add none)  -- i64.add
          else
            none
        else if peekChar data 5 = 110 then
          some (.bare [105, 54, 52, 46, 97, 110, 100] .I64And none)  -- i64.and
        else
          none
      else if peekChar data 6 = 103 then
        some (.bare [102, 54, 52, 46, 110, 101, 103] .F64Neg none)  -- f64.neg
      else if peekChar data 6 = 105 then
        if peekChar data 8 = 116 then
          if peekChar data 16 = 102 then
            if peekChar data 15 = 47 then
              some (.bare [105, 54, 52, 46, 114, 101, 105, 110, 116, 101, 114, 112, 114, 101, 116, 47, 102, 54, 52] .I64ReinterpretF64 none)  -- i64.reinterpret/f64
            else if peekChar data 15 = 95 then
              some (.bare [105, 54, 52, 46, 114, 101, 105, 110, 116, 101, 114, 112, 114, 101, 116, 95, 102, 54, 52] .I64ReinterpretF64 none)  -- i64.reinterpret_f64
            else
              none
          else if peekChar data 16 = 105 then
            if peekChar data 15 = 47 then
              some (.bare [102, 54, 52, 46, 114, 101, 105, 110, 116, 101, 114, 112, 114, 101, 116, 47, 105, 54, 52] .F64ReinterpretI64 none)  -- f64.reinterpret/i64
            else if peekChar data 15 = 95 then
              some (.bare [102, 54, 52, 46, 114, 101, 105, 110, 116, 101, 114, 112, 114, 101, 116, 95, 105, 54, 52] .F64ReinterpretI64 none)  -- f64.reinterpret_i64
            else
              none
          else
            none
        else
          some (.bare [102, 54, 52, 46, 99, 101, 105, 108] .F64Ceil none)  -- f64.ceil
      else if peekChar data 6 = 108 then
        if peekChar data 5 = 104 then
          some (.bare [105, 54, 52, 46, 115, 104, 108] .I64Shl none)  -- i64.shl
        else if peekChar data 5 = 117 then
          if peekChar data 0 = 102 then
            some (.bare [102, 54, 52, 46, 109, 117, 108] .F64Mul none)  -- f64.mul
          else if peekChar data 0 = 105 then
            some (.bare [105, 54, 52, 46, 109, 117, 108] .I64Mul none)  -- i64.mul
          else
            none
        else
          none
      else if peekChar data 6 = 109 then
        if peekChar data 8 = 115 then
          some (.bare [105, 54, 52, 46, 114, 101, 109, 95, 115] .I64RemS none)  -- i64.rem_s
        else if peekChar data 8 = 117 then
          some (.bare [105, 54, 52, 46, 114, 101, 109, 95, 117] .I64RemU none)  -- i64.rem_u
        else
          none
      else if peekChar data 6 = 110 then
        if peekChar data 7 = 115 then
          if peekChar data 0 = 102 then
            some (.typed .F64ConstInstr [102, 54, 52, 46, 99, 111, 110, 115, 116] .F64Const none)  -- f64.const
          else if peekChar data 0 = 105 then
            some (.typed .I64ConstInstr [105, 54, 52, 46, 99, 111, 110, 115, 116] .I64Const none)  -- i64.const
          else
            none
        else if peekChar data 7 = 118 then
          if peekChar data 16 = 50 then
            if peekChar data 12 = 115 then
              some (.bare [102, 54, 52, 46, 99, 111, 110, 118, 101, 114, 116, 95, 115, 47, 105, 51, 50] .F64ConvertI32S none)  -- f64.convert_s/i32
            else if peekChar data 12 = 117 then
              some (.bare [102, 54, 52, 46, 99, 111, 110, 118, 101, 114, 116, 95, 117, 47, 105, 51, 50] .F64ConvertI32U none)  -- f64.convert_u/i32
            else
              none
          else if peekChar data 16 = 52 then
            if peekChar data 12 = 115 then
              some (.bare [102, 54, 52, 46, 99, 111, 110, 118, 101, 114, 116, 95, 115, 47, 105, 54, 52] .F64ConvertI64S none)  -- f64.convert_s/i64
            else if peekChar data 12 = 117 then
              some (.bare [102, 54, 52, 46, 99, 111, 110, 118, 101, 114, 116, 95, 117, 47, 105, 54, 52] .F64ConvertI64U none)  -- f64.convert_u/i64
            else
              none
          else if peekChar data 16 = 115 then
            if peekChar data 14 = 50 then
              some (.bare [102, 54, 52, 46, 99, 111, 110, 118, 101, 114, 116, 95, 105, 51, 50, 95, 115] .F64ConvertI32S none)  -- f64.convert_i32_s
            else if peekChar data 14 = 52 then
              some (.bare [102, 54, 52, 46, 99, 111, 110, 118, 101, 114, 116, 95, 105, 54, 52, 95, 115] .F64ConvertI64S none)  -- f64.convert_i64_s
            else
              none
          else if peekChar data 16 = 117 then
            if peekChar data 14 = 50 then
              some (.bare [102, 54, 52, 46, 99, 111, 110, 118, 101, 114, 116, 95, 105, 51, 50, 95, 117] .F64ConvertI32U none)  -- f64.convert_i32_u
            else if peekChar data 14 = 52 then
              some (.bare [102, 54, 52, 46, 99, 111, 110, 118, 101, 114, 116, 95, 105, 54, 52, 95, 117] .F64ConvertI64U none)  -- f64.convert_i64_u
            else
              none
          else
            none
        else
          some (.bare [102, 54, 52, 46, 109, 105, 110] .F64Min none)  -- f64.min
      else if peekChar data 6 = 111 then
        if peekChar data 9 = 49 then
          some (.typed .MemoryInstr [105, 54, 52, 46, 115, 116, 111, 114, 101, 49, 54] .I64Store16 none)  -- i64.store16
        else if peekChar data 9 = 51 then
          some (.typed .MemoryInstr [105, 54, 52, 46, 115, 116, 111, 114, 101, 51, 50] .I64Store32 none)  -- i64.store32
        else if peekChar data 9 = 56 then
          some (.typed .MemoryInstr [105, 54, 52, 46, 115, 116, 111, 114, 101, 56] .I64Store8 none)  -- i64.store8
        else if peekChar data 9 = 99 then
          if peekChar data 15 = 46 then
            if peekChar data 17 = 99 then
              some (.typed .MemoryInstr [105, 54, 52, 46, 97, 116, 111, 109, 105, 99, 46, 114, 109, 119, 56, 46, 120, 99, 104, 103, 95, 117] .I64AtomicRmw8XchgU (some .Threads))  -- i64.atomic.rmw8.xchg_u
            else if peekChar data 17 = 100 then
              some (.typed .MemoryInstr [105, 54, 52, 46, 97, 116, 111, 109, 105, 99, 46, 114, 109, 119, 56, 46, 97, 100, 100, 95, 117] .I64AtomicRmw8AddU (some .Threads))  -- i64.atomic.rmw8.add_u
            else if peekChar data 17 = 109 then
              some (.typed .MemoryInstr [105, 54, 52, 46, 97, 116, 111, 109, 105, 99, 46, 114, 109, 119, 56, 46, 99, 109, 112, 120, 99, 104, 103, 95, 117] .I64AtomicRmw8CmpxchgU (some .Threads))  -- i64.atomic.rmw8.cmpxchg_u
            else if peekChar data 17 = 110 then
              some (.typed .MemoryInstr [105, 54, 52, 46, 97, 116, 111, 109, 105, 99, 46, 114, 109, 119, 56, 46, 97, 110, 100, 95, 117] .I64AtomicRmw8AndU (some .Threads))  -- i64.atomic.rmw8.and_u
            else if peekChar data 17 = 111 then
              some (.typed .MemoryInstr [105, 54, 52, 46, 97, 116, 111, 109, 105, 99, 46, 114, 109, 119, 56, 46, 120, 111, 114, 95, 117] .I64AtomicRmw8XorU (some .Threads))  -- i64.atomic.rmw8.xor_u
            else if peekChar data 17 = 114 then
              some (.typed .MemoryInstr [105, 54, 52, 46, 97, 116, 111, 109, 105, 99, 46, 114, 109, 119, 56, 46, 111, 114, 95, 117] .I64AtomicRmw8OrU (some .Threads))  -- i64.atomic.rmw8.or_u
            else if peekChar data 17 = 117 then
              some (.typed .MemoryInstr [105, 54, 52, 46, 97, 116, 111, 109, 105, 99, 46, 114, 109, 119, 56, 46, 115, 117, 98, 95, 117] .I64AtomicRmw8SubU (some .Threads))  -- i64.atomic.rmw8.sub_u
            else
              none
          else if peekChar data 15 = 49 then
            some (.typed .MemoryInstr [105, 54, 52, 46, 97, 116, 111, 109, 105, 99, 46, 108, 111, 97, 100, 49, 54, 95, 117] .I64AtomicLoad16U (some .Threads))  -- i64.atomic.load16_u
          else if peekChar data 15 = 50 then
            if peekChar data 18 = 99 then
              some (.typed .MemoryInstr [105, 54, 52, 46, 97, 116, 111, 109, 105, 99, 46, 114, 109, 119, 51, 50, 46, 120, 99, 104, 103, 95, 117] .I64AtomicRmw32XchgU (some .Threads))  -- i64.atomic.rmw32.xchg_u
            else if peekChar data 18 = 100 then
              some (.typed .MemoryInstr [105, 54, 52, 46, 97, 116, 111, 109, 105, 99, 46, 114, 109, 119, 51, 50, 46, 97, 100, 100, 95, 117] .I64AtomicRmw32AddU (some .Threads))  -- i64.atomic.rmw32.add_u
            else if peekChar data 18 = 109 then
              some (.typed .MemoryInstr [105, 54, 52, 46, 97, 116, 111, 109, 105, 99, 46, 114, 109, 119, 51, 50, 46, 99, 109, 112, 120, 99, 104, 103, 95, 117] .I64AtomicRmw32CmpxchgU (some .Threads))  -- i64.atomic.rmw32.cmpxchg_u
            else if peekChar data 18 = 110 then
              some (.typed .MemoryInstr [105, 54, 52, 46, 97, 116, 111, 109, 105, 99, 46, 114, 109, 119, 51, 50, 46, 97, 110, 100, 95, 117] .I64AtomicRmw32AndU (some .Threads))  -- i64.atomic.rmw32.and_u
            else if peekChar data 18 = 111 then
              some (.typed .MemoryInstr [105, 54, 52, 46, 97, 116, 111, 109, 105, 99, 46, 114, 109, 119, 51, 50, 46, 120, 111, 114, 95, 117] .I64AtomicRmw32XorU (some .Threads))  -- i64.atomic.rmw32.xor_u
            else if peekChar data 18 = 114 then
              some (.typed .MemoryInstr [105, 54, 52, 46, 97, 116, 111, 109, 105, 99, 46, 114, 109, 119, 51, 50, 46, 111, 114, 95, 117] .I64AtomicRmw32OrU (some .Threads))  -- i64.atomic.rmw32.or_u
            else if peekChar data 18 = 117 then
              some (.typed .MemoryInstr [105, 54, 52, 46, 97, 116, 111, 109, 105, 99, 46, 114, 109, 119, 51, 50, 46, 115, 117, 98, 95, 117] .I64AtomicRmw32SubU (some .Threads))  -- i64.atomic.rmw32.sub_u
            else
              none
          else if peekChar data 15 = 51 then
            some (.typed .MemoryInstr [105, 54, 52, 46, 97, 116, 111, 109, 105, 99, 46, 108, 111, 97, 100, 51, 50, 95, 117] .I64AtomicLoad32U (some .Threads))  -- i64.atomic.load32_u
          else if peekChar data 15 = 54 then
            if peekChar data 18 = 99 then
              some (.typed .MemoryInstr [105, 54, 52, 46, 97, 116, 111, 109, 105, 99, 46, 114, 109, 119, 49, 54, 46, 120, 99, 104, 103, 95, 117] .I64AtomicRmw16XchgU (some .Threads))  -- i64.atomic.rmw16.xchg_u
            else if peekChar data 18 = 100 then
              some (.typed .MemoryInstr [105, 54, 52, 46, 97, 116, 111, 109, 105, 99, 46, 114, 109, 119, 49, 54, 46, 97, 100, 100, 95, 117] .I64AtomicRmw16AddU (some .Threads))  -- i64.atomic.rmw16.add_u
            else if peekChar data 18 = 109 then
              some (.typed .MemoryInstr [105, 54, 52, 46, 97, 116, 111, 109, 105, 99, 46, 114, 109, 119, 49, 54, 46, 99, 109, 112, 120, 99, 104, 103, 95, 117] .I64AtomicRmw16CmpxchgU (some .Threads))  -- i64.atomic.rmw16.cmpxchg_u
            else if peekChar data 18 = 110 then
              some (.typed .MemoryInstr [105, 54, 52, 46, 97, 116, 111, 109, 105, 99, 46, 114, 109, 119, 49, 54, 46, 97, 110, 100, 95, 117] .I64AtomicRmw16AndU (some .Threads))  -- i64.atomic.rmw16.and_u
            else if peekChar data 18 = 111 then
              some (.typed .MemoryInstr [105, 54, 52, 46, 97, 116, 111, 109, 105, 99, 46, 114, 109, 119, 49, 54, 46, 120, 111, 114, 95, 117] .I64AtomicRmw16XorU (some .Threads))  -- i64.atomic.rmw16.xor_u
            else if peekChar data 18 = 114 then
              some (.typed .MemoryInstr [105, 54, 52, 46, 97, 116, 111, 109, 105, 99, 46, 114, 109, 119, 49, 54, 46, 111, 114, 95, 117] .I64AtomicRmw16OrU (some .Threads))  -- i64.atomic.rmw16.or_u
            else if peekChar data 18 = 117 then
              some (.typed .MemoryInstr [105, 54, 52, 46, 97, 116, 111, 109, 105, 99, 46, 114, 109, 119, 49, 54, 46, 115, 117, 98, 95, 117] .I64AtomicRmw16SubU (some .Threads))  -- i64.atomic.rmw16.sub_u
            else
              none
          else if peekChar data 15 = 56 then
            some (.typed .MemoryInstr [105, 54, 52, 46, 97, 116, 111, 109, 105, 99, 46, 108, 111, 97, 100, 56, 95, 117] .I64AtomicLoad8U (some .Threads))  -- i64.atomic.load8_u
          else if peekChar data 15 = 97 then
            if peekChar data 16 = 100 then
              some (.typed .MemoryInstr [105, 54, 52, 46, 97, 116, 111, 109, 105, 99, 46, 114, 109, 119, 46, 97, 100, 100] .I64AtomicRmwAdd (some .Threads))  -- i64.atomic.rmw.add
            else if peekChar data 16 = 110 then
              some (.typed .MemoryInstr [105, 54, 52, 46, 97, 116, 111, 109, 105, 99, 46, 114, 109, 119, 46, 97, 110, 100] .I64AtomicRmwAnd (some .Threads))  -- i64.atomic.rmw.and
            else
              none
          else if peekChar data 15 = 99 then
            some (.typed .MemoryInstr [105, 54, 52, 46, 97, 116, 111, 109, 105, 99, 46, 114, 109, 119, 46, 99, 109, 112, 120, 99, 104, 103] .I64AtomicRmwCmpxchg (some .Threads))  -- i64.atomic.rmw.cmpxchg
          else if peekChar data 15 = 101 then
            if peekChar data 16 = 49 then
              some (.typed .MemoryInstr [105, 54, 52, 46, 97, 116, 111, 109, 105, 99, 46, 115, 116, 111, 114, 101, 49, 54] .I64AtomicStore16 (some .Threads))  -- i64.atomic.store16
            else if peekChar data 16 = 51 then
              some (.typed .MemoryInstr [105, 54, 52, 46, 97, 116, 111, 109, 105, 99, 46, 115, 116, 111, 114, 101, 51, 50] .I64AtomicStore32 (some .Threads))  -- i64.atomic.store32
            else if peekChar data 16 = 56 then
              some (.typed .MemoryInstr [105, 54, 52, 46, 97, 116, 111, 109, 105, 99, 46, 115, 116, 111, 114, 101, 56] .I64AtomicStore8 (some .Threads))  -- i64.atomic.store8
            else
              some (.typed .MemoryInstr [105, 54, 52, 46, 97, 116, 111, 109, 105, 99, 46, 115, 116, 111, 114, 101] .I64AtomicStore (some .Threads))  -- i64.atomic.store
          else if peekChar data 15 = 111 then
            some (.typed .MemoryInstr [105, 54, 52, 46, 97, 116, 111, 109, 105, 99, 46, 114, 109, 119, 46, 111, 114] .I64AtomicRmwOr (some .Threads))  -- i64.atomic.rmw.or
          else if peekChar data 15 = 115 then
            some (.typed .MemoryInstr [105, 54, 52, 46, 97, 116, 111, 109, 105, 99, 46, 114, 109, 119, 46, 115, 117, 98] .I64AtomicRmwSub (some .Threads))  -- i64.atomic.rmw.sub
          else if peekChar data 15 = 120 then
            if peekChar data 18 = 103 then
              some (.typed .MemoryInstr [105, 54, 52, 46, 97, 116, 111, 109, 105, 99, 46, 114, 109, 119, 46, 120, 99, 104, 103] .I64AtomicRmwXchg (some .Threads))  -- i64.atomic.rmw.xchg
            else
              some (.typed .MemoryInstr [105, 54, 52, 46, 97, 116, 111, 109, 105, 99, 46, 114, 109, 119, 46, 120, 111, 114] .I64AtomicRmwXor (some .Threads))  -- i64.atomic.rmw.xor
          else
            if peekChar data 14 = 100 then
              some (.typed .MemoryInstr [105, 54, 52, 46, 97, 116, 111, 109, 105, 99, 46, 108, 111, 97, 100] .I64AtomicLoad (some .Threads))  -- i64.atomic.load
            else if peekChar data 14 = 116 then
              some (.typed .MemoryInstr [105, 54, 52, 46, 97, 116, 111, 109, 105, 99, 46, 119, 97, 105, 116] .I64AtomicWait (some .Threads))  -- i64.atomic.wait
            else
              none
        else if peekChar data 9 = 116 then
          if peekChar data 11 = 47 then
            some (.bare [102, 54, 52, 46, 112, 114, 111, 109, 111, 116, 101, 47, 102, 51, 50] .F64PromoteF32 none)  -- f64.promote/f32
          else if peekChar data 11 = 95 then
            some (.bare [102, 54, 52, 46, 112, 114, 111, 109, 111, 116, 101, 95, 102, 51, 50] .F64PromoteF32 none)  -- f64.promote_f32
          else
            none
        else
          if peekChar data 8 = 101 then
            if peekChar data 0 = 102 then
              some (.typed .MemoryInstr [102, 54, 52, 46, 115, 116, 111, 114, 101] .F64Store none)  -- f64.store
            else if peekChar data 0 = 105 then
              some (.typed .MemoryInstr [105, 54, 52, 46, 115, 116, 111, 114, 101] .I64Store none)  -- i64.store
            else
              none
          else if peekChar data 8 = 114 then
            some (.bare [102, 54, 52, 46, 102, 108, 111, 111, 114] .F64Floor none)  -- f64.floor
          else
            none
      else if peekChar data 6 = 112 then
        if peekChar data 10 = 103 then
          some (.bare [102, 54, 52, 46, 99, 111, 112, 121, 115, 105, 103, 110] .F64Copysign none)  -- f64.copysign
        else
          some (.bare [105, 54, 52, 46, 112, 111, 112, 99, 110, 116] .I64Popcnt none)  -- i64.popcnt
      else if peekChar data 6 = 114 then
        if peekChar data 7 = 95 then
          if peekChar data 8 = 115 then
            some (.bare [105, 54, 52, 46, 115, 104, 114, 95, 115] .I64ShrS none)  -- i64.shr_s
          else if peekChar data 8 = 117 then
            some (.bare [105, 54, 52, 46, 115, 104, 114, 95, 117] .I64ShrU none)  -- i64.shr_u
          else
            none
        else if peekChar data 7 = 116 then
          some (.bare [102, 54, 52, 46, 115, 113, 114, 116] .F64Sqrt none)  -- f64.sqrt
        else
          some (.bare [105, 54, 52, 46, 120, 111, 114] .I64Xor none)  -- i64.xor
      else if peekChar data 6 = 115 then
        some (.bare [102, 54, 52, 46, 97, 98, 115] .F64Abs none)  -- f64.abs
      else if peekChar data 6 = 116 then
        if peekChar data 7 = 101 then
          if peekChar data 11 = 50 then
            some (.bare [105, 54, 52, 46, 101, 120, 116, 101, 110, 100, 51, 50, 95, 115] .I64Extend32S (some .SignExtension))  -- i64.extend32_s
          else if peekChar data 11 = 54 then
            some (.bare [105, 54, 52, 46, 101, 120, 116, 101, 110, 100, 49, 54, 95, 115] .I64Extend16S (some .SignExtension))  -- i64.extend16_s
          else if peekChar data 11 = 95 then
            some (.bare [105, 54, 52, 46, 101, 120, 116, 101, 110, 100, 56, 95, 115] .I64Extend8S (some .SignExtension))  -- i64.extend8_s
          else if peekChar data 11 = 105 then
            if peekChar data 15 = 115 then
              some (.bare [105, 54, 52, 46, 101, 120, 116, 101, 110, 100, 95, 105, 51, 50, 95, 115] .I64ExtendI32S none)  -- i64.extend_i32_s
            else if peekChar data 15 = 117 then
              some (.bare [105, 54, 52, 46, 101, 120, 116, 101, 110, 100, 95, 105, 51, 50, 95, 117] .I64ExtendI32U none)  -- i64.extend_i32_u
            else
              none
          else if peekChar data 11 = 115 then
            some (.bare [105, 54, 52, 46, 101, 120, 116, 101, 110, 100, 95, 115, 47, 105, 51, 50] .I64ExtendI32S none)  -- i64.extend_s/i32
          else if peekChar data 11 = 117 then
            some (.bare [105, 54, 52, 46, 101, 120, 116, 101, 110, 100, 95, 117, 47, 105, 51, 50] .I64ExtendI32U none)  -- i64.extend_u/i32
          else
            none
        else if peekChar data 7 = 108 then
          some (.bare [105, 54, 52, 46, 114, 111, 116, 108] .I64Rotl none)  -- i64.rotl
        else if peekChar data 7 = 114 then
          some (.bare [105, 54, 52, 46, 114, 111, 116, 114] .I64Rotr none)  -- i64.rotr
        else
          none
      else if peekChar data 6 = 117 then
        if peekChar data 9 = 95 then
          if peekChar data 14 = 50 then
            if peekChar data 10 = 115 then
              some (.bare [105, 54, 52, 46, 116, 114, 117, 110, 99, 95, 115, 47, 102, 51, 50] .I64TruncF32S none)  -- i64.trunc_s/f32
            else if peekChar data 10 = 117 then
              some (.bare [105, 54, 52, 46, 116, 114, 117, 110, 99, 95, 117, 47, 102, 51, 50] .I64TruncF32U none)  -- i64.trunc_u/f32
            else
              none
          else if peekChar data 14 = 52 then
            if peekChar data 10 = 115 then
              some (.bare [105, 54, 52, 46, 116, 114, 117, 110, 99, 95, 115, 47, 102, 54, 52] .I64TruncF64S none)  -- i64.trunc_s/f64
            else if peekChar data 10 = 117 then
              some (.bare [105, 54, 52, 46, 116, 114, 117, 110, 99, 95, 117, 47, 102, 54, 52] .I64TruncF64U none)  -- i64.trunc_u/f64
            else
              none
          else if peekChar data 14 = 102 then
            if peekChar data 18 = 115 then
              if peekChar data 16 = 50 then
                some (.bare [105, 54, 52, 46, 116, 114, 117, 110, 99, 95, 115, 97, 116, 95, 102, 51, 50, 95, 115] .I64TruncSatF32S (some .SaturatingFloatToInt))  -- i64.trunc_sat_f32_s
              else if peekChar data 16 = 52 then
                some (.bare [105, 54, 52, 46, 116, 114, 117, 110, 99, 95, 115, 97, 116, 95, 102, 54, 52, 95, 115] .I64TruncSatF64S (some .SaturatingFloatToInt))  -- i64.trunc_sat_f64_s
              else
                none
            else if peekChar data 18 = 117 then
              if peekChar data 16 = 50 then
                some (.bare [105, 54, 52, 46, 116, 114, 117, 110, 99, 95, 115, 97, 116, 95, 102, 51, 50, 95, 117] .I64TruncSatF32U (some .SaturatingFloatToInt))  -- i64.trunc_sat_f32_u
              else if peekChar data 16 = 52 then
                some (.bare [105, 54, 52, 46, 116, 114, 117, 110, 99, 95, 115, 97, 116, 95, 102, 54, 52, 95, 117] .I64TruncSatF64U (some .SaturatingFloatToInt))  -- i64.trunc_sat_f64_u
              else
                none
            else
              none
          else if peekChar data 14 = 115 then
            if peekChar data 12 = 50 then
              some (.bare [105, 54, 52, 46, 116, 114, 117, 110, 99, 95, 102, 51, 50, 95, 115] .I64TruncF32S none)  -- i64.trunc_f32_s
            else if peekChar data 12 = 52 then
              some (.bare [105, 54, 52, 46, 116, 114, 117, 110, 99, 95, 102, 54, 52, 95, 115] .I64TruncF64S none)  -- i64.trunc_f64_s
            else
              none
          else if peekChar data 14 = 116 then
            if peekChar data 18 = 50 then
              if peekChar data 10 = 115 then
                some (.bare [105, 54, 52, 46, 116, 114, 117, 110, 99, 95, 115, 58, 115, 97, 116, 47, 102, 51, 50] .I64TruncSatF32S (some .SaturatingFloatToInt))  -- i64.trunc_s:sat/f32
              else if peekChar data 10 = 117 then
                some (.bare [105, 54, 52, 46, 116, 114, 117, 110, 99, 95, 117, 58, 115, 97, 116, 47, 102, 51, 50] .I64TruncSatF32U (some .SaturatingFloatToInt))  -- i64.trunc_u:sat/f32
              else
                none
            else if peekChar data 18 = 52 then
              if peekChar data 10 = 115 then
                some (.bare [105, 54, 52, 46, 116, 114, 117, 110, 99, 95, 115, 58, 115, 97, 116, 47, 102, 54, 52] .I64TruncSatF64S (some .SaturatingFloatToInt))  -- i64.trunc_s:sat/f64
              else if peekChar data 10 = 117 then
                some (.bare [105, 54, 52, 46, 116, 114, 117, 110, 99, 95, 117, 58, 115, 97, 116, 47, 102, 54, 52] .I64TruncSatF64U (some .SaturatingFloatToInt))  -- i64.trunc_u:sat/f64
              else
                none
            else
              none
          else if peekChar data 14 = 117 then
            if peekChar data 12 = 50 then
              some (.bare [105, 54, 52, 46, 116, 114, 117, 110, 99, 95, 102, 51, 50, 95, 117] .I64TruncF32U none)  -- i64.trunc_f32_u
            else if peekChar data 12 = 52 then
              some (.bare [105, 54, 52, 46, 116, 114, 117, 110, 99, 95, 102, 54, 52, 95, 117] .I64TruncF64U none)  -- i64.trunc_f64_u
            else
              none
          else
            none
        else
          some (.bare [102, 54, 52, 46, 116, 114, 117, 110, 99] .F64Trunc none)  -- f64.trunc
      else if peekChar data 6 = 118 then
        if peekChar data 7 = 95 then
          if peekChar data 8 = 115 then
            some (.bare [105, 54, 52, 46, 100, 105, 118, 95, 115] .I64DivS none)  -- i64.div_s
          else if peekChar data 8 = 117 then
            some (.bare [105, 54, 52, 46, 100, 105, 118, 95, 117] .I64DivU none)  -- i64.div_u
          else
            none
        else
          some (.bare [102, 54, 52, 46, 100, 105, 118] .F64Div none)  -- f64.div
      else if peekChar data 6 = 120 then
        some (.bare [102, 54, 52, 46, 109, 97, 120] .F64Max none)  -- f64.max
      else if peekChar data 6 = 122 then
        if peekChar data 5 = 108 then
          some (.bare [105, 54, 52, 46, 99, 108, 122] .I64Clz none)  -- i64.clz
        else if peekChar data 5 = 113 then
          some (.bare [105, 54, 52, 46, 101, 113, 122] .I64Eqz none)  -- i64.eqz
        else if peekChar data 5 = 116 then
          some (.bare [105, 54, 52, 46, 99, 116, 122] .I64Ctz none)  -- i64.ctz
        else
          none
      else
        if peekChar data 4 = 101 then
          if peekChar data 0 = 102 then
            some (.bare [102, 54, 52, 46, 101, 113] .F64Eq none)  -- f64.eq
          else if peekChar data 0 = 105 then
            some (.bare [105, 54, 52, 46, 101, 113] .I64Eq none)  -- i64.eq
          else
            none
        else if peekChar data 4 = 103 then
          if peekChar data 5 = 101 then
            some (.bare [102, 54, 52, 46, 103, 101] .F64Ge none)  -- f64.ge
          else if peekChar data 5 = 116 then
            some (.bare [102, 54, 52, 46, 103, 116] .F64Gt none)  -- f64.gt
          else
            none
        else if peekChar data 4 = 108 then
          if peekChar data 5 = 101 then
            some (.bare [102, 54, 52, 46, 108, 101] .F64Le none)  -- f64.le
          else if peekChar data 5 = 116 then
            some (.bare [102, 54, 52, 46, 108, 116] .F64Lt none)  -- f64.lt
          else
            none
        else if peekChar data 4 = 110 then
          if peekChar data 0 = 102 then
            some (.bare [102, 54, 52, 46, 110, 101] .F64Ne none)  -- f64.ne
          else if peekChar data 0 = 105 then
            some (.bare [105, 54, 52, 46, 110, 101] .I64Ne none)  -- i64.ne
          else
            none
        else if peekChar data 4 = 111 then
          some (.bare [105, 54, 52, 46, 111, 114] .I64Or none)  -- i64.or
        else
          none
    else if peekChar data 3 = 120 then
      if peekChar data 0 = 102 then
        if peekChar data 5 = 46 then
          if peekChar data 8 = 98 then
            some (.bare [102, 54, 52, 120, 50, 46, 115, 117, 98] .F64X2Sub (some .Simd))  -- f64x2.sub
          else if peekChar data 8 = 100 then
            some (.bare [102, 54, 52, 120, 50, 46, 97, 100, 100] .F64X2Add (some .Simd))  -- f64x2.add
          else if peekChar data 8 = 103 then
            some (.bare [102, 54, 52, 120, 50, 46, 110, 101, 103] .F64X2Neg (some .Simd))  -- f64x2.neg
          else if peekChar data 8 = 108 then
            if peekChar data 9 = 97 then
              some (.bare [102, 54, 52, 120, 50, 46, 115, 112, 108, 97, 116] .F64X2Splat (some .Simd))  -- f64x2.splat
            else
              some (.bare [102, 54, 52, 120, 50, 46, 109, 117, 108] .F64X2Mul (some .Simd))  -- f64x2.mul
          else if peekChar data 8 = 110 then
            some (.bare [102, 54, 52, 120, 50, 46, 109, 105, 110] .F64X2Min (some .Simd))  -- f64x2.min
          else if peekChar data 8 = 112 then
            some (.typed .SimdLaneInstr [102, 54, 52, 120, 50, 46, 114, 101, 112, 108, 97, 99, 101, 95, 108, 97, 110, 101] .F64X2ReplaceLane (some .Simd))  -- f64x2.replace_lane
          else if peekChar data 8 = 114 then
            some (.bare [102, 54, 52, 120, 50, 46, 115, 113, 114, 116] .F64X2Sqrt (some .Simd))  -- f64x2.sqrt
          else if peekChar data 8 = 115 then
            some (.bare [102, 54, 52, 120, 50, 46, 97, 98, 115] .F64X2Abs (some .Simd))  -- f64x2.abs
          else if peekChar data 8 = 116 then
            some (.typed .SimdLaneInstr [102, 54, 52, 120, 50, 46, 101, 120, 116, 114, 97, 99, 116, 95, 108, 97, 110, 101] .F64X2ExtractLane (some .Simd))  -- f64x2.extract_lane
          else if peekChar data 8 = 118 then
            some (.bare [102, 54, 52, 120, 50, 46, 100, 105, 118] .F64X2Div (some .Simd))  -- f64x2.div
          else if peekChar data 8 = 120 then
            some (.bare [102, 54, 52, 120, 50, 46, 109, 97, 120] .F64X2Max (some .Simd))  -- f64x2.max
          else
            if peekChar data 6 = 101 then
              some (.bare [102, 54, 52, 120, 50, 46, 101, 113] .F64X2Eq (some .Simd))  -- f64x2.eq
            else if peekChar data 6 = 103 then
              if peekChar data 7 = 101 then
                some (.bare [102, 54, 52, 120, 50, 46, 103, 101] .F64X2Ge (some .Simd))  -- f64x2.ge
              else if peekChar data 7 = 116 then
                some (.bare [102, 54, 52, 120, 50, 46, 103, 116] .F64X2Gt (some .Simd))  -- f64x2.gt
              else
                none
            else if peekChar data 6 = 108 then
              if peekChar data 7 = 101 then
                some (.bare [102, 54, 52, 120, 50, 46, 108, 101] .F64X2Le (some .Simd))  -- f64x2.le
              else if peekChar data 7 = 116 then
                some (.bare [102, 54, 52, 120, 50, 46, 108, 116] .F64X2Lt (some .Simd))  -- f64x2.lt
              else
                none
            else if peekChar data 6 = 110 then
              some (.bare [102, 54, 52, 120, 50, 46, 110, 101] .F64X2Ne (some .Simd))  -- f64x2.ne
            else
              none
        else
          some (.plain .F64X2 [102, 54, 52, 120, 50])  -- f64x2
      else if peekChar data 0 = 105 then
        if peekChar data 5 = 46 then
          if peekChar data 8 = 97 then
            if peekChar data 15 = 115 then
              some (.typed .MemoryInstr [105, 54, 52, 120, 50, 46, 108, 111, 97, 100, 51, 50, 120, 50, 95, 115] .I64X2Load32X2S (some .Simd))  -- i64x2.load32x2_s
            else if peekChar data 15 = 117 then
              some (.typed .MemoryInstr [105, 54, 52, 120, 50, 46, 108, 111, 97, 100, 51, 50, 120, 50, 95, 117] .I64X2Load32X2U (some .Simd))  -- i64x2.load32x2_u
            else
              none
          else if peekChar data 8 = 98 then
            some (.bare [105, 54, 52, 120, 50, 46, 115, 117, 98] .I64X2Sub (some .Simd))  -- i64x2.sub
          else if peekChar data 8 = 100 then
            some (.bare [105, 54, 52, 120, 50, 46, 97, 100, 100] .I64X2Add (some .Simd))  -- i64x2.add
          else if peekChar data 8 = 103 then
            some (.bare [105, 54, 52, 120, 50, 46, 110, 101, 103] .I64X2Neg (some .Simd))  -- i64x2.neg
          else if peekChar data 8 = 108 then
            if peekChar data 7 = 104 then
              some (.bare [105, 54, 52, 120, 50, 46, 115, 104, 108] .I64X2Shl (some .Simd))  -- i64x2.shl
            else if peekChar data 7 = 112 then
              some (.bare [105, 54, 52, 120, 50, 46, 115, 112, 108, 97, 116] .I64X2Splat (some .Simd))  -- i64x2.splat
            else if peekChar data 7 = 117 then
              some (.bare [105, 54, 52, 120, 50, 46, 109, 117, 108] .I64X2Mul (some .Simd))  -- i64x2.mul
            else
              none
          else if peekChar data 8 = 112 then
            some (.typed .SimdLaneInstr [105, 54, 52, 120, 50, 46, 114, 101, 112, 108, 97, 99, 101, 95, 108, 97, 110, 101] .I64X2ReplaceLane (some .Simd))  -- i64x2.replace_lane
          else if peekChar data 8 = 114 then
            if peekChar data 10 = 115 then
              some (.bare [105, 54, 52, 120, 50, 46, 115, 104, 114, 95, 115] .I64X2ShrS (some .Simd))  -- i64x2.shr_s
            else if peekChar data 10 = 117 then
              some (.bare [105, 54, 52, 120, 50, 46, 115, 104, 114, 95, 117] .I64X2ShrU (some .Simd))  -- i64x2.shr_u
            else
              none
          else if peekChar data 8 = 116 then
            some (.typed .SimdLaneInstr [105, 54, 52, 120, 50, 46, 101, 120, 116, 114, 97, 99, 116, 95, 108, 97, 110, 101] .I64X2ExtractLane (some .Simd))  -- i64x2.extract_lane
          else
            none
        else
          some (.plain .I64X2 [105, 54, 52, 120, 50])  -- i64x2
      else if peekChar data 0 = 118 then
        some (.typed .MemoryInstr [118, 54, 52, 120, 50, 46, 108, 111, 97, 100, 95, 115, 112, 108, 97, 116] .V64X2LoadSplat (some .Simd))  -- v64x2.load_splat
      else
        none
    else
      if peekChar data 0 = 102 then
        some (.valType [102, 54, 52] .F64)  -- f64
      else if peekChar data 0 = 105 then
        some (.valType [105, 54, 52] .I64)  -- i64
      else
        none
  else if peekChar data 2 = 54 then
    if peekChar data 5 = 46 then
      if peekChar data 7 = 97 then
        if peekChar data 10 = 111 then
          if peekChar data 19 = 115 then
            some (.bare [105, 49, 54, 120, 56, 46, 110, 97, 114, 114, 111, 119, 95, 105, 51, 50, 120, 52, 95, 115] .I16X8NarrowI32X4S (some .Simd))  -- i16x8.narrow_i32x4_s
          else if peekChar data 19 = 117 then
            some (.bare [105, 49, 54, 120, 56, 46, 110, 97, 114, 114, 111, 119, 95, 105, 51, 50, 120, 52, 95, 117] .I16X8NarrowI32X4U (some .Simd))  -- i16x8.narrow_i32x4_u
          else
            none
        else if peekChar data 10 = 115 then
          some (.bare [105, 49, 54, 120, 56, 46, 109, 97, 120, 95, 115] .I16X8MaxS (some .Simd))  -- i16x8.max_s
        else if peekChar data 10 = 117 then
          some (.bare [105, 49, 54, 120, 56, 46, 109, 97, 120, 95, 117] .I16X8MaxU (some .Simd))  -- i16x8.max_u
        else
          none
      else if peekChar data 7 = 100 then
        if peekChar data 9 = 95 then
          if peekChar data 19 = 115 then
            some (.bare [105, 49, 54, 120, 56, 46, 97, 100, 100, 95, 115, 97, 116, 117, 114, 97, 116, 101, 95, 115] .I16X8AddSaturateS (some .Simd))  -- i16x8.add_saturate_s
          else if peekChar data 19 = 117 then
            some (.bare [105, 49, 54, 120, 56, 46, 97, 100, 100, 95, 115, 97, 116, 117, 114, 97, 116, 101, 95, 117] .I16X8AddSaturateU (some .Simd))  -- i16x8.add_saturate_u
          else
            none
        else
          some (.bare [105, 49, 54, 120, 56, 46, 97, 100, 100] .I16X8Add (some .Simd))  -- i16x8.add
      else if peekChar data 7 = 101 then
        if peekChar data 8 = 95 then
          if peekChar data 9 = 115 then
            if peekChar data 6 = 103 then
              some (.bare [105, 49, 54, 120, 56, 46, 103, 101, 95, 115] .I16X8GeS (some .Simd))  -- i16x8.ge_s
            else if peekChar data 6 = 108 then
              some (.bare [105, 49, 54, 120, 56, 46, 108, 101, 95, 115] .I16X8LeS (some .Simd))  -- i16x8.le_s
            else
              none
          else if peekChar data 9 = 117 then
            if peekChar data 6 = 103 then
              some (.bare [105, 49, 54, 120, 56, 46, 103, 101, 95, 117] .I16X8GeU (some .Simd))  -- i16x8.ge_u
            else if peekChar data 6 = 108 then
              some (.bare [105, 49, 54, 120, 56, 46, 108, 101, 95, 117] .I16X8LeU (some .Simd))  -- i16x8.le_u
            else
              none
          else
            none
        else if peekChar data 8 = 103 then
          some (.bare [105, 49, 54, 120, 56, 46, 110, 101, 103] .I16X8Neg (some .Simd))  -- i16x8.neg
        else if peekChar data 8 = 112 then
          some (.typed .SimdLaneInstr [105, 49, 54, 120, 56, 46, 114, 101, 112, 108, 97, 99, 101, 95, 108, 97, 110, 101] .I16X8ReplaceLane (some .Simd))  -- i16x8.replace_lane
        else
          some (.bare [105, 49, 54, 120, 56, 46, 110, 101] .I16X8Ne (some .Simd))  -- i16x8.ne
      else if peekChar data 7 = 104 then
        if peekChar data 9 = 95 then
          if peekChar data 10 = 115 then
            some (.bare [105, 49, 54, 120, 56, 46, 115, 104, 114, 95, 115] .I16X8ShrS (some .Simd))  -- i16x8.shr_s
          else if peekChar data 10 = 117 then
            some (.bare [105, 49, 54, 120, 56, 46, 115, 104, 114, 95, 117] .I16X8ShrU (some .Simd))  -- i16x8.shr_u
          else
            none
        else
          some (.bare [105, 49, 54, 120, 56, 46, 115, 104, 108] .I16X8Shl (some .Simd))  -- i16x8.shl
      else if peekChar data 7 = 105 then
        if peekChar data 10 = 110 then
          if peekChar data 23 = 115 then
            some (.bare [105, 49, 54, 120, 56, 46, 119, 105, 100, 101, 110, 95, 104, 105, 103, 104, 95, 105, 56, 120, 49, 54, 95, 115] .I16X8WidenHighI8X16S (some .Simd))  -- i16x8.widen_high_i8x16_s
          else if peekChar data 23 = 117 then
            some (.bare [105, 49, 54, 120, 56, 46, 119, 105, 100, 101, 110, 95, 104, 105, 103, 104, 95, 105, 56, 120, 49, 54, 95, 117] .I16X8WidenHighI8X16U (some .Simd))  -- i16x8.widen_high_i8x16_u
          else
            if peekChar data 22 = 115 then
              some (.bare [105, 49, 54, 120, 56, 46, 119, 105, 100, 101, 110, 95, 108, 111, 119, 95, 105, 56, 120, 49, 54, 95, 115] .I16X8WidenLowI8X16S (some .Simd))  -- i16x8.widen_low_i8x16_s
            else if peekChar data 22 = 117 then
              some (.bare [105, 49, 54, 120, 56, 46, 119, 105, 100, 101, 110, 95, 108, 111, 119, 95, 105, 56, 120, 49, 54, 95, 117] .I16X8WidenLowI8X16U (some .Simd))  -- i16x8.widen_low_i8x16_u
            else
              none
        else if peekChar data 10 = 115 then
          some (.bare [105, 49, 54, 120, 56, 46, 109, 105, 110, 95, 115] .I16X8MinS (some .Simd))  -- i16x8.min_s
        else if peekChar data 10 = 117 then
          some (.bare [105, 49, 54, 120, 56, 46, 109, 105, 110, 95, 117] .I16X8MinU (some .Simd))  -- i16x8.min_u
        else
          none
      else if peekChar data 7 = 108 then
        some (.bare [105, 49, 54, 120, 56, 46, 97, 108, 108, 95, 116, 114, 117, 101] .I16X8AllTrue (some .Simd))  -- i16x8.all_true
      else if peekChar data 7 = 110 then
        some (.bare [105, 49, 54, 120, 56, 46, 97, 110, 121, 95, 116, 114, 117, 101] .I16X8AnyTrue (some .Simd))  -- i16x8.any_true
      else if peekChar data 7 = 111 then
        if peekChar data 14 = 97 then
          some (.typed .MemoryInstr [118, 49, 54, 120, 56, 46, 108, 111, 97, 100, 95, 115, 112, 108, 97, 116] .V16X8LoadSplat (some .Simd))  -- v16x8.load_splat
        else if peekChar data 14 = 115 then
          some (.typed .MemoryInstr [105, 49, 54, 120, 56, 46, 108, 111, 97, 100, 56, 120, 56, 95, 115] .I16X8Load8X8S (some .Simd))  -- i16x8.load8x8_s
        else if peekChar data 14 = 117 then
          some (.typed .MemoryInstr [105, 49, 54, 120, 56, 46, 108, 111, 97, 100, 56, 120, 56, 95, 117] .I16X8Load8X8U (some .Simd))  -- i16x8.load8x8_u
        else
          none
      else if peekChar data 7 = 112 then
        some (.bare [105, 49, 54, 120, 56, 46, 115, 112, 108, 97, 116] .I16X8Splat (some .Simd))  -- i16x8.splat
      else if peekChar data 7 = 113 then
        some (.bare [105, 49, 54, 120, 56, 46, 101, 113] .I16X8Eq (some .Simd))  -- i16x8.eq
      else if peekChar data 7 = 116 then
        if peekChar data 9 = 115 then
          if peekChar data 6 = 103 then
            some (.bare [105, 49, 54, 120, 56, 46, 103, 116, 95, 115] .I16X8GtS (some .Simd))  -- i16x8.gt_s
          else if peekChar data 6 = 108 then
            some (.bare [105, 49, 54, 120, 56, 46, 108, 116, 95, 115] .I16X8LtS (some .Simd))  -- i16x8.lt_s
          else
            none
        else if peekChar data 9 = 117 then
          if peekChar data 6 = 103 then
            some (.bare [105, 49, 54, 120, 56, 46, 103, 116, 95, 117] .I16X8GtU (some .Simd))  -- i16x8.gt_u
          else if peekChar data 6 = 108 then
            some (.bare [105, 49, 54, 120, 56, 46, 108, 116, 95, 117] .I16X8LtU (some .Simd))  -- i16x8.lt_u
          else
            none
        else
          none
      else if peekChar data 7 = 117 then
        if peekChar data 9 = 95 then
          if peekChar data 19 = 115 then
            some (.bare [105, 49, 54, 120, 56, 46, 115, 117, 98, 95, 115, 97, 116, 117, 114, 97, 116, 101, 95, 115] .I16X8SubSaturateS (some .Simd))  -- i16x8.sub_saturate_s
          else if peekChar data 19 = 117 then
            some (.bare [105, 49, 54, 120, 56, 46, 115, 117, 98, 95, 115, 97, 116, 117, 114, 97, 116, 101, 95, 117] .I16X8SubSaturateU (some .Simd))  -- i16x8.sub_saturate_u
          else
            none
        else
          if peekChar data 8 = 98 then
            some (.bare [105, 49, 54, 120, 56, 46, 115, 117, 98] .I16X8Sub (some .Simd))  -- i16x8.sub
          else if peekChar data 8 = 108 then
            some (.bare [105, 49, 54, 120, 56, 46, 109, 117, 108] .I16X8Mul (some .Simd))  -- i16x8.mul
          else
            none
      else if peekChar data 7 = 118 then
        some (.bare [105, 49, 54, 120, 56, 46, 97, 118, 103, 114, 95, 117] .I16X8AvgrU (some .Simd))  -- i16x8.avgr_u
      else if peekChar data 7 = 120 then
        if peekChar data 19 = 115 then
          some (.typed .SimdLaneInstr [105, 49, 54, 120, 56, 46, 101, 120, 116, 114, 97, 99, 116, 95, 108, 97, 110, 101, 95, 115] .I16X8ExtractLaneS (some .Simd))  -- i16x8.extract_lane_s
        else if peekChar data 19 = 117 then
          some (.typed .SimdLaneInstr [105, 49, 54, 120, 56, 46, 101, 120, 116, 114, 97, 99, 116, 95, 108, 97, 110, 101, 95, 117] .I16X8ExtractLaneU (some .Simd))  -- i16x8.extract_lane_u
        else
          none
      else
        none
    else
      some (.plain .I16X8 [105, 49, 54, 120, 56])  -- i16x8
  else if peekChar data 2 = 95 then
    if peekChar data 5 = 95 then
      some (.typed .BrOnExnInstr [98, 114, 95, 111, 110, 95, 101, 120, 110] .BrOnExn (some .Exceptions))  -- br_on_exn
    else if peekChar data 5 = 98 then
      some (.typed .BrTableInstr [98, 114, 95, 116, 97, 98, 108, 101] .BrTable none)  -- br_table
    else
      some (.typed .VarInstr [98, 114, 95, 105, 102] .BrIf none)  -- br_if
  else if peekChar data 2 = 97 then
    if peekChar data 5 = 100 then
      some (.plain .Shared [115, 104, 97, 114, 101, 100])  -- shared
    else
      some (.plain .Start [115, 116, 97, 114, 116])  -- start
  else if peekChar data 2 = 98 then
    if peekChar data 5 = 46 then
      if peekChar data 9 = 101 then
        some (.typed .VarInstr [116, 97, 98, 108, 101, 46, 115, 105, 122, 101] .TableSize (some .ReferenceTypes))  -- table.size
      else if peekChar data 9 = 108 then
        some (.typed .VarInstr [116, 97, 98, 108, 101, 46, 102, 105, 108, 108] .TableFill (some .ReferenceTypes))  -- table.fill
      else if peekChar data 9 = 116 then
        some (.typed .TableInitInstr [116, 97, 98, 108, 101, 46, 105, 110, 105, 116] .TableInit (some .BulkMemory))  -- table.init
      else if peekChar data 9 = 119 then
        some (.typed .VarInstr [116, 97, 98, 108, 101, 46, 103, 114, 111, 119] .TableGrow (some .ReferenceTypes))  -- table.grow
      else if peekChar data 9 = 121 then
        some (.typed .TableCopyInstr [116, 97, 98, 108, 101, 46, 99, 111, 112, 121] .TableCopy (some .BulkMemory))  -- table.copy
      else
        if peekChar data 6 = 103 then
          some (.typed .VarInstr [116, 97, 98, 108, 101, 46, 103, 101, 116] .TableGet (some .ReferenceTypes))  -- table.get
        else if peekChar data 6 = 115 then
          some (.typed .VarInstr [116, 97, 98, 108, 101, 46, 115, 101, 116] .TableSet (some .ReferenceTypes))  -- table.set
        else
          none
    else
      some (.plain .Table [116, 97, 98, 108, 101])  -- table
  else if peekChar data 2 = 99 then
    if peekChar data 5 = 46 then
      if peekChar data 6 = 103 then
        some (.typed .VarInstr [108, 111, 99, 97, 108, 46, 103, 101, 116] .LocalGet none)  -- local.get
      else if peekChar data 6 = 115 then
        some (.typed .VarInstr [108, 111, 99, 97, 108, 46, 115, 101, 116] .LocalSet none)  -- local.set
      else if peekChar data 6 = 116 then
        some (.typed .VarInstr [108, 111, 99, 97, 108, 46, 116, 101, 101] .LocalTee none)  -- local.tee
      else
        none
    else if peekChar data 5 = 114 then
      some (.plain .Declare [100, 101, 99, 108, 97, 114, 101])  -- declare
    else
      some (.plain .Local [108, 111, 99, 97, 108])  -- local
  else if peekChar data 2 = 100 then
    if peekChar data 3 = 117 then
      some (.plain .Module [109, 111, 100, 117, 108, 101])  -- module
    else
      some (.typed .End [101, 110, 100] .End none)  -- end
  else if peekChar data 2 = 101 then
    if peekChar data 1 = 101 then
      some (.typed .VarInstr [116, 101, 101, 95, 108, 111, 99, 97, 108] .LocalTee none)  -- tee_local
    else if peekChar data 1 = 104 then
      some (.plain .Then [116, 104, 101, 110])  -- then
    else if peekChar data 1 = 108 then
      if peekChar data 4 = 46 then
        some (.typed .VarInstr [101, 108, 101, 109, 46, 100, 114, 111, 112] .ElemDrop (some .BulkMemory))  -- elem.drop
      else
        some (.plain .Elem [101, 108, 101, 109])  -- elem
    else if peekChar data 1 = 116 then
      some (.plain .Item [105, 116, 101, 109])  -- item
    else if peekChar data 1 = 118 then
      some (.plain .Event [101, 118, 101, 110, 116])  -- event
    else
      none
  else if peekChar data 2 = 102 then
    if peekChar data 3 = 46 then
      if peekChar data 7 = 99 then
        some (.typed .RefFuncInstr [114, 101, 102, 46, 102, 117, 110, 99] .RefFunc (some .ReferenceTypes))  -- ref.func
      else if peekChar data 7 = 108 then
        some (.typed .RefNullInstr [114, 101, 102, 46, 110, 117, 108, 108] .RefNull (some .ReferenceTypes))  -- ref.null
      else if peekChar data 7 = 110 then
        some (.bare [114, 101, 102, 46, 105, 115, 95, 110, 117, 108, 108] .RefIsNull (some .ReferenceTypes))  -- ref.is_null
      else if peekChar data 7 = 116 then
        some (.plain .RefHost [114, 101, 102, 46, 104, 111, 115, 116])  -- ref.host
      else
        some (.plain .RefAny [114, 101, 102, 46, 97, 110, 121])  -- ref.any
    else if peekChar data 3 = 115 then
      if peekChar data 6 = 61 then
        some .offsetEq
      else
        some (.plain .Offset [111, 102, 102, 115, 101, 116])  -- offset
    else
      some .litInf  -- inf
  else if peekChar data 2 = 103 then
    some (.plain .Register [114, 101, 103, 105, 115, 116, 101, 114])  -- register
  else if peekChar data 2 = 105 then
    some .alignEq
  else if peekChar data 2 = 108 then
    if peekChar data 4 = 95 then
      some (.typed .CallIndirectInstr [99, 97, 108, 108, 95, 105, 110, 100, 105, 114, 101, 99, 116] .CallIndirect none)  -- call_indirect
    else if peekChar data 4 = 99 then
      some (.typed .SelectInstr [115, 101, 108, 101, 99, 116] .Select none)  -- select
    else if peekChar data 4 = 114 then
      some (.valType [110, 117, 108, 108, 114, 101, 102] .Nullref)  -- nullref
    else
      some (.typed .VarInstr [99, 97, 108, 108] .Call none)  -- call
  else if peekChar data 2 = 109 then
    if peekChar data 6 = 46 then
      if peekChar data 10 = 101 then
        some (.bare [109, 101, 109, 111, 114, 121, 46, 115, 105, 122, 101] .MemorySize none)  -- memory.size
      else if peekChar data 10 = 108 then
        some (.bare [109, 101, 109, 111, 114, 121, 46, 102, 105, 108, 108] .MemoryFill (some .BulkMemory))  -- memory.fill
      else if peekChar data 10 = 116 then
        some (.typed .VarInstr [109, 101, 109, 111, 114, 121, 46, 105, 110, 105, 116] .MemoryInit (some .BulkMemory))  -- memory.init
      else if peekChar data 10 = 119 then
        some (.bare [109, 101, 109, 111, 114, 121, 46, 103, 114, 111, 119] .MemoryGrow none)  -- memory.grow
      else if peekChar data 10 = 121 then
        some (.bare [109, 101, 109, 111, 114, 121, 46, 99, 111, 112, 121] .MemoryCopy (some .BulkMemory))  -- memory.copy
      else
        none
    else
      some (.plain .Memory [109, 101, 109, 111, 114, 121])  -- memory
  else if peekChar data 2 = 110 then
    if peekChar data 3 = 58 then
      if peekChar data 6 = 105 then
        some (.plain .NanArithmetic [110, 97, 110, 58, 97, 114, 105, 116, 104, 109, 101, 116, 105, 99])  -- nan:arithmetic
      else if peekChar data 6 = 110 then
        some (.plain .NanCanonical [110, 97, 110, 58, 99, 97, 110, 111, 110, 105, 99, 97, 108])  -- nan:canonical
      else
        some .nanCall
    else if peekChar data 3 = 97 then
      some (.plain .Binary [98, 105, 110, 97, 114, 121])  -- binary
    else if peekChar data 3 = 99 then
      if peekChar data 4 = 114 then
        some (.valType [102, 117, 110, 99, 114, 101, 102] .Funcref)  -- funcref
      else
        some (.plain .Func [102, 117, 110, 99])  -- func
    else if peekChar data 3 = 114 then
      some (.valType [101, 120, 110, 114, 101, 102] .Exnref)  -- exnref
    else
      some .litNan  -- nan
  else if peekChar data 2 = 111 then
    if peekChar data 4 = 95 then
      some (.bare [103, 114, 111, 119, 95, 109, 101, 109, 111, 114, 121] .MemoryGrow none)  -- grow_memory
    else if peekChar data 4 = 97 then
      if peekChar data 6 = 46 then
        if peekChar data 7 = 103 then
          some (.typed .VarInstr [103, 108, 111, 98, 97, 108, 46, 103, 101, 116] .GlobalGet none)  -- global.get
        else if peekChar data 7 = 115 then
          some (.typed .VarInstr [103, 108, 111, 98, 97, 108, 46, 115, 101, 116] .GlobalSet none)  -- global.set
        else
          none
      else
        some (.plain .Global [103, 108, 111, 98, 97, 108])  -- global
    else if peekChar data 4 = 101 then
      some (.plain .Quote [113, 117, 111, 116, 101])  -- quote
    else if peekChar data 4 = 105 then
      some (.typed .MemoryInstr [97, 116, 111, 109, 105, 99, 46, 110, 111, 116, 105, 102, 121] .AtomicNotify (some .Threads))  -- atomic.notify
    else if peekChar data 4 = 107 then
      some (.typed .BlockInstr [98, 108, 111, 99, 107] .Block none)  -- block
    else
      if peekChar data 1 = 111 then
        some (.typed .BlockInstr [108, 111, 111, 112] .Loop none)  -- loop
      else if peekChar data 1 = 114 then
        some (.bare [100, 114, 111, 112] .Drop none)  -- drop
      else
        none
  else if peekChar data 2 = 112 then
    if peekChar data 1 = 109 then
      some (.plain .Import [105, 109, 112, 111, 114, 116])  -- import
    else if peekChar data 1 = 111 then
      some (.bare [110, 111, 112] .Nop none)  -- nop
    else if peekChar data 1 = 120 then
      some (.plain .Export [101, 120, 112, 111, 114, 116])  -- export
    else if peekChar data 1 = 121 then
      some (.plain .Type [116, 121, 112, 101])  -- type
    else
      none
  else if peekChar data 2 = 114 then
    if peekChar data 4 = 97 then
      some (.bare [117, 110, 114, 101, 97, 99, 104, 97, 98, 108, 101] .Unreachable none)  -- unreachable
    else if peekChar data 4 = 101 then
      some (.bare [99, 117, 114, 114, 101, 110, 116, 95, 109, 101, 109, 111, 114, 121] .MemorySize none)  -- current_memory
    else if peekChar data 4 = 109 then
      some (.plain .Param [112, 97, 114, 97, 109])  -- param
    else if peekChar data 4 = 119 then
      some (.typed .VarInstr [116, 104, 114, 111, 119] .Throw (some .Exceptions))  -- throw
    else
      none
  else if peekChar data 2 = 115 then
    if peekChar data 4 = 108 then
      some (.plain .Result [114, 101, 115, 117, 108, 116])  -- result
    else if peekChar data 4 = 114 then
      if peekChar data 11 = 108 then
        some (.plain .AssertInvalid [97, 115, 115, 101, 114, 116, 95, 105, 110, 118, 97, 108, 105, 100])  -- assert_invalid
      else if peekChar data 11 = 110 then
        some (.plain .AssertUnlinkable [97, 115, 115, 101, 114, 116, 95, 117, 110, 108, 105, 110, 107, 97, 98, 108, 101])  -- assert_unlinkable
      else if peekChar data 11 = 111 then
        some (.plain .AssertMalformed [97, 115, 115, 101, 114, 116, 95, 109, 97, 108, 102, 111, 114, 109, 101, 100])  -- assert_malformed
      else if peekChar data 11 = 114 then
        some (.plain .AssertReturn [97, 115, 115, 101, 114, 116, 95, 114, 101, 116, 117, 114, 110])  -- assert_return
      else if peekChar data 11 = 117 then
        some (.plain .AssertExhaustion [97, 115, 115, 101, 114, 116, 95, 101, 120, 104, 97, 117, 115, 116, 105, 111, 110])  -- assert_exhaustion
      else
        some (.plain .AssertTrap [97, 115, 115, 101, 114, 116, 95, 116, 114, 97, 112])  -- assert_trap
    else
      some (.typed .Else [101, 108, 115, 101] .Else none)  -- else
  else if peekChar data 2 = 116 then
    if peekChar data 3 = 95 then
      if peekChar data 9 = 108 then
        if peekChar data 0 = 103 then
          some (.typed .VarInstr [103, 101, 116, 95, 103, 108, 111, 98, 97, 108] .GlobalGet none)  -- get_global
        else if peekChar data 0 = 115 then
          some (.typed .VarInstr [115, 101, 116, 95, 103, 108, 111, 98, 97, 108] .GlobalSet none)  -- set_global
        else
          none
      else
        if peekChar data 0 = 103 then
          some (.typed .VarInstr [103, 101, 116, 95, 108, 111, 99, 97, 108] .LocalGet none)  -- get_local
        else if peekChar data 0 = 115 then
          some (.typed .VarInstr [115, 101, 116, 95, 108, 111, 99, 97, 108] .LocalSet none)  -- set_local
        else
          none
    else if peekChar data 3 = 97 then
      if peekChar data 4 = 46 then
        some (.typed .VarInstr [100, 97, 116, 97, 46, 100, 114, 111, 112] .DataDrop (some .BulkMemory))  -- data.drop
      else
        some (.plain .Data [100, 97, 116, 97])  -- data
    else if peekChar data 3 = 99 then
      some (.typed .Catch [99, 97, 116, 99, 104] .Catch none)  -- catch
    else if peekChar data 3 = 104 then
      some (.bare [114, 101, 116, 104, 114, 111, 119] .Rethrow (some .Exceptions))  -- rethrow
    else if peekChar data 3 = 117 then
      if peekChar data 6 = 95 then
        if peekChar data 11 = 95 then
          some (.typed .CallIndirectInstr [114, 101, 116, 117, 114, 110, 95, 99, 97, 108, 108, 95, 105, 110, 100, 105, 114, 101, 99, 116] .ReturnCallIndirect (some .TailCall))  -- return_call_indirect
        else
          some (.typed .VarInstr [114, 101, 116, 117, 114, 110, 95, 99, 97, 108, 108] .ReturnCall (some .TailCall))  -- return_call
      else
        some (.bare [114, 101, 116, 117, 114, 110] .Return none)  -- return
    else
      if peekChar data 1 = 101 then
        some (.plain .Get [103, 101, 116])  -- get
      else if peekChar data 1 = 117 then
        some (.plain .Mut [109, 117, 116])  -- mut
      else
        none
  else if peekChar data 2 = 118 then
    some (.plain .Invoke [105, 110, 118, 111, 107, 101])  -- invoke
  else if peekChar data 2 = 120 then
    if peekChar data 5 = 46 then
      if peekChar data 8 = 95 then
        if peekChar data 9 = 115 then
          if peekChar data 7 = 101 then
            if peekChar data 6 = 103 then
              some (.bare [105, 56, 120, 49, 54, 46, 103, 101, 95, 115] .I8X16GeS (some .Simd))  -- i8x16.ge_s
            else if peekChar data 6 = 108 then
              some (.bare [105, 56, 120, 49, 54, 46, 108, 101, 95, 115] .I8X16LeS (some .Simd))  -- i8x16.le_s
            else
              none
          else if peekChar data 7 = 116 then
            if peekChar data 6 = 103 then
              some (.bare [105, 56, 120, 49, 54, 46, 103, 116, 95, 115] .I8X16GtS (some .Simd))  -- i8x16.gt_s
            else if peekChar data 6 = 108 then
              some (.bare [105, 56, 120, 49, 54, 46, 108, 116, 95, 115] .I8X16LtS (some .Simd))  -- i8x16.lt_s
            else
              none
          else
            none
        else if peekChar data 9 = 117 then
          if peekChar data 7 = 101 then
            if peekChar data 6 = 103 then
              some (.bare [105, 56, 120, 49, 54, 46, 103, 101, 95, 117] .I8X16GeU (some .Simd))  -- i8x16.ge_u
            else if peekChar data 6 = 108 then
              some (.bare [105, 56, 120, 49, 54, 46, 108, 101, 95, 117] .I8X16LeU (some .Simd))  -- i8x16.le_u
            else
              none
          else if peekChar data 7 = 116 then
            if peekChar data 6 = 103 then
              some (.bare [105, 56, 120, 49, 54, 46, 103, 116, 95, 117] .I8X16GtU (some .Simd))  -- i8x16.gt_u
            else if peekChar data 6 = 108 then
              some (.bare [105, 56, 120, 49, 54, 46, 108, 116, 95, 117] .I8X16LtU (some .Simd))  -- i8x16.lt_u
            else
              none
          else
            none
        else
          none
      else if peekChar data 8 = 97 then
        some (.typed .MemoryInstr [118, 56, 120, 49, 54, 46, 108, 111, 97, 100, 95, 115, 112, 108, 97, 116] .V8X16LoadSplat (some .Simd))  -- v8x16.load_splat
      else if peekChar data 8 = 98 then
        if peekChar data 9 = 95 then
          if peekChar data 19 = 115 then
            some (.bare [105, 56, 120, 49, 54, 46, 115, 117, 98, 95, 115, 97, 116, 117, 114, 97, 116, 101, 95, 115] .I8X16SubSaturateS (some .Simd))  -- i8x16.sub_saturate_s
          else if peekChar data 19 = 117 then
            some (.bare [105, 56, 120, 49, 54, 46, 115, 117, 98, 95, 115, 97, 116, 117, 114, 97, 116, 101, 95, 117] .I8X16SubSaturateU (some .Simd))  -- i8x16.sub_saturate_u
          else
            none
        else
          some (.bare [105, 56, 120, 49, 54, 46, 115, 117, 98] .I8X16Sub (some .Simd))  -- i8x16.sub
      else if peekChar data 8 = 100 then
        if peekChar data 9 = 95 then
          if peekChar data 19 = 115 then
            some (.bare [105, 56, 120, 49, 54, 46, 97, 100, 100, 95, 115, 97, 116, 117, 114, 97, 116, 101, 95, 115] .I8X16AddSaturateS (some .Simd))  -- i8x16.add_saturate_s
          else if peekChar data 19 = 117 then
            some (.bare [105, 56, 120, 49, 54, 46, 97, 100, 100, 95, 115, 97, 116, 117, 114, 97, 116, 101, 95, 117] .I8X16AddSaturateU (some .Simd))  -- i8x16.add_saturate_u
          else
            none
        else
          some (.bare [105, 56, 120, 49, 54, 46, 97, 100, 100] .I8X16Add (some .Simd))  -- i8x16.add
      else if peekChar data 8 = 103 then
        if peekChar data 9 = 114 then
          some (.bare [105, 56, 120, 49, 54, 46, 97, 118, 103, 114, 95, 117] .I8X16AvgrU (some .Simd))  -- i8x16.avgr_u
        else
          some (.bare [105, 56, 120, 49, 54, 46, 110, 101, 103] .I8X16Neg (some .Simd))  -- i8x16.neg
      else if peekChar data 8 = 105 then
        some (.bare [118, 56, 120, 49, 54, 46, 115, 119, 105, 122, 122, 108, 101] .V8X16Swizzle (some .Simd))  -- v8x16.swizzle
      else if peekChar data 8 = 108 then
        if peekChar data 9 = 95 then
          some (.bare [105, 56, 120, 49, 54, 46, 97, 108, 108, 95, 116, 114, 117, 101] .I8X16AllTrue (some .Simd))  -- i8x16.all_true
        else if peekChar data 9 = 97 then
          some (.bare [105, 56, 120, 49, 54, 46, 115, 112, 108, 97, 116] .I8X16Splat (some .Simd))  -- i8x16.splat
        else
          some (.bare [105, 56, 120, 49, 54, 46, 115, 104, 108] .I8X16Shl (some .Simd))  -- i8x16.shl
      else if peekChar data 8 = 110 then
        if peekChar data 10 = 115 then
          some (.bare [105, 56, 120, 49, 54, 46, 109, 105, 110, 95, 115] .I8X16MinS (some .Simd))  -- i8x16.min_s
        else if peekChar data 10 = 117 then
          some (.bare [105, 56, 120, 49, 54, 46, 109, 105, 110, 95, 117] .I8X16MinU (some .Simd))  -- i8x16.min_u
        else
          none
      else if peekChar data 8 = 112 then
        some (.typed .SimdLaneInstr [105, 56, 120, 49, 54, 46, 114, 101, 112, 108, 97, 99, 101, 95, 108, 97, 110, 101] .I8X16ReplaceLane (some .Simd))  -- i8x16.replace_lane
      else if peekChar data 8 = 114 then
        if peekChar data 10 = 111 then
          if peekChar data 19 = 115 then
            some (.bare [105, 56, 120, 49, 54, 46, 110, 97, 114, 114, 111, 119, 95, 105, 49, 54, 120, 56, 95, 115] .I8X16NarrowI16X8S (some .Simd))  -- i8x16.narrow_i16x8_s
          else if peekChar data 19 = 117 then
            some (.bare [105, 56, 120, 49, 54, 46, 110, 97, 114, 114, 111, 119, 95, 105, 49, 54, 120, 56, 95, 117] .I8X16NarrowI16X8U (some .Simd))  -- i8x16.narrow_i16x8_u
          else
            none
        else if peekChar data 10 = 115 then
          some (.bare [105, 56, 120, 49, 54, 46, 115, 104, 114, 95, 115] .I8X16ShrS (some .Simd))  -- i8x16.shr_s
        else if peekChar data 10 = 117 then
          some (.bare [105, 56, 120, 49, 54, 46, 115, 104, 114, 95, 117] .I8X16ShrU (some .Simd))  -- i8x16.shr_u
        else
          none
      else if peekChar data 8 = 116 then
        if peekChar data 19 = 115 then
          some (.typed .SimdLaneInstr [105, 56, 120, 49, 54, 46, 101, 120, 116, 114, 97, 99, 116, 95, 108, 97, 110, 101, 95, 115] .I8X16ExtractLaneS (some .Simd))  -- i8x16.extract_lane_s
        else if peekChar data 19 = 117 then
          some (.typed .SimdLaneInstr [105, 56, 120, 49, 54, 46, 101, 120, 116, 114, 97, 99, 116, 95, 108, 97, 110, 101, 95, 117] .I8X16ExtractLaneU (some .Simd))  -- i8x16.extract_lane_u
        else
          none
      else if peekChar data 8 = 117 then
        some (.typed .SimdShuffleInstr [118, 56, 120, 49, 54, 46, 115, 104, 117, 102, 102, 108, 101] .V8X16Shuffle (some .Simd))  -- v8x16.shuffle
      else if peekChar data 8 = 120 then
        if peekChar data 10 = 115 then
          some (.bare [105, 56, 120, 49, 54, 46, 109, 97, 120, 95, 115] .I8X16MaxS (some .Simd))  -- i8x16.max_s
        else if peekChar data 10 = 117 then
          some (.bare [105, 56, 120, 49, 54, 46, 109, 97, 120, 95, 117] .I8X16MaxU (some .Simd))  -- i8x16.max_u
        else
          none
      else if peekChar data 8 = 121 then
        some (.bare [105, 56, 120, 49, 54, 46, 97, 110, 121, 95, 116, 114, 117, 101] .I8X16AnyTrue (some .Simd))  -- i8x16.any_true
      else
        if peekChar data 7 = 101 then
          some (.bare [105, 56, 120, 49, 54, 46, 110, 101] .I8X16Ne (some .Simd))  -- i8x16.ne
        else if peekChar data 7 = 113 then
          some (.bare [105, 56, 120, 49, 54, 46, 101, 113] .I8X16Eq (some .Simd))  -- i8x16.eq
        else
          none
    else
      some (.plain .I8X16 [105, 56, 120, 49, 54])  -- i8x16
  else if peekChar data 2 = 121 then
    if peekChar data 3 = 102 then
      some (.valType [97, 110, 121, 102, 117, 110, 99] .Funcref)  -- anyfunc
    else if peekChar data 3 = 114 then
      some (.valType [97, 110, 121, 114, 101, 102] .Anyref)  -- anyref
    else
      some (.typed .BlockInstr [116, 114, 121] .Try (some .Exceptions))  -- try
  else
    if peekChar data 1 = 102 then
      some (.typed .BlockInstr [105, 102] .If none)  -- if
    else if peekChar data 1 = 114 then
      some (.typed .VarInstr [98, 114] .Br none)  -- br
    else
      none

end Text

namespace Text

/-- The byte string `"offset="`. -/
def strOffsetEq : List Nat := [111, 102, 102, 115, 101, 116, 61]

/-- The byte string `"align="`. -/
def strAlignEq : List Nat := [97, 108, 105, 103, 110, 61]

/-- Run the `Lex*` call selected by a keyword-tree leaf. -/
def runLeaf (data : List Nat) : KwLeaf → Token × List Nat
  | .bare sv op f => lexKeyword data sv .BareInstr (.opcodeInfo op f)
  | .typed tt sv op f => lexKeyword data sv (kwTTtoTT tt) (.opcodeInfo op f)
  | .plain tt sv => lexKeyword data sv (kwTTtoTT tt) .none
  | .valType sv vt => lexKeyword data sv .ValueType (.valueType vt)
  | .litInf => lexKeyword data strInf .Float (.literal (.ofKind .Infinity))
  | .litNan => lexKeyword data strNan .Float (.literal (.ofKind .Nan))
  | .offsetEq => lexNameEqNum data strOffsetEq .OffsetEqNat
  | .alignEq => lexNameEqNum data strAlignEq .AlignEqNat
  | .nanCall => lexNan data

/-- `Lex`: one token from the front of `data`. -/
def lex (data : List Nat) : Token × List Nat :=
  let c := peekChar data 0
  if c = -1 then (⟨.Eof, data, .none⟩, data)
  else if c = 40 then
    match matchString data [40, 59] with
    | some _ => lexBlockComment data
    | none =>
      match matchString data [40, 64] with
      | some _ => lexAnnot data
      | none => (⟨.Lpar, data.take 1, .none⟩, data.tail)
  else if c = 41 then (⟨.Rpar, data.take 1, .none⟩, data.tail)
  else if c = 59 then
    match matchString data [59, 59] with
    | some _ => lexLineComment data
    | none => (⟨.InvalidChar, data.take 1, .none⟩, data.tail)
  else if c = 32 ∨ c = 9 ∨ c = 13 ∨ c = 10 then lexWhitespace data
  else if c = 34 then lexText data
  else if c = 43 ∨ c = 45 then
    let c1 := peekChar data 1
    if c1 = 105 then lexInf data
    else if c1 = 110 then lexNan data
    else if c1 = 48 then
      match matchString data.tail str0x with
      | some _ => lexHexNumber data .Int
      | none => lexNumber data .Int
    else if 49 ≤ c1 ∧ c1 ≤ 57 then lexNumber data .Int
    else lexReserved data
  else if c = 48 then
    match matchString data str0x with
    | some _ => lexHexNumber data .Nat
    | none => lexNumber data .Nat
  else if 49 ≤ c ∧ c ≤ 57 then lexNumber data .Nat
  else if c = 36 then lexId data
  else
    match kwDispatch data with
    | some leaf => runLeaf data leaf
    | none =>
      if isReserved c then lexReserved data
      else (⟨.InvalidChar, data.take 1, .none⟩, data.tail)

/-- Whether a token type is one of the `Invalid*` failure categories. -/
def isInvalidTok : TokenType → Bool
  | .InvalidChar | .InvalidText | .InvalidLineComment | .InvalidBlockComment => true
  | _ => false

/-- Adjacent-pair discipline for `_` separators: an underscore next to a
character forces that neighbour to satisfy `dig`. -/
def uscRel (dig : Int → Bool) (a b : Nat) : Prop :=
  (a = 95 → dig (b : Int) = true) ∧ (b = 95 → dig (a : Int) = true)

/-- Every `_` in `l` is immediately preceded and followed by a character
satisfying `dig`, and `l` neither starts nor ends with `_`. -/
def underscoreOk (dig : Int → Bool) (l : List Nat) : Prop :=
  l.Chain' (uscRel dig) ∧ l.head? ≠ some 95 ∧ l.getLast? ≠ some 95

/-- The digit class the claim requires of `_`-neighbours in a numeric
token: hex digits for hex literals (and nan payloads), decimal digits
otherwise. -/
def tokenDigitPred : TokenInfo → (Int → Bool)
  | .literal (.HexNat _) => isHexDigit
  | .literal (.HexNumber _ _) => isHexDigit
  | .literal (.NanPayload _ _) => isHexDigit
  | _ => isDigit

/-- The underscore invariant for one lexer result: if the token is numeric
(type `Nat`, `Int` or `Float`), every `_` in its text sits between two
characters of the digit class of its literal info, and the text neither
starts nor ends with `_`. -/
def uscOk (tr : Token × List Nat) : Prop :=
  (tr.1.type = .Nat ∨ tr.1.type = .Int ∨ tr.1.type = .Float) →
  underscoreOk (tokenDigitPred tr.1.info) tr.1.text

end Text
namespace Binary

/-! ## Helper lemmas about the byte reader -/

theorem and128_eq_zero {b : Nat} (h : b < 128) : b &&& 128 = 0 := by
  have H : ∀ x : Fin 128, x.val &&& 128 = 0 := by decide
  exact H ⟨b, h⟩

theorem and128_ne_zero {b : Nat} (h1 : 128 ≤ b) (h2 : b < 256) : ¬ b &&& 128 = 0 := by
  have H : ∀ x : Fin 256, 128 ≤ x.val → ¬ x.val &&& 128 = 0 := by decide
  exact H ⟨b, h2⟩ h1

theorem readVarIntCore_append_cont (W : Nat) (sgn : Bool) (pre : List Nat) :
    ∀ (i result : Nat) (tail : List Nat),
    (∀ x ∈ pre, 128 ≤ x ∧ x < 256) →
    i + pre.length < kMaxBytes W →
    readVarIntCore W sgn i result (pre ++ tail)
      = readVarIntCore W sgn (i + pre.length) (lebAccum W i result pre) tail := by
  induction pre with
  | nil => intro i result tail _ _; simp [lebAccum]
  | cons b bs ih =>
    intro i result tail hbytes hlt
    have hb := hbytes b (List.mem_cons_self b bs)
    have hlen : (b :: bs).length = bs.length + 1 := List.length_cons b bs
    rw [hlen] at hlt
    have hne : ¬ (i + 1 = kMaxBytes W) := by omega
    simp only [List.cons_append, readVarIntCore, lebAccum, List.append_eq]
    rw [if_neg hne, if_neg (and128_ne_zero hb.1 hb.2)]
    rw [ih (i + 1) _ tail (fun x hx => hbytes x (List.mem_cons_of_mem b hx)) (by omega)]
    congr 1
    omega

theorem lebAccum_append (W b : Nat) (pre : List Nat) :
    ∀ i r, lebAccum W i r (pre ++ [b])
      = (lebAccum W i r pre ||| ((b &&& 0x7f) <<< (7 * (i + pre.length)))) % 2 ^ W := by
  induction pre with
  | nil => intro i r; simp [lebAccum]
  | cons c cs ih =>
    intro i r
    simp only [List.cons_append, lebAccum, List.append_eq, List.length_cons]
    rw [ih, show i + 1 + cs.length = i + (cs.length + 1) by omega]

theorem lebPayload_lt (bs : List Nat) : lebPayload bs < 2 ^ (7 * bs.length) := by
  induction bs with
  | nil => simp [lebPayload]
  | cons b bs ih =>
    simp only [lebPayload, List.length_cons]
    have hb : b % 128 < 128 := Nat.mod_lt b (by norm_num)
    have : 7 * (bs.length + 1) = 7 * bs.length + 7 := by ring
    rw [this, pow_add]
    have h128 : (2 : Nat) ^ 7 = 128 := by norm_num
    nlinarith [ih]

theorem lebAccum_eq_payload (W : Nat) (bs : List Nat) :
    ∀ i r, r < 2 ^ (7 * i) → 7 * (i + bs.length) ≤ W →
    lebAccum W i r bs = r + 2 ^ (7 * i) * lebPayload bs := by
  induction bs with
  | nil => intro i r _ _; simp [lebAccum, lebPayload]
  | cons b bs ih =>
    intro i r hr hW
    simp only [lebAccum, lebPayload]
    have hand : b &&& 0x7f = b % 128 := by
      have : (0x7f : Nat) = 2 ^ 7 - 1 := by norm_num
      rw [this, Nat.and_pow_two_sub_one_eq_mod]
    have hshift : (b % 128) <<< (7 * i) = 2 ^ (7 * i) * (b % 128) := by
      rw [Nat.shiftLeft_eq]; ring
    have hor : r ||| ((b &&& 0x7f) <<< (7 * i)) = r + 2 ^ (7 * i) * (b % 128) := by
      rw [hand, hshift, Nat.lor_comm,
        ← Nat.mul_add_lt_is_or hr (b % 128)]
      ring
    have hmod128 : b % 128 < 128 := Nat.mod_lt b (by norm_num)
    have hbound : r + 2 ^ (7 * i) * (b % 128) < 2 ^ (7 * (i + 1)) := by
      have : 7 * (i + 1) = 7 * i + 7 := by ring
      rw [this, pow_add]
      have h128 : (2 : Nat) ^ 7 = 128 := by norm_num
      nlinarith
    have hWle : 2 ^ (7 * (i + 1)) ≤ 2 ^ W := by
      apply Nat.pow_le_pow_right (by norm_num)
      simp only [List.length_cons] at hW
      omega
    have hmod : (r ||| ((b &&& 0x7f) <<< (7 * i))) % 2 ^ W
        = r + 2 ^ (7 * i) * (b % 128) := by
      rw [hor]; exact Nat.mod_eq_of_lt (lt_of_lt_of_le hbound hWle)
    rw [hmod, ih (i + 1) _ hbound (by simp only [List.length_cons] at hW; omega)]
    have hp : (2 : Nat) ^ (7 * (i + 1)) = 2 ^ (7 * i) * 128 := by
      rw [show 7 * (i + 1) = 7 * i + 7 by ring, pow_add]; norm_num
    rw [hp]; ring

theorem signExtend_eq_toSigned (W N x : Nat) (hx : x < 2 ^ (N + 1)) (hNW : N + 1 ≤ W) :
    signExtend W N x = toSigned (N + 1) x := by
  have hs : N + 1 + (W - N - 1) = W := by omega
  set s := W - N - 1 with hsdef
  have hpow : (2 : Nat) ^ (N + 1) * 2 ^ s = 2 ^ W := by rw [← pow_add, hs]
  have hlt : x * 2 ^ s < 2 ^ W := by
    calc x * 2 ^ s < 2 ^ (N + 1) * 2 ^ s :=
          Nat.mul_lt_mul_of_pos_right hx (by positivity)
    _ = 2 ^ W := hpow
  have hmod : (x <<< s) % 2 ^ W = x * 2 ^ s := by
    rw [Nat.shiftLeft_eq]; exact Nat.mod_eq_of_lt hlt
  unfold signExtend
  rw [hmod]
  by_cases hN : x < 2 ^ N
  · have hlt1 : x * 2 ^ s < 2 ^ (W - 1) := by
      have h1 : (2 : Nat) ^ (W - 1) = 2 ^ N * 2 ^ s := by
        rw [← pow_add]; congr 1; omega
      rw [h1]
      exact Nat.mul_lt_mul_of_pos_right hN (by positivity)
    unfold toSigned
    rw [if_pos hlt1, if_pos (show x < 2 ^ (N + 1 - 1) by simpa using hN)]
    push_cast
    exact Int.mul_fdiv_cancel _ (by positivity)
  · have hge : ¬ x * 2 ^ s < 2 ^ (W - 1) := by
      push_neg
      have h1 : (2 : Nat) ^ (W - 1) = 2 ^ N * 2 ^ s := by
        rw [← pow_add]; congr 1; omega
      rw [h1]
      exact Nat.mul_le_mul_right _ (le_of_not_lt hN)
    unfold toSigned
    rw [if_neg hge, if_neg (show ¬ x < 2 ^ (N + 1 - 1) by simpa using hN)]
    have key : (↑(x * 2 ^ s) : Int) - 2 ^ W = ((x : Int) - 2 ^ (N + 1)) * 2 ^ s := by
      have h2 : ((2 : Int) ^ (N + 1)) * 2 ^ s = 2 ^ W := by
        rw [← pow_add, hs]
      push_cast
      rw [sub_mul, h2]
    rw [key]
    exact Int.mul_fdiv_cancel _ (by positivity)

/-! ## C6: signed LEB128 decoding with early termination -/

/-- C6: for a signed LEB128 read (`read_var_s32` / `read_var_s64`) whose
first short byte (continuation bit clear) appears at position `pre.length`
with `pre.length + 1 < K`, the result is the two's-complement value of the
accumulated `7 * (pre.length + 1)` payload bits, sign-extended from the bit
just past the last payload bit. -/
theorem readVarInt_signed_shortByte (W : Nat) (hW : W = 32 ∨ W = 64)
    (pre : List Nat) (b : Nat) (rest : List Nat)
    (hpre : ∀ x ∈ pre, 128 ≤ x ∧ x < 256)
    (hb : b < 128)
    (hK : pre.length + 1 < kMaxBytes W) :
    readVarInt W true (pre ++ b :: rest)
      = some (toSigned (7 * (pre.length + 1)) (lebPayload (pre ++ [b])), rest) := by
  have hKval : kMaxBytes W = (W + 6) / 7 := rfl
  have h7 : 7 * (pre.length + 1) ≤ W := by
    rcases hW with rfl | rfl <;> rw [hKval] at hK <;> omega
  unfold readVarInt
  rw [readVarIntCore_append_cont W true pre 0 0 (b :: rest) hpre (by omega)]
  simp only [readVarIntCore]
  rw [if_neg (show ¬ (0 + pre.length + 1 = kMaxBytes W) by omega),
      if_pos (and128_eq_zero hb)]
  have hacc : (lebAccum W 0 0 pre ||| ((b &&& 0x7f) <<< (7 * (0 + pre.length)))) % 2 ^ W
      = lebAccum W 0 0 (pre ++ [b]) := by
    rw [lebAccum_append]
  have hlenapp : (pre ++ [b]).length = pre.length + 1 := by
    simp [List.length_append]
  have hpay : lebAccum W 0 0 (pre ++ [b]) = lebPayload (pre ++ [b]) := by
    have h := lebAccum_eq_payload W (pre ++ [b]) 0 0 (by norm_num)
      (by rw [hlenapp]; omega)
    simpa using h
  have hplt : lebPayload (pre ++ [b]) < 2 ^ (7 * (pre.length + 1)) := by
    have := lebPayload_lt (pre ++ [b])
    rwa [hlenapp] at this
  have hse : signExtend W (6 + 7 * (0 + pre.length)) (lebAccum W 0 0 (pre ++ [b]))
      = toSigned (7 * (pre.length + 1)) (lebPayload (pre ++ [b])) := by
    rw [hpay]
    have hNe : 6 + 7 * (0 + pre.length) + 1 = 7 * (pre.length + 1) := by omega
    rw [show (6 + 7 * (0 + pre.length)) = 7 * (pre.length + 1) - 1 by omega]
    have h1 := signExtend_eq_toSigned W (7 * (pre.length + 1) - 1)
      (lebPayload (pre ++ [b]))
      (by rw [show 7 * (pre.length + 1) - 1 + 1 = 7 * (pre.length + 1) by omega]; exact hplt)
      (by omega)
    rw [h1, show 7 * (pre.length + 1) - 1 + 1 = 7 * (pre.length + 1) by omega]
  simp only [if_true]
  rw [hacc, hse]

/-- C6 witness: `read_var_s32` on `FF 7F` (two continuation-free payload
bytes of all ones) returns the sign extension `-1`. -/
theorem readVarInt_signed_shortByte_witness :
    readVarInt 32 true [0xFF, 0x7F]
      = some (toSigned (7 * (1 + 1)) (lebPayload ([0xFF] ++ [0x7F])), [])
    ∧ toSigned (7 * (1 + 1)) (lebPayload ([0xFF] ++ [0x7F])) = -1 := by
  refine ⟨?_, by decide⟩
  have h := readVarInt_signed_shortByte 32 (Or.inl rfl) [0xFF] 0x7F []
    (by decide) (by decide) (by decide)
  simpa using h

/-! ## C1: acceptance condition for the final LEB128 byte -/

theorem c1_u32 : ∀ x : Fin 256,
    ((x.val &&& kMask 32 false = 0
        ∨ (false = true ∧ x.val &&& kMask 32 false = kOnes 32 false))
      ↔ x.val / 2 ^ kUsedBitsInLastByte 32 = 0)
    ∧ (128 ≤ x.val →
        ¬(x.val &&& kMask 32 false = 0
          ∨ (false = true ∧ x.val &&& kMask 32 false = kOnes 32 false))) := by
  decide

theorem c1_s32 : ∀ x : Fin 256,
    ((x.val &&& kMask 32 true = 0
        ∨ (true = true ∧ x.val &&& kMask 32 true = kOnes 32 true))
      ↔ (x.val / 2 ^ (kUsedBitsInLastByte 32 - 1) = 0
          ∨ x.val / 2 ^ (kUsedBitsInLastByte 32 - 1) = 2 ^ (8 - kUsedBitsInLastByte 32) - 1))
    ∧ (128 ≤ x.val →
        ¬(x.val &&& kMask 32 true = 0
          ∨ (true = true ∧ x.val &&& kMask 32 true = kOnes 32 true))) := by
  decide

theorem c1_u64 : ∀ x : Fin 256,
    ((x.val &&& kMask 64 false = 0
        ∨ (false = true ∧ x.val &&& kMask 64 false = kOnes 64 false))
      ↔ x.val / 2 ^ kUsedBitsInLastByte 64 = 0)
    ∧ (128 ≤ x.val →
        ¬(x.val &&& kMask 64 false = 0
          ∨ (false = true ∧ x.val &&& kMask 64 false = kOnes 64 false))) := by
  decide

theorem c1_s64 : ∀ x : Fin 256,
    ((x.val &&& kMask 64 true = 0
        ∨ (true = true ∧ x.val &&& kMask 64 true = kOnes 64 true))
      ↔ (x.val / 2 ^ (kUsedBitsInLastByte 64 - 1) = 0
          ∨ x.val / 2 ^ (kUsedBitsInLastByte 64 - 1) = 2 ^ (8 - kUsedBitsInLastByte 64) - 1))
    ∧ (128 ≤ x.val →
        ¬(x.val &&& kMask 64 true = 0
          ∨ (true = true ∧ x.val &&& kMask 64 true = kOnes 64 true))) := by
  decide

/-- C1: after `K - 1` continuation bytes, a `W`-bit LEB128 read
(`W ∈ {32, 64}`, either signedness) succeeds on the `K`-th byte `b` iff the
bits of `b` above the retained payload are all zero (unsigned) or are a
consistent sign-extension of the last payload bit with the continuation bit
clear (signed); in particular a set continuation bit always fails. -/
theorem readVarInt_finalByte (W : Nat) (sgn : Bool) (hW : W = 32 ∨ W = 64)
    (pre : List Nat) (b : Nat) (rest : List Nat)
    (hpre : ∀ x ∈ pre, 128 ≤ x ∧ x < 256)
    (hlen : pre.length = kMaxBytes W - 1)
    (hb : b < 256) :
    ((readVarInt W sgn (pre ++ b :: rest)).isSome = true ↔
      (if sgn then
        b / 2 ^ (kUsedBitsInLastByte W - 1) = 0
          ∨ b / 2 ^ (kUsedBitsInLastByte W - 1) = 2 ^ (8 - kUsedBitsInLastByte W) - 1
       else b / 2 ^ kUsedBitsInLastByte W = 0))
    ∧ (128 ≤ b → readVarInt W sgn (pre ++ b :: rest) = none) := by
  have hKpos : 1 ≤ kMaxBytes W := by
    rcases hW with rfl | rfl <;> decide
  unfold readVarInt
  rw [readVarIntCore_append_cont W sgn pre 0 0 (b :: rest) hpre (by omega)]
  simp only [readVarIntCore]
  rw [if_pos (show 0 + pre.length + 1 = kMaxBytes W by omega)]
  have hspec : (b &&& kMask W sgn = 0 ∨ (sgn = true ∧ b &&& kMask W sgn = kOnes W sgn))
      ↔ (if sgn then
          b / 2 ^ (kUsedBitsInLastByte W - 1) = 0
            ∨ b / 2 ^ (kUsedBitsInLastByte W - 1) = 2 ^ (8 - kUsedBitsInLastByte W) - 1
         else b / 2 ^ kUsedBitsInLastByte W = 0) := by
    rcases hW with rfl | rfl <;> cases sgn
    · simpa using (c1_u32 ⟨b, hb⟩).1
    · simpa using (c1_s32 ⟨b, hb⟩).1
    · simpa using (c1_u64 ⟨b, hb⟩).1
    · simpa using (c1_s64 ⟨b, hb⟩).1
  have hncond : 128 ≤ b →
      ¬ (b &&& kMask W sgn = 0 ∨ (sgn = true ∧ b &&& kMask W sgn = kOnes W sgn)) := by
    intro h128
    rcases hW with rfl | rfl <;> cases sgn
    · exact (c1_u32 ⟨b, hb⟩).2 h128
    · exact (c1_s32 ⟨b, hb⟩).2 h128
    · exact (c1_u64 ⟨b, hb⟩).2 h128
    · exact (c1_s64 ⟨b, hb⟩).2 h128
  refine ⟨?_, fun h128 => by rw [if_neg (hncond h128)]⟩
  rw [← hspec]
  split
  · simp_all
  · simp_all

/-- C1 witness: instantiated at the unsigned 32-bit read of
`85 80 80 80 00`, whose fifth byte `00` has all bits above the payload
clear. -/
theorem readVarInt_finalByte_witness :
    ((readVarInt 32 false ([0x85, 0x80, 0x80, 0x80] ++ 0x00 :: [])).isSome = true ↔
      (0x00 : Nat) / 2 ^ kUsedBitsInLastByte 32 = 0)
    ∧ (128 ≤ 0x00 → readVarInt 32 false ([0x85, 0x80, 0x80, 0x80] ++ 0x00 :: []) = none) := by
  have h := readVarInt_finalByte 32 false (Or.inl rfl) [0x85, 0x80, 0x80, 0x80] 0x00 []
    (by decide) (by decide) (by decide)
  simpa using h

/-! ## C2: the overlong zero-padded u32 encoding `85 80 80 80 00` -/

/-- C2 counterexample: the claim expects a decode error on
`85 80 80 80 00`; the reader accepts it and returns the value 5 (as a
section length, `Read<u32>` is this same `ReadVarInt<u32>`). -/
theorem readU32_overlong_accepted :
    readU32 [0x85, 0x80, 0x80, 0x80, 0x00] = some (5, []) := by decide

/-- C2 (amended): a non-canonical, zero-padded five-byte u32 encoding is
accepted with its value (`85 80 80 80 00` decodes to 5); the fifth byte is
rejected only when it has nonzero bits above the u32 payload (e.g. `10`) or
a set continuation bit (e.g. `80`). -/
theorem readU32_overlong_behavior :
    readU32 [0x85, 0x80, 0x80, 0x80, 0x00] = some (5, [])
    ∧ readU32 [0x85, 0x80, 0x80, 0x80, 0x10] = none
    ∧ readU32 [0x85, 0x80, 0x80, 0x80, 0x80] = none := by decide

/-! ## C3: the const-expression opcode set -/

/-- C3 counterexample: the claim says a const-expression whose single
instruction is `ref.func` is accepted; the reader rejects the encoded
`(ref.func 0) end`. -/
theorem readConstExpr_refFunc_rejected :
    readConstExpr refFuncConstExprBytes = none := by decide

/-- C3 (amended): a const-expression read succeeds iff the first decoded
instruction's opcode is one of `i32.const`, `i64.const`, `f32.const`,
`f64.const`, `global.get` (the case list in `reader-inl.h`, without
`v128.const`, `ref.null`, `ref.func`) and the next decoded instruction is
`end`; otherwise the read reports an error and returns no value. -/
theorem readConstExpr_isSome_iff (data : List Nat) :
    (readConstExpr data).isSome = true ↔
      ∃ i1 d1 i2 d2, readInstr data = some (i1, d1)
        ∧ constExprOpcodeOk i1.opcode = true
        ∧ readInstr d1 = some (i2, d2)
        ∧ i2.opcode = Opcode.End := by
  cases h1 : readInstr data with
  | none => simp [readConstExpr, h1]
  | some v1 =>
    obtain ⟨i1, d1⟩ := v1
    by_cases hop : constExprOpcodeOk i1.opcode
    · cases h2 : readInstr d1 with
      | none =>
        have hn : readConstExpr data = none := by
          simp [readConstExpr, h1, h2, hop]
        rw [hn]
        simp only [Option.isSome_none, Bool.false_eq_true, false_iff]
        rintro ⟨j1, e1, j2, e2, hj1, hjok, hj2, hjend⟩
        have hpair := Option.some.inj hj1
        simp only [Prod.mk.injEq] at hpair
        obtain ⟨rfl, rfl⟩ := hpair
        rw [h2] at hj2
        exact Option.noConfusion hj2
      | some v2 =>
        obtain ⟨i2, d2⟩ := v2
        by_cases hend : i2.opcode = Opcode.End
        · have hs : readConstExpr data
              = some (data.take (data.length - d2.length),
                      data.drop (data.length - d2.length)) := by
            simp [readConstExpr, h1, h2, hop, hend]
          rw [hs]
          simp only [Option.isSome_some, true_iff]
          exact ⟨i1, d1, i2, d2, rfl, hop, h2, hend⟩
        · have hn : readConstExpr data = none := by
            simp [readConstExpr, h1, h2, hop, hend]
          rw [hn]
          simp only [Option.isSome_none, Bool.false_eq_true, false_iff]
          rintro ⟨j1, e1, j2, e2, hj1, hjok, hj2, hjend⟩
          have hpair := Option.some.inj hj1
          simp only [Prod.mk.injEq] at hpair
          obtain ⟨rfl, rfl⟩ := hpair
          have hpair2 := Option.some.inj (h2.symm.trans hj2)
          simp only [Prod.mk.injEq] at hpair2
          obtain ⟨rfl, rfl⟩ := hpair2
          exact hend hjend
    · have hn : readConstExpr data = none := by
        simp [readConstExpr, h1, hop]
      rw [hn]
      simp only [Option.isSome_none, Bool.false_eq_true, false_iff]
      rintro ⟨j1, e1, j2, e2, hj1, hjok, hj2, hjend⟩
      have hpair := Option.some.inj hj1
      simp only [Prod.mk.injEq] at hpair
      obtain ⟨rfl, rfl⟩ := hpair
      exact hop hjok

/-! ## C8: `LazyModule` on short inputs -/

/-- C8 (code bug): on inputs shorter than the 8-byte header — here the
empty slice and a slice with magic only — the mismatch branch is taken with
the corresponding optional disengaged, so its error message dereferences an
absent optional. -/
theorem lazyModule_derefsAbsent_on_short :
    lazyModuleDerefsAbsent [] = true
    ∧ lazyModuleDerefsAbsent [0x00, 0x61, 0x73, 0x6D] = true
    ∧ lazyModuleDerefsAbsent [0x00, 0x61, 0x73, 0x6D, 0x01, 0x00, 0x00, 0x00] = false := by
  decide

/-! ## C9: the string-length re-check in `ReadStr` is unreachable -/

/-- C9: whenever `ReadCount` succeeds with length `len`, `len` already
bounds the remaining bytes, so the "Unable to read string of length" branch
of `ReadStr` is never taken: `readStr` equals the reader without that
check. -/
theorem readStr_lengthCheck_unreachable :
    (∀ data len rest, readCount data = some (len, rest) → len ≤ rest.length)
    ∧ ∀ data, readStr data = readStrUnchecked data := by
  have hbound : ∀ data len rest, readCount data = some (len, rest) → len ≤ rest.length := by
    intro data len rest h
    cases hr : readIndex data with
    | none => simp [readCount, hr] at h
    | some v =>
      obtain ⟨count, rest'⟩ := v
      by_cases hgt : count > rest'.length
      · simp [readCount, hr, hgt] at h
      · simp only [readCount, hr, if_neg hgt] at h
        have hpair := Option.some.inj h
        simp only [Prod.mk.injEq] at hpair
        obtain ⟨rfl, rfl⟩ := hpair
        exact le_of_not_lt hgt
  refine ⟨hbound, fun data => ?_⟩
  cases hc : readCount data with
  | none => simp [readStr, readStrUnchecked, hc]
  | some v =>
    obtain ⟨len, rest⟩ := v
    simp [readStr, readStrUnchecked, hc, if_neg (not_lt.mpr (hbound data len rest hc))]

/-- C9 witness: `readCount` on `01 07` returns length 1 with one byte
remaining, and the theorem yields the bound `1 ≤ 1`. -/
theorem readStr_lengthCheck_unreachable_witness :
    readCount [0x01, 0x07] = some (1, [0x07])
    ∧ (1 : Nat) ≤ ([0x07] : List Nat).length :=
  ⟨by decide, readStr_lengthCheck_unreachable.1 [0x01, 0x07] 1 [0x07] (by decide)⟩

end Binary
namespace Text

/-! ## Basic facts about the lexing primitives -/

theorem peekChar_nil (o : Nat) : peekChar [] o = -1 := by
  simp [peekChar]

theorem peekChar_cons_zero (c : Nat) (r : List Nat) :
    peekChar (c :: r) 0 = (c : Int) := by
  simp [peekChar]

theorem lexReserved_fst_type (d : List Nat) :
    (lexReserved d).1.type = .Reserved := by
  simp [lexReserved]

theorem lexReserved_rest (d : List Nat) :
    (lexReserved d).2 = (readReservedChars d).2 := by
  simp [lexReserved]

theorem readReservedChars_rest_le (d : List Nat) :
    (readReservedChars d).2.length ≤ d.length := by
  induction d with
  | nil => simp [readReservedChars]
  | cons c rest ih =>
    simp only [readReservedChars]
    split
    · simpa using Nat.le_succ_of_le ih
    · simp

theorem lexKeyword_fst_type (d sv : List Nat) (tt : TokenType) (info : TokenInfo) :
    (lexKeyword d sv tt info).1.type = tt
    ∨ (lexKeyword d sv tt info).1.type = .Reserved := by
  unfold lexKeyword
  try dsimp only
  split
  · split
    · left; rfl
    · right; exact lexReserved_fst_type d
  · right; exact lexReserved_fst_type d

theorem lexNameEqNum_fst_type (d sv : List Nat) (tt : TokenType) :
    (lexNameEqNum d sv tt).1.type = tt
    ∨ (lexNameEqNum d sv tt).1.type = .Reserved := by
  unfold lexNameEqNum
  try dsimp only
  repeat' split
  all_goals first
    | (left; rfl)
    | (right; exact lexReserved_fst_type _)

theorem lexInf_fst_type (d : List Nat) :
    (lexInf d).1.type = .Float ∨ (lexInf d).1.type = .Reserved := by
  unfold lexInf
  try dsimp only
  repeat' split
  all_goals first
    | (left; rfl)
    | (right; exact lexReserved_fst_type _)

theorem lexNan_fst_type (d : List Nat) :
    (lexNan d).1.type = .Float ∨ (lexNan d).1.type = .Reserved := by
  unfold lexNan
  try dsimp only
  repeat' split
  all_goals first
    | (left; rfl)
    | (right; exact lexReserved_fst_type _)

theorem lexNumberFinish_fst_type (orig : List Nat) (sign : Sign) (hex : Bool)
    (tt : TokenType) (u : HasUnderscores) (d : List Nat) :
    (lexNumberFinish orig sign hex tt u d).1.type = tt
    ∨ (lexNumberFinish orig sign hex tt u d).1.type = .Reserved := by
  unfold lexNumberFinish
  try dsimp only
  split
  · left; rfl
  · right; exact lexReserved_fst_type _

theorem lexNumberExpTail_fst_type (orig : List Nat) (sign : Sign)
    (u : HasUnderscores) (d : List Nat) :
    (lexNumberExpTail orig sign u d).1.type = .Float
    ∨ (lexNumberExpTail orig sign u d).1.type = .Reserved := by
  unfold lexNumberExpTail
  try dsimp only
  split
  · right; exact lexReserved_fst_type _
  · exact lexNumberFinish_fst_type ..

theorem lexNumberExp_fst_type (orig : List Nat) (sign : Sign) (tt : TokenType)
    (u : HasUnderscores) (d : List Nat) :
    (lexNumberExp orig sign tt u d).1.type = tt
    ∨ (lexNumberExp orig sign tt u d).1.type = .Float
    ∨ (lexNumberExp orig sign tt u d).1.type = .Reserved := by
  unfold lexNumberExp
  try dsimp only
  split
  · right; exact lexNumberExpTail_fst_type ..
  · split
    · right; exact lexNumberExpTail_fst_type ..
    · rcases lexNumberFinish_fst_type orig sign false tt u d with h | h
      · left; exact h
      · right; right; exact h

theorem or_float_res {X : TokenType} (tt0 : TokenType)
    (h : X = .Float ∨ X = .Float ∨ X = .Reserved) :
    X = tt0 ∨ X = .Float ∨ X = .Reserved := by
  rcases h with h | h | h
  · exact Or.inr (Or.inl h)
  · exact Or.inr (Or.inl h)
  · exact Or.inr (Or.inr h)

theorem lexNumber_fst_type (d : List Nat) (tt0 : TokenType) :
    (lexNumber d tt0).1.type = tt0
    ∨ (lexNumber d tt0).1.type = .Float
    ∨ (lexNumber d tt0).1.type = .Reserved := by
  unfold lexNumber
  try dsimp only
  repeat' split
  all_goals first
    | (right; right; exact lexReserved_fst_type _)
    | (exact lexNumberExp_fst_type ..)
    | (exact or_float_res tt0 (lexNumberExp_fst_type ..))

theorem lexHexNumberExpTail_fst_type (orig : List Nat) (sign : Sign)
    (u : HasUnderscores) (d : List Nat) :
    (lexHexNumberExpTail orig sign u d).1.type = .Float
    ∨ (lexHexNumberExpTail orig sign u d).1.type = .Reserved := by
  unfold lexHexNumberExpTail
  try dsimp only
  split
  · right; exact lexReserved_fst_type _
  · exact lexNumberFinish_fst_type ..

theorem lexHexNumberExp_fst_type (orig : List Nat) (sign : Sign) (tt : TokenType)
    (u : HasUnderscores) (d : List Nat) :
    (lexHexNumberExp orig sign tt u d).1.type = tt
    ∨ (lexHexNumberExp orig sign tt u d).1.type = .Float
    ∨ (lexHexNumberExp orig sign tt u d).1.type = .Reserved := by
  unfold lexHexNumberExp
  try dsimp only
  split
  · right; exact lexHexNumberExpTail_fst_type ..
  · split
    · right; exact lexHexNumberExpTail_fst_type ..
    · rcases lexNumberFinish_fst_type orig sign true tt u d with h | h
      · left; exact h
      · right; right; exact h

theorem lexHexNumber_fst_type (d : List Nat) (tt0 : TokenType) :
    (lexHexNumber d tt0).1.type = tt0
    ∨ (lexHexNumber d tt0).1.type = .Float
    ∨ (lexHexNumber d tt0).1.type = .Reserved := by
  unfold lexHexNumber
  try dsimp only
  repeat' split
  all_goals first
    | (right; right; exact lexReserved_fst_type _)
    | (exact lexHexNumberExp_fst_type ..)
    | (exact or_float_res tt0 (lexHexNumberExp_fst_type ..))

theorem lexId_fst_type (d : List Nat) :
    (lexId d).1.type = .Id ∨ (lexId d).1.type = .Reserved := by
  unfold lexId
  try dsimp only
  split
  · right; rfl
  · left; rfl

theorem lexWhitespace_fst_type (d : List Nat) :
    (lexWhitespace d).1.type = .Whitespace := by
  simp [lexWhitespace]

theorem kwTTtoTT_not_invalid (t : KwTT) : isInvalidTok (kwTTtoTT t) = false := by
  cases t <;> rfl

theorem runLeaf_not_invalid (d : List Nat) (leaf : KwLeaf) :
    isInvalidTok ((runLeaf d leaf).1.type) = false := by
  cases leaf with
  | bare sv op f =>
    rcases lexKeyword_fst_type d sv .BareInstr (.opcodeInfo op f) with h | h <;>
      simp [runLeaf, h, isInvalidTok]
  | typed tt sv op f =>
    show isInvalidTok ((lexKeyword d sv (kwTTtoTT tt) (.opcodeInfo op f)).1.type) = false
    rcases lexKeyword_fst_type d sv (kwTTtoTT tt) (.opcodeInfo op f) with h | h
    · rw [h]; exact kwTTtoTT_not_invalid tt
    · rw [h]; rfl
  | plain tt sv =>
    show isInvalidTok ((lexKeyword d sv (kwTTtoTT tt) .none).1.type) = false
    rcases lexKeyword_fst_type d sv (kwTTtoTT tt) .none with h | h
    · rw [h]; exact kwTTtoTT_not_invalid tt
    · rw [h]; rfl
  | valType sv vt =>
    rcases lexKeyword_fst_type d sv .ValueType (.valueType vt) with h | h <;>
      simp [runLeaf, h, isInvalidTok]
  | litInf =>
    rcases lexKeyword_fst_type d strInf .Float (.literal (.ofKind .Infinity)) with h | h <;>
      simp [runLeaf, h, isInvalidTok]
  | litNan =>
    rcases lexKeyword_fst_type d strNan .Float (.literal (.ofKind .Nan)) with h | h <;>
      simp [runLeaf, h, isInvalidTok]
  | offsetEq =>
    rcases lexNameEqNum_fst_type d strOffsetEq .OffsetEqNat with h | h <;>
      simp [runLeaf, h, isInvalidTok]
  | alignEq =>
    rcases lexNameEqNum_fst_type d strAlignEq .AlignEqNat with h | h <;>
      simp [runLeaf, h, isInvalidTok]
  | nanCall =>
    rcases lexNan_fst_type d with h | h <;> simp [runLeaf, h, isInvalidTok]

theorem peekChar_cons_succ (c : Nat) (r : List Nat) (n : Nat) :
    peekChar (c :: r) (n + 1) = peekChar r n := by
  simp [peekChar]

theorem lexBlockCommentLoop_spec : ∀ (n : Int) (d : List Nat),
    (lexBlockCommentLoop n d).1 = .BlockComment
    ∨ ((lexBlockCommentLoop n d).1 = .InvalidBlockComment
        ∧ (lexBlockCommentLoop n d).2 = []) := by
  intro n d
  induction n, d using lexBlockCommentLoop.induct <;>
    simp_all [lexBlockCommentLoop]

theorem lexLineCommentLoop_spec : ∀ (d : List Nat),
    (lexLineCommentLoop d).1 = .LineComment
    ∨ ((lexLineCommentLoop d).1 = .InvalidLineComment
        ∧ (lexLineCommentLoop d).2 = []) := by
  intro d
  induction d with
  | nil => simp [lexLineCommentLoop]
  | cons c rest ih => simp_all [lexLineCommentLoop]; split <;> simp_all

theorem lexTextLoop_rest_le : ∀ (e : Bool) (b : Nat) (d : List Nat),
    (lexTextLoop e b d).2.2.length ≤ d.length := by
  intro e b d
  induction e, b, d using lexTextLoop.induct <;>
    (rw [lexTextLoop.eq_def]; (try simp_all [List.length_tail]); (try omega))

/-! ## C4: Lex totality and progress -/

/-- C4: `Lex` is total (it is a Lean function) and makes progress: on a
nonempty input, whenever it returns an `Invalid*` token it has advanced the
cursor by at least one byte. -/
theorem lex_progress (data : List Nat) (hne : data ≠ []) :
    isInvalidTok (lex data).1.type = true → (lex data).2.length < data.length := by
  match data with
  | c0 :: rest0 =>
  unfold lex
  try dsimp only
  rw [peekChar_cons_zero]
  rw [if_neg (by omega : ¬ ((c0 : Nat) : Int) = -1)]
  by_cases h40 : ((c0 : Nat) : Int) = 40
  · rw [if_pos h40]
    have hc0 : c0 = 40 := by exact_mod_cast h40
    subst hc0
    rcases rest0 with _ | ⟨c1, rest1⟩
    · have hm1 : matchString [40] [40, 59] = none := by decide
      have hm2 : matchString [40] [40, 64] = none := by decide
      rw [hm1, hm2]
      dsimp only
      intro hinv
      exact absurd hinv (by decide)
    · by_cases h59 : c1 = 59
      · subst h59
        have hm1 : matchString (40 :: 59 :: rest1) [40, 59] = some rest1 := by
          simp [matchString, matchChar, peekChar_cons_zero]
        rw [hm1]
        intro hinv
        have htype : (lexBlockComment (40 :: 59 :: rest1)).1.type
            = (lexBlockCommentLoop 0 (40 :: 59 :: rest1)).1 := by
          simp [lexBlockComment]
        have hrest : (lexBlockComment (40 :: 59 :: rest1)).2
            = (lexBlockCommentLoop 0 (40 :: 59 :: rest1)).2 := by
          simp [lexBlockComment]
        rw [htype] at hinv
        rw [hrest]
        rcases lexBlockCommentLoop_spec 0 (40 :: 59 :: rest1) with h | ⟨h, hr⟩
        · rw [h] at hinv; exact absurd hinv (by decide)
        · rw [hr]; simp
      · have hc1 : ((c1 : Nat) : Int) ≠ 59 := by omega
        have hm1 : matchString (40 :: c1 :: rest1) [40, 59] = none := by
          simp [matchString, matchChar, peekChar_cons_zero, hc1]
        rw [hm1]
        by_cases h64 : c1 = 64
        · subst h64
          have hm2 : matchString (40 :: 64 :: rest1) [40, 64] = some rest1 := by
            simp [matchString, matchChar, peekChar_cons_zero]
          rw [hm2]
          intro hinv
          have : (lexAnnot (40 :: 64 :: rest1)).1.type = .LparAnn := by
            simp [lexAnnot]
          rw [this] at hinv
          exact absurd hinv (by decide)
        · have hc1b : ((c1 : Nat) : Int) ≠ 64 := by omega
          have hm2 : matchString (40 :: c1 :: rest1) [40, 64] = none := by
            simp [matchString, matchChar, peekChar_cons_zero, hc1b]
          rw [hm2]
          dsimp only
          intro hinv
          exact absurd hinv (by decide)
  · rw [if_neg h40]
    by_cases h41 : ((c0 : Nat) : Int) = 41
    · rw [if_pos h41]
      intro hinv
      simp [isInvalidTok] at hinv
    · rw [if_neg h41]
      by_cases h59 : ((c0 : Nat) : Int) = 59
      · rw [if_pos h59]
        have hc0 : c0 = 59 := by exact_mod_cast h59
        subst hc0
        rcases rest0 with _ | ⟨c1, rest1⟩
        · have hm1 : matchString [59] [59, 59] = none := by decide
          rw [hm1]
          dsimp only
          intro _
          simp
        · by_cases h2 : c1 = 59
          · subst h2
            have hm1 : matchString (59 :: 59 :: rest1) [59, 59] = some rest1 := by
              simp [matchString, matchChar, peekChar_cons_zero]
            rw [hm1]
            intro hinv
            have htype : (lexLineComment (59 :: 59 :: rest1)).1.type
                = (lexLineCommentLoop (59 :: 59 :: rest1)).1 := by
              simp [lexLineComment]
            have hrest : (lexLineComment (59 :: 59 :: rest1)).2
                = (lexLineCommentLoop (59 :: 59 :: rest1)).2 := by
              simp [lexLineComment]
            rw [htype] at hinv
            rw [hrest]
            rcases lexLineCommentLoop_spec (59 :: 59 :: rest1) with h | ⟨h, hr⟩
            · rw [h] at hinv; exact absurd hinv (by decide)
            · rw [hr]; simp
          · have hc1 : ((c1 : Nat) : Int) ≠ 59 := by omega
            have hm1 : matchString (59 :: c1 :: rest1) [59, 59] = none := by
              simp [matchString, matchChar, peekChar_cons_zero, hc1]
            rw [hm1]
            dsimp only
            intro _
            simp
      · rw [if_neg h59]
        by_cases hws : ((c0 : Nat) : Int) = 32 ∨ ((c0 : Nat) : Int) = 9
            ∨ ((c0 : Nat) : Int) = 13 ∨ ((c0 : Nat) : Int) = 10
        · rw [if_pos hws]
          intro hinv
          rw [lexWhitespace_fst_type] at hinv
          exact absurd hinv (by decide)
        · rw [if_neg hws]
          by_cases h34 : ((c0 : Nat) : Int) = 34
          · rw [if_pos h34]
            have hc0 : c0 = 34 := by exact_mod_cast h34
            subst hc0
            intro _
            have hmc : matchChar (34 :: rest0) 34 = some rest0 := by
              simp [matchChar, peekChar_cons_zero]
            have hrest : (lexText (34 :: rest0)).2
                = (lexTextLoop false 0 rest0).2.2 := by
              unfold lexText
              rw [hmc]
              dsimp only
              split <;> rfl
            rw [hrest]
            have := lexTextLoop_rest_le false 0 rest0
            simp only [List.length_cons]
            omega
          · rw [if_neg h34]
            by_cases hsign : ((c0 : Nat) : Int) = 43 ∨ ((c0 : Nat) : Int) = 45
            · rw [if_pos hsign]
              intro hinv
              exfalso
              revert hinv
              repeat' split
              all_goals intro hinv
              all_goals first
                | (rcases lexInf_fst_type (c0 :: rest0) with h | h <;>
                    (rw [h] at hinv; simp [isInvalidTok] at hinv))
                | (rcases lexNan_fst_type (c0 :: rest0) with h | h <;>
                    (rw [h] at hinv; simp [isInvalidTok] at hinv))
                | (rcases lexHexNumber_fst_type (c0 :: rest0) .Int with h | h | h <;>
                    (rw [h] at hinv; simp [isInvalidTok] at hinv))
                | (rcases lexNumber_fst_type (c0 :: rest0) .Int with h | h | h <;>
                    (rw [h] at hinv; simp [isInvalidTok] at hinv))
                | (rw [lexReserved_fst_type] at hinv; simp [isInvalidTok] at hinv)
            · rw [if_neg hsign]
              by_cases h48 : ((c0 : Nat) : Int) = 48
              · rw [if_pos h48]
                intro hinv
                exfalso
                revert hinv
                repeat' split
                all_goals intro hinv
                all_goals first
                  | (rcases lexHexNumber_fst_type (c0 :: rest0) .Nat with h | h | h <;>
                      (rw [h] at hinv; simp [isInvalidTok] at hinv))
                  | (rcases lexNumber_fst_type (c0 :: rest0) .Nat with h | h | h <;>
                      (rw [h] at hinv; simp [isInvalidTok] at hinv))
              · rw [if_neg h48]
                by_cases hdig : 49 ≤ ((c0 : Nat) : Int) ∧ ((c0 : Nat) : Int) ≤ 57
                · rw [if_pos hdig]
                  intro hinv
                  rcases lexNumber_fst_type (c0 :: rest0) .Nat with h | h | h <;>
                    (rw [h] at hinv; simp [isInvalidTok] at hinv)
                · rw [if_neg hdig]
                  by_cases h36 : ((c0 : Nat) : Int) = 36
                  · rw [if_pos h36]
                    intro hinv
                    rcases lexId_fst_type (c0 :: rest0) with h | h <;>
                      (rw [h] at hinv; simp [isInvalidTok] at hinv)
                  · rw [if_neg h36]
                    split
                    · intro hinv
                      rw [runLeaf_not_invalid] at hinv
                      simp at hinv
                    · split
                      · intro hinv
                        rw [lexReserved_fst_type] at hinv
                        simp [isInvalidTok] at hinv
                      · intro _
                        simp

/-- C4 witness: on the one-byte input `00` (NUL is not reserved), `Lex`
returns `InvalidChar` and has consumed the byte. -/
theorem lex_progress_witness :
    isInvalidTok (lex [0]).1.type = true ∧ (lex [0]).2.length < ([0] : List Nat).length :=
  ⟨by decide, lex_progress [0] (by decide) (by decide)⟩

/-! ## C7: legacy and canonical conversion-opcode spellings -/

/-- C7: lexing `i32.trunc_s/f32` and `i32.trunc_f32_s` both return
`BareInstr` tokens carrying opcode `I32TruncF32S` (and the same empty
feature set); only the designated byte runs differ. -/
theorem lex_trunc_spellings :
    lex [105, 51, 50, 46, 116, 114, 117, 110, 99, 95, 115, 47, 102, 51, 50]
      = (⟨.BareInstr, [105, 51, 50, 46, 116, 114, 117, 110, 99, 95, 115, 47, 102, 51, 50],
          .opcodeInfo .I32TruncF32S none⟩, [])
    ∧ lex [105, 51, 50, 46, 116, 114, 117, 110, 99, 95, 102, 51, 50, 95, 115]
      = (⟨.BareInstr, [105, 51, 50, 46, 116, 114, 117, 110, 99, 95, 102, 51, 50, 95, 115],
          .opcodeInfo .I32TruncF32S none⟩, []) := by
  constructor
  · decide
  · decide

end Text
namespace Text

/-! ## Underscore placement in numeric tokens (C10) -/

theorem isDigit_ne_95 {c : Nat} (h : isDigit (c : Int) = true) : c ≠ 95 := by
  intro hc
  subst hc
  exact absurd h (by decide)

theorem isHexDigit_ne_95 {c : Nat} (h : isHexDigit (c : Int) = true) : c ≠ 95 := by
  intro hc
  subst hc
  exact absurd h (by decide)

theorem isDigit_isHexDigit {c : Int} (h : isDigit c = true) : isHexDigit c = true := by
  unfold isDigit isHexDigit isCharClass at *
  by_cases hi : (c + 1).toNat < 128
  · have H : ∀ j : Fin 128, (kCharClasses.getD j.val 0 &&& 8 ≠ 0)
        → (kCharClasses.getD j.val 0 &&& 4 ≠ 0) := by decide
    have h8 : kCharClasses.getD (c + 1).toNat 0 &&& 8 ≠ 0 := by simpa using h
    simpa using decide_eq_true (H ⟨(c + 1).toNat, hi⟩ h8)
  · have hz : kCharClasses.getD (c + 1).toNat 0 = 0 := by
      apply List.getD_eq_default
      have hlen : kCharClasses.length = 128 := by rfl
      omega
    rw [hz] at h
    exact absurd h (by decide)

theorem underscoreOk_nil (dig : Int → Bool) : underscoreOk dig [] :=
  ⟨List.chain'_nil, by simp, by simp⟩

theorem underscoreOk_of_noUnderscore (dig : Int → Bool) (l : List Nat)
    (h : ∀ x ∈ l, x ≠ 95) : underscoreOk dig l := by
  refine ⟨?_, ?_, ?_⟩
  · induction l with
    | nil => exact List.chain'_nil
    | cons a t ih =>
      cases t with
      | nil => exact List.chain'_singleton a
      | cons b t2 =>
        refine List.chain'_cons.mpr ⟨⟨?_, ?_⟩, ih (fun x hx => h x (List.mem_cons_of_mem a hx))⟩
        · intro ha; exact absurd ha (h a (by simp))
        · intro hb; exact absurd hb (h b (by simp))
  · cases l with
    | nil => simp
    | cons a t =>
      simp only [List.head?_cons, ne_eq, Option.some.injEq]
      exact h a (by simp)
  · intro hc
    have hm : (95 : Nat) ∈ l := by
      cases hl : l.getLast? with
      | none => rw [hl] at hc; exact absurd hc (by simp)
      | some x =>
        rw [hl] at hc
        obtain rfl : x = 95 := Option.some.inj hc
        exact List.mem_of_getLast?_eq_some hl
    exact h 95 hm rfl

theorem underscoreOk_append (dig : Int → Bool) {a b : List Nat}
    (ha : underscoreOk dig a) (hb : underscoreOk dig b) :
    underscoreOk dig (a ++ b) := by
  obtain ⟨hca, hha, hla⟩ := ha
  obtain ⟨hcb, hhb, hlb⟩ := hb
  refine ⟨?_, ?_, ?_⟩
  · rw [List.chain'_append]
    refine ⟨hca, hcb, ?_⟩
    intro x hx y hy
    constructor
    · intro h95
      subst h95
      exact absurd hx hla
    · intro h95
      subst h95
      exact absurd hy hhb
  · rw [List.head?_append]
    cases hah : a.head? with
    | none => simpa [hah] using hhb
    | some v => rw [hah] at hha; simpa using hha
  · rw [List.getLast?_append]
    cases hbl : b.getLast? with
    | none => simpa [hbl] using hla
    | some v => rw [hbl] at hlb; simpa using hlb

theorem underscoreOk_mono {l : List Nat}
    (h : underscoreOk isDigit l) : underscoreOk isHexDigit l := by
  obtain ⟨hc, hh, hl⟩ := h
  refine ⟨?_, hh, hl⟩
  apply List.Chain'.imp ?_ hc
  rintro a b ⟨h1, h2⟩
  exact ⟨fun ha => isDigit_isHexDigit (h1 ha), fun hb => isDigit_isHexDigit (h2 hb)⟩

theorem peekChar_eq_char {r : List Nat} {c : Nat} (hc : c < 256)
    (h : peekChar r 0 = (c : Int)) : ∃ t, r = c :: t := by
  cases r with
  | nil => rw [peekChar_nil] at h; omega
  | cons a t =>
    rw [peekChar_cons_zero] at h
    have : a = c := by exact_mod_cast h
    exact ⟨t, by rw [this]⟩

theorem matchChar_eq {d r : List Nat} {c : Nat}
    (h : matchChar d c = some r) : d = c :: r := by
  unfold matchChar at h
  split at h
  · rename_i hp
    cases d with
    | nil => rw [peekChar_nil] at hp; omega
    | cons a t =>
      rw [peekChar_cons_zero] at hp
      obtain rfl : a = c := by exact_mod_cast hp
      injection h with h
      exact congrArg (List.cons a) h
  · exact absurd h (by simp)

theorem matchString_decomp {sv : List Nat} : ∀ {d r : List Nat},
    matchString d sv = some r → d = sv ++ r := by
  induction sv with
  | nil =>
    intro d r h
    unfold matchString at h
    obtain rfl : d = r := Option.some.inj h
    rfl
  | cons c cs ih =>
    intro d r h
    unfold matchString at h
    cases hm : matchChar d c with
    | none => rw [hm] at h; exact absurd h (by simp)
    | some d1 =>
      rw [hm] at h
      rw [matchChar_eq hm, ih h]
      rfl

theorem matchSign_decomp (d : List Nat) :
    ∃ sp, d = sp ++ (matchSign d).2 ∧ ∀ x ∈ sp, x ≠ 95 := by
  unfold matchSign
  cases h1 : matchChar d 43 with
  | some r =>
    refine ⟨[43], ?_, by decide⟩
    simpa using matchChar_eq h1
  | none =>
    cases h2 : matchChar d 45 with
    | some r =>
      refine ⟨[45], ?_, by decide⟩
      simpa using matchChar_eq h2
    | none => exact ⟨[], by simp, by simp⟩

theorem readReservedChars_zero {d : List Nat}
    (h : (readReservedChars d).1 = 0) : (readReservedChars d).2 = d := by
  cases d with
  | nil => rfl
  | cons c rest =>
    unfold readReservedChars at h ⊢
    split at h
    · simp at h
    · rename_i hr
      rw [if_neg hr]

theorem locTake_append (x r : List Nat) : locTake (x ++ r) r = x := by
  unfold locTake
  rw [List.length_append, Nat.add_sub_cancel]
  exact List.take_left x r

theorem matchNumLoop_decomp (u : HasUnderscores) (ok : Bool) (d : List Nat) :
    ∀ (u' : HasUnderscores) (r : List Nat),
    matchNumLoop u ok d = (true, u', r) →
    (ok = true ∧ d = r)
    ∨ ∃ t, d = t ++ r ∧ t ≠ []
        ∧ (∃ hd, t.head? = some hd ∧ isDigit (hd : Int) = true)
        ∧ (∃ lt, t.getLast? = some lt ∧ isDigit (lt : Int) = true)
        ∧ underscoreOk isDigit t := by
  induction u, ok, d using matchNumLoop.induct with
  | case1 u ok =>
    intro u' r h
    rw [matchNumLoop] at h
    injection h with h1 h2
    injection h2 with h2 h3
    exact Or.inl ⟨h1, h3⟩
  | case2 u ok c rest hdig hp95 ih =>
    intro u' r h
    rw [matchNumLoop, if_pos hdig, if_pos hp95] at h
    obtain ⟨t2, rfl⟩ := peekChar_eq_char (by norm_num) hp95
    simp only [List.tail_cons] at h
    rcases ih _ _ h with ⟨hok, rfl⟩ | ⟨t, rfl, htne, ⟨hd, hhd, hddig⟩, ⟨lt, hlt, hltdig⟩, husc⟩
    · exact absurd hok (by simp)
    · refine Or.inr ⟨c :: 95 :: t, by simp, by simp, ⟨c, by simp, hdig⟩, ?_, ?_⟩
      · refine ⟨lt, ?_, hltdig⟩
        match t, htne with
        | th :: tt, _ =>
          rw [List.getLast?_cons_cons, List.getLast?_cons_cons]
          exact hlt
      · obtain ⟨hct, hht, hlt2⟩ := husc
        refine ⟨?_, by simpa using isDigit_ne_95 hdig, ?_⟩
        · match t, htne with
          | th :: tt, _ =>
            obtain rfl : hd = th := by
              rw [List.head?_cons] at hhd; injection hhd with hh; exact hh.symm
            refine List.chain'_cons.mpr
              ⟨⟨fun hc95 => absurd hc95 (isDigit_ne_95 hdig), fun _ => hdig⟩, ?_⟩
            exact List.chain'_cons.mpr
              ⟨⟨fun _ => hddig, fun h95 => absurd h95 (isDigit_ne_95 hddig)⟩, hct⟩
        · match t, htne with
          | th :: tt, _ =>
            rw [List.getLast?_cons_cons, List.getLast?_cons_cons]
            exact hlt2
  | case3 u ok c rest hdig hp95 ih =>
    intro u' r h
    rw [matchNumLoop, if_pos hdig, if_neg hp95] at h
    rcases ih _ _ h with ⟨_, rfl⟩ | ⟨t, rfl, htne, ⟨hd, hhd, hddig⟩, ⟨lt, hlt, hltdig⟩, husc⟩
    · exact Or.inr ⟨[c], by simp, by simp, ⟨c, by simp, hdig⟩, ⟨c, by simp, hdig⟩,
        underscoreOk_of_noUnderscore _ _ (by simpa using isDigit_ne_95 hdig)⟩
    · refine Or.inr ⟨c :: t, by simp, by simp, ⟨c, by simp, hdig⟩, ?_, ?_⟩
      · refine ⟨lt, ?_, hltdig⟩
        match t, htne with
        | th :: tt, _ => rw [List.getLast?_cons_cons]; exact hlt
      · obtain ⟨hct, hht, hlt2⟩ := husc
        refine ⟨?_, by simpa using isDigit_ne_95 hdig, ?_⟩
        · match t, htne with
          | th :: tt, _ =>
            obtain rfl : hd = th := by
              rw [List.head?_cons] at hhd; injection hhd with hh; exact hh.symm
            exact List.chain'_cons.mpr
              ⟨⟨fun hc95 => absurd hc95 (isDigit_ne_95 hdig), fun _ => hdig⟩, hct⟩
        · match t, htne with
          | th :: tt, _ => rw [List.getLast?_cons_cons]; exact hlt2
  | case4 u ok c rest hdig =>
    intro u' r h
    rw [matchNumLoop, if_neg hdig] at h
    injection h with h1 h2
    injection h2 with h2 h3
    exact Or.inl ⟨h1, h3⟩

theorem matchNum_decomp {u u' : HasUnderscores} {d r : List Nat}
    (h : matchNum u d = some (u', r)) :
    ∃ t, d = t ++ r ∧ underscoreOk isDigit t := by
  unfold matchNum at h
  rcases hE : matchNumLoop u false d with ⟨ok1, u1, r1⟩
  rw [hE] at h
  dsimp only at h
  split at h
  · rename_i hok
    injection h with h
    have hr1 : r1 = r := congrArg Prod.snd h
    rw [hok] at hE
    rcases matchNumLoop_decomp u false d u1 r1 hE with ⟨hfalse, _⟩ | ⟨t, ht, _, _, _, husc⟩
    · exact absurd hfalse (by simp)
    · refine ⟨t, ?_, husc⟩
      rw [← hr1]
      exact ht
  · exact absurd h (by simp)

theorem matchHexNumLoop_decomp (u : HasUnderscores) (ok : Bool) (d : List Nat) :
    ∀ (u' : HasUnderscores) (r : List Nat),
    matchHexNumLoop u ok d = (true, u', r) →
    (ok = true ∧ d = r)
    ∨ ∃ t, d = t ++ r ∧ t ≠ []
        ∧ (∃ hd, t.head? = some hd ∧ isHexDigit (hd : Int) = true)
        ∧ (∃ lt, t.getLast? = some lt ∧ isHexDigit (lt : Int) = true)
        ∧ underscoreOk isHexDigit t := by
  induction u, ok, d using matchHexNumLoop.induct with
  | case1 u ok =>
    intro u' r h
    rw [matchHexNumLoop] at h
    injection h with h1 h2
    injection h2 with h2 h3
    exact Or.inl ⟨h1, h3⟩
  | case2 u ok c rest hdig hp95 ih =>
    intro u' r h
    rw [matchHexNumLoop, if_pos hdig, if_pos hp95] at h
    obtain ⟨t2, rfl⟩ := peekChar_eq_char (by norm_num) hp95
    simp only [List.tail_cons] at h
    rcases ih _ _ h with ⟨hok, rfl⟩ | ⟨t, rfl, htne, ⟨hd, hhd, hddig⟩, ⟨lt, hlt, hltdig⟩, husc⟩
    · exact absurd hok (by simp)
    · refine Or.inr ⟨c :: 95 :: t, by simp, by simp, ⟨c, by simp, hdig⟩, ?_, ?_⟩
      · refine ⟨lt, ?_, hltdig⟩
        match t, htne with
        | th :: tt, _ =>
          rw [List.getLast?_cons_cons, List.getLast?_cons_cons]
          exact hlt
      · obtain ⟨hct, hht, hlt2⟩ := husc
        refine ⟨?_, by simpa using isHexDigit_ne_95 hdig, ?_⟩
        · match t, htne with
          | th :: tt, _ =>
            obtain rfl : hd = th := by
              rw [List.head?_cons] at hhd; injection hhd with hh; exact hh.symm
            refine List.chain'_cons.mpr
              ⟨⟨fun hc95 => absurd hc95 (isHexDigit_ne_95 hdig), fun _ => hdig⟩, ?_⟩
            exact List.chain'_cons.mpr
              ⟨⟨fun _ => hddig, fun h95 => absurd h95 (isHexDigit_ne_95 hddig)⟩, hct⟩
        · match t, htne with
          | th :: tt, _ =>
            rw [List.getLast?_cons_cons, List.getLast?_cons_cons]
            exact hlt2
  | case3 u ok c rest hdig hp95 ih =>
    intro u' r h
    rw [matchHexNumLoop, if_pos hdig, if_neg hp95] at h
    rcases ih _ _ h with ⟨_, rfl⟩ | ⟨t, rfl, htne, ⟨hd, hhd, hddig⟩, ⟨lt, hlt, hltdig⟩, husc⟩
    · exact Or.inr ⟨[c], by simp, by simp, ⟨c, by simp, hdig⟩, ⟨c, by simp, hdig⟩,
        underscoreOk_of_noUnderscore _ _ (by simpa using isHexDigit_ne_95 hdig)⟩
    · refine Or.inr ⟨c :: t, by simp, by simp, ⟨c, by simp, hdig⟩, ?_, ?_⟩
      · refine ⟨lt, ?_, hltdig⟩
        match t, htne with
        | th :: tt, _ => rw [List.getLast?_cons_cons]; exact hlt
      · obtain ⟨hct, hht, hlt2⟩ := husc
        refine ⟨?_, by simpa using isHexDigit_ne_95 hdig, ?_⟩
        · match t, htne with
          | th :: tt, _ =>
            obtain rfl : hd = th := by
              rw [List.head?_cons] at hhd; injection hhd with hh; exact hh.symm
            exact List.chain'_cons.mpr
              ⟨⟨fun hc95 => absurd hc95 (isHexDigit_ne_95 hdig), fun _ => hdig⟩, hct⟩
        · match t, htne with
          | th :: tt, _ => rw [List.getLast?_cons_cons]; exact hlt2
  | case4 u ok c rest hdig =>
    intro u' r h
    rw [matchHexNumLoop, if_neg hdig] at h
    injection h with h1 h2
    injection h2 with h2 h3
    exact Or.inl ⟨h1, h3⟩

theorem matchHexNum_decomp {u u' : HasUnderscores} {d r : List Nat}
    (h : matchHexNum u d = some (u', r)) :
    ∃ t, d = t ++ r ∧ underscoreOk isHexDigit t := by
  unfold matchHexNum at h
  rcases hE : matchHexNumLoop u false d with ⟨ok1, u1, r1⟩
  rw [hE] at h
  dsimp only at h
  split at h
  · rename_i hok
    injection h with h
    have hr1 : r1 = r := congrArg Prod.snd h
    rw [hok] at hE
    rcases matchHexNumLoop_decomp u false d u1 r1 hE with ⟨hfalse, _⟩ | ⟨t, ht, _, _, _, husc⟩
    · exact absurd hfalse (by simp)
    · refine ⟨t, ?_, husc⟩
      rw [← hr1]
      exact ht
  · exact absurd h (by simp)

end Text

namespace Text

/-! ## C10: the underscore invariant of every numeric token -/

theorem uscOk_reserved (d : List Nat) : uscOk (lexReserved d) := by
  intro h
  rw [lexReserved_fst_type d] at h
  simp at h

theorem uscOk_annot (d : List Nat) : uscOk (lexAnnot d) := by
  intro h
  simp [lexAnnot] at h

theorem uscOk_whitespace (d : List Nat) : uscOk (lexWhitespace d) := by
  intro h
  simp [lexWhitespace] at h

theorem uscOk_id (d : List Nat) : uscOk (lexId d) := by
  intro h
  rcases lexId_fst_type d with he | he <;> rw [he] at h <;> simp at h

theorem uscOk_blockComment (d : List Nat) : uscOk (lexBlockComment d) := by
  intro h
  have ht : (lexBlockComment d).1.type = (lexBlockCommentLoop 0 d).1 := rfl
  rw [ht] at h
  rcases lexBlockCommentLoop_spec 0 d with hs | ⟨hs, _⟩ <;> rw [hs] at h <;> simp at h

theorem uscOk_lineComment (d : List Nat) : uscOk (lexLineComment d) := by
  intro h
  have ht : (lexLineComment d).1.type = (lexLineCommentLoop d).1 := rfl
  rw [ht] at h
  rcases lexLineCommentLoop_spec d with hs | ⟨hs, _⟩ <;> rw [hs] at h <;> simp at h

theorem uscOk_text (d : List Nat) : uscOk (lexText d) := by
  intro h
  unfold lexText at h
  dsimp only at h
  split at h <;> simp at h

theorem lexNumberFinish_usc (sign : Sign) (hex : Bool) (tt : TokenType)
    (u : HasUnderscores) (pre d : List Nat)
    (hpre : underscoreOk (if hex then isHexDigit else isDigit) pre) :
    uscOk (lexNumberFinish (pre ++ d) sign hex tt u d) := by
  unfold lexNumberFinish
  dsimp only
  split
  · rename_i hz
    intro _
    dsimp only
    rw [readReservedChars_zero hz, locTake_append]
    cases hex
    · exact hpre
    · exact hpre
  · exact uscOk_reserved _

theorem lexNumberExpTail_usc (sign : Sign) (u : HasUnderscores) (pre d : List Nat)
    (hpre : underscoreOk isDigit pre) :
    uscOk (lexNumberExpTail (pre ++ d) sign u d) := by
  unfold lexNumberExpTail
  dsimp only
  obtain ⟨sp, hsp, hspu⟩ := matchSign_decomp d
  cases hm : matchNum u (matchSign d).2 with
  | none => exact uscOk_reserved _
  | some ur =>
    obtain ⟨u2, r2⟩ := ur
    obtain ⟨t, ht, htu⟩ := matchNum_decomp hm
    dsimp only
    rw [show pre ++ d = (pre ++ sp ++ t) ++ r2 by
      rw [hsp, ht]; simp [List.append_assoc]]
    exact lexNumberFinish_usc sign false .Float u2 (pre ++ sp ++ t) r2
      (underscoreOk_append _ (underscoreOk_append _ hpre
        (underscoreOk_of_noUnderscore _ sp hspu)) htu)

theorem lexNumberExp_usc (sign : Sign) (tt : TokenType) (u : HasUnderscores)
    (pre d : List Nat) (hpre : underscoreOk isDigit pre) :
    uscOk (lexNumberExp (pre ++ d) sign tt u d) := by
  unfold lexNumberExp
  cases h1 : matchChar d 101 with
  | some d5 =>
    dsimp only
    rw [show pre ++ d = (pre ++ [101]) ++ d5 by rw [matchChar_eq h1]; simp]
    exact lexNumberExpTail_usc sign u (pre ++ [101]) d5
      (underscoreOk_append _ hpre (underscoreOk_of_noUnderscore _ [101] (by simp)))
  | none =>
    cases h2 : matchChar d 69 with
    | some d5 =>
      dsimp only
      rw [show pre ++ d = (pre ++ [69]) ++ d5 by rw [matchChar_eq h2]; simp]
      exact lexNumberExpTail_usc sign u (pre ++ [69]) d5
        (underscoreOk_append _ hpre (underscoreOk_of_noUnderscore _ [69] (by simp)))
    | none =>
      dsimp only
      exact lexNumberFinish_usc sign false tt u pre d hpre

theorem lexHexNumberExpTail_usc (sign : Sign) (u : HasUnderscores) (pre d : List Nat)
    (hpre : underscoreOk isHexDigit pre) :
    uscOk (lexHexNumberExpTail (pre ++ d) sign u d) := by
  unfold lexHexNumberExpTail
  dsimp only
  obtain ⟨sp, hsp, hspu⟩ := matchSign_decomp d
  cases hm : matchNum u (matchSign d).2 with
  | none => exact uscOk_reserved _
  | some ur =>
    obtain ⟨u2, r2⟩ := ur
    obtain ⟨t, ht, htu⟩ := matchNum_decomp hm
    dsimp only
    rw [show pre ++ d = (pre ++ sp ++ t) ++ r2 by
      rw [hsp, ht]; simp [List.append_assoc]]
    exact lexNumberFinish_usc sign true .Float u2 (pre ++ sp ++ t) r2
      (underscoreOk_append _ (underscoreOk_append _ hpre
        (underscoreOk_of_noUnderscore _ sp hspu)) (underscoreOk_mono htu))

theorem lexHexNumberExp_usc (sign : Sign) (tt : TokenType) (u : HasUnderscores)
    (pre d : List Nat) (hpre : underscoreOk isHexDigit pre) :
    uscOk (lexHexNumberExp (pre ++ d) sign tt u d) := by
  unfold lexHexNumberExp
  cases h1 : matchChar d 112 with
  | some d5 =>
    dsimp only
    rw [show pre ++ d = (pre ++ [112]) ++ d5 by rw [matchChar_eq h1]; simp]
    exact lexHexNumberExpTail_usc sign u (pre ++ [112]) d5
      (underscoreOk_append _ hpre (underscoreOk_of_noUnderscore _ [112] (by simp)))
  | none =>
    cases h2 : matchChar d 80 with
    | some d5 =>
      dsimp only
      rw [show pre ++ d = (pre ++ [80]) ++ d5 by rw [matchChar_eq h2]; simp]
      exact lexHexNumberExpTail_usc sign u (pre ++ [80]) d5
        (underscoreOk_append _ hpre (underscoreOk_of_noUnderscore _ [80] (by simp)))
    | none =>
      dsimp only
      exact lexNumberFinish_usc sign true tt u pre d hpre

theorem lexNumber_usc (data : List Nat) (tt0 : TokenType) :
    uscOk (lexNumber data tt0) := by
  unfold lexNumber
  dsimp only
  obtain ⟨sp, hsp, hspu⟩ := matchSign_decomp data
  cases hm : matchNum .No (matchSign data).2 with
  | none => exact uscOk_reserved _
  | some ur1 =>
    obtain ⟨u1, r1⟩ := ur1
    obtain ⟨t1, ht1, ht1u⟩ := matchNum_decomp hm
    dsimp only
    have hpre1 : underscoreOk isDigit (sp ++ t1) :=
      underscoreOk_append _ (underscoreOk_of_noUnderscore _ sp hspu) ht1u
    cases hc : matchChar r1 46 with
    | some d3 =>
      dsimp only
      have hr1 : r1 = 46 :: d3 := matchChar_eq hc
      split
      · cases hm2 : matchNum u1 d3 with
        | none => exact uscOk_reserved _
        | some ur2 =>
          obtain ⟨u2, r2⟩ := ur2
          obtain ⟨t2, ht2, ht2u⟩ := matchNum_decomp hm2
          dsimp only
          rw [show data = (sp ++ t1 ++ [46] ++ t2) ++ r2 by
            rw [hsp, ht1, hr1, ht2]; simp [List.append_assoc]]
          exact lexNumberExp_usc _ .Float u2 (sp ++ t1 ++ [46] ++ t2) r2
            (underscoreOk_append _ (underscoreOk_append _ hpre1
              (underscoreOk_of_noUnderscore _ [46] (by simp))) ht2u)
      · rw [show data = (sp ++ t1 ++ [46]) ++ d3 by
          rw [hsp, ht1, hr1]; simp [List.append_assoc]]
        exact lexNumberExp_usc _ .Float u1 (sp ++ t1 ++ [46]) d3
          (underscoreOk_append _ hpre1 (underscoreOk_of_noUnderscore _ [46] (by simp)))
    | none =>
      dsimp only
      rw [show data = (sp ++ t1) ++ r1 by rw [hsp, ht1]; simp [List.append_assoc]]
      exact lexNumberExp_usc _ tt0 u1 (sp ++ t1) r1 hpre1

theorem lexHexNumber_usc (data : List Nat) (tt0 : TokenType) :
    uscOk (lexHexNumber data tt0) := by
  unfold lexHexNumber
  dsimp only
  obtain ⟨sp, hsp, hspu⟩ := matchSign_decomp data
  cases h0 : matchString (matchSign data).2 str0x with
  | some dx =>
    dsimp only
    have hsp2 : data = (sp ++ str0x) ++ dx := by
      rw [hsp, matchString_decomp h0]; simp [List.append_assoc]
    have hpre0 : underscoreOk isHexDigit (sp ++ str0x) :=
      underscoreOk_append _ (underscoreOk_of_noUnderscore _ sp hspu)
        (underscoreOk_of_noUnderscore _ str0x (by simp [str0x]))
    cases hm : matchHexNum .No dx with
    | none => exact uscOk_reserved _
    | some ur1 =>
      obtain ⟨u1, r1⟩ := ur1
      obtain ⟨t1, ht1, ht1u⟩ := matchHexNum_decomp hm
      dsimp only
      have hpre1 : underscoreOk isHexDigit (sp ++ str0x ++ t1) :=
        underscoreOk_append _ hpre0 ht1u
      cases hc : matchChar r1 46 with
      | some d3 =>
        dsimp only
        have hr1 : r1 = 46 :: d3 := matchChar_eq hc
        split
        · cases hm2 : matchHexNum u1 d3 with
          | none => exact uscOk_reserved _
          | some ur2 =>
            obtain ⟨u2, r2⟩ := ur2
            obtain ⟨t2, ht2, ht2u⟩ := matchHexNum_decomp hm2
            dsimp only
            rw [show data = (sp ++ str0x ++ t1 ++ [46] ++ t2) ++ r2 by
              rw [hsp2, ht1, hr1, ht2]; simp [List.append_assoc]]
            exact lexHexNumberExp_usc _ .Float u2 (sp ++ str0x ++ t1 ++ [46] ++ t2) r2
              (underscoreOk_append _ (underscoreOk_append _ hpre1
                (underscoreOk_of_noUnderscore _ [46] (by simp))) ht2u)
        · rw [show data = (sp ++ str0x ++ t1 ++ [46]) ++ d3 by
            rw [hsp2, ht1, hr1]; simp [List.append_assoc]]
          exact lexHexNumberExp_usc _ .Float u1 (sp ++ str0x ++ t1 ++ [46]) d3
            (underscoreOk_append _ hpre1 (underscoreOk_of_noUnderscore _ [46] (by simp)))
      | none =>
        dsimp only
        rw [show data = (sp ++ str0x ++ t1) ++ r1 by
          rw [hsp2, ht1]; simp [List.append_assoc]]
        exact lexHexNumberExp_usc _ tt0 u1 (sp ++ str0x ++ t1) r1 hpre1
  | none =>
    dsimp only
    have hpre0 : underscoreOk isHexDigit sp :=
      underscoreOk_of_noUnderscore _ sp hspu
    cases hm : matchHexNum .No (matchSign data).2 with
    | none => exact uscOk_reserved _
    | some ur1 =>
      obtain ⟨u1, r1⟩ := ur1
      obtain ⟨t1, ht1, ht1u⟩ := matchHexNum_decomp hm
      dsimp only
      have hpre1 : underscoreOk isHexDigit (sp ++ t1) :=
        underscoreOk_append _ hpre0 ht1u
      cases hc : matchChar r1 46 with
      | some d3 =>
        dsimp only
        have hr1 : r1 = 46 :: d3 := matchChar_eq hc
        split
        · cases hm2 : matchHexNum u1 d3 with
          | none => exact uscOk_reserved _
          | some ur2 =>
            obtain ⟨u2, r2⟩ := ur2
            obtain ⟨t2, ht2, ht2u⟩ := matchHexNum_decomp hm2
            dsimp only
            rw [show data = (sp ++ t1 ++ [46] ++ t2) ++ r2 by
              rw [hsp, ht1, hr1, ht2]; simp [List.append_assoc]]
            exact lexHexNumberExp_usc _ .Float u2 (sp ++ t1 ++ [46] ++ t2) r2
              (underscoreOk_append _ (underscoreOk_append _ hpre1
                (underscoreOk_of_noUnderscore _ [46] (by simp))) ht2u)
        · rw [show data = (sp ++ t1 ++ [46]) ++ d3 by
            rw [hsp, ht1, hr1]; simp [List.append_assoc]]
          exact lexHexNumberExp_usc _ .Float u1 (sp ++ t1 ++ [46]) d3
            (underscoreOk_append _ hpre1 (underscoreOk_of_noUnderscore _ [46] (by simp)))
      | none =>
        dsimp only
        rw [show data = (sp ++ t1) ++ r1 by rw [hsp, ht1]; simp [List.append_assoc]]
        exact lexHexNumberExp_usc _ tt0 u1 (sp ++ t1) r1 hpre1

theorem lexInf_usc (data : List Nat) : uscOk (lexInf data) := by
  unfold lexInf
  dsimp only
  obtain ⟨sp, hsp, hspu⟩ := matchSign_decomp data
  cases h0 : matchString (matchSign data).2 strInf with
  | none => exact uscOk_reserved _
  | some d2 =>
    dsimp only
    split
    · rename_i hz
      intro _
      dsimp only
      rw [readReservedChars_zero hz,
        show data = (sp ++ strInf) ++ d2 by
          rw [hsp, matchString_decomp h0]; simp [List.append_assoc],
        locTake_append]
      show underscoreOk isDigit (sp ++ strInf)
      exact underscoreOk_append _ (underscoreOk_of_noUnderscore _ sp hspu)
        (underscoreOk_of_noUnderscore _ strInf (by simp [strInf]))
    · exact uscOk_reserved _

theorem lexNan_usc (data : List Nat) : uscOk (lexNan data) := by
  unfold lexNan
  dsimp only
  obtain ⟨sp, hsp, hspu⟩ := matchSign_decomp data
  cases h0 : matchString (matchSign data).2 strNan with
  | none => exact uscOk_reserved _
  | some d2 =>
    dsimp only
    cases hc : matchChar d2 58 with
    | some d3 =>
      dsimp only
      cases hx : matchString d3 str0x with
      | none => exact uscOk_reserved _
      | some d4 =>
        dsimp only
        cases hm : matchHexNum .No d4 with
        | none => exact uscOk_reserved _
        | some ur =>
          obtain ⟨u1, r1⟩ := ur
          obtain ⟨t, ht, htu⟩ := matchHexNum_decomp hm
          dsimp only
          split
          · rename_i hz
            intro _
            dsimp only
            rw [readReservedChars_zero hz,
              show data = (sp ++ strNan ++ [58] ++ str0x ++ t) ++ r1 by
                rw [hsp, matchString_decomp h0, matchChar_eq hc,
                  matchString_decomp hx, ht]
                simp [List.append_assoc],
              locTake_append]
            show underscoreOk isHexDigit (sp ++ strNan ++ [58] ++ str0x ++ t)
            refine underscoreOk_append _ ?_ htu
            refine underscoreOk_of_noUnderscore _ _ ?_
            intro x hx2
            simp only [List.mem_append] at hx2
            rcases hx2 with ((hx2 | hx2) | hx2) | hx2
            · exact hspu x hx2
            · simp [strNan] at hx2
              rcases hx2 with rfl | rfl | rfl <;> decide
            · simp at hx2
              subst hx2
              decide
            · simp [str0x] at hx2
              rcases hx2 with rfl | rfl <;> decide
          · exact uscOk_reserved _
    | none =>
      dsimp only
      split
      · rename_i hz
        intro _
        dsimp only
        rw [readReservedChars_zero hz,
          show data = (sp ++ strNan) ++ d2 by
            rw [hsp, matchString_decomp h0]; simp [List.append_assoc],
          locTake_append]
        show underscoreOk isDigit (sp ++ strNan)
        exact underscoreOk_append _ (underscoreOk_of_noUnderscore _ sp hspu)
          (underscoreOk_of_noUnderscore _ strNan (by simp [strNan]))
      · exact uscOk_reserved _

theorem kwTTtoTT_not_numeric :
    ∀ t : KwTT, kwTTtoTT t ≠ .Nat ∧ kwTTtoTT t ≠ .Int ∧ kwTTtoTT t ≠ .Float := by
  intro t
  cases t <;> exact ⟨by decide, by decide, by decide⟩

theorem lexKeyword_cases (data sv : List Nat) (tt : TokenType) (info : TokenInfo) :
    (lexKeyword data sv tt info).1 = ⟨tt, sv, info⟩
    ∨ (lexKeyword data sv tt info).1.type = .Reserved := by
  unfold lexKeyword
  cases hm : matchString data sv with
  | none => exact Or.inr (lexReserved_fst_type _)
  | some d1 =>
    dsimp only
    split
    · rename_i hz
      left
      dsimp only
      rw [readReservedChars_zero hz, matchString_decomp hm, locTake_append]
    · exact Or.inr (lexReserved_fst_type _)

theorem runLeaf_usc (data : List Nat) (lf : KwLeaf) : uscOk (runLeaf data lf) := by
  cases lf with
  | bare sv op f =>
    dsimp only [runLeaf]
    intro h
    rcases lexKeyword_fst_type data sv .BareInstr (.opcodeInfo op f) with he | he <;>
      rw [he] at h <;> simp at h
  | typed tt sv op f =>
    dsimp only [runLeaf]
    intro h
    rcases lexKeyword_fst_type data sv (kwTTtoTT tt) (.opcodeInfo op f) with he | he
    · rw [he] at h
      rcases h with h | h | h
      · exact absurd h (kwTTtoTT_not_numeric tt).1
      · exact absurd h (kwTTtoTT_not_numeric tt).2.1
      · exact absurd h (kwTTtoTT_not_numeric tt).2.2
    · rw [he] at h
      simp at h
  | plain tt sv =>
    dsimp only [runLeaf]
    intro h
    rcases lexKeyword_fst_type data sv (kwTTtoTT tt) .none with he | he
    · rw [he] at h
      rcases h with h | h | h
      · exact absurd h (kwTTtoTT_not_numeric tt).1
      · exact absurd h (kwTTtoTT_not_numeric tt).2.1
      · exact absurd h (kwTTtoTT_not_numeric tt).2.2
    · rw [he] at h
      simp at h
  | valType sv vt =>
    dsimp only [runLeaf]
    intro h
    rcases lexKeyword_fst_type data sv .ValueType (.valueType vt) with he | he <;>
      rw [he] at h <;> simp at h
  | litInf =>
    dsimp only [runLeaf]
    intro h
    rcases lexKeyword_cases data strInf .Float (.literal (.ofKind .Infinity)) with he | he
    · rw [he]
      show underscoreOk isDigit strInf
      exact underscoreOk_of_noUnderscore _ strInf (by simp [strInf])
    · rw [he] at h
      simp at h
  | litNan =>
    dsimp only [runLeaf]
    intro h
    rcases lexKeyword_cases data strNan .Float (.literal (.ofKind .Nan)) with he | he
    · rw [he]
      show underscoreOk isDigit strNan
      exact underscoreOk_of_noUnderscore _ strNan (by simp [strNan])
    · rw [he] at h
      simp at h
  | offsetEq =>
    dsimp only [runLeaf]
    intro h
    rcases lexNameEqNum_fst_type data strOffsetEq .OffsetEqNat with he | he <;>
      rw [he] at h <;> simp at h
  | alignEq =>
    dsimp only [runLeaf]
    intro h
    rcases lexNameEqNum_fst_type data strAlignEq .AlignEqNat with he | he <;>
      rw [he] at h <;> simp at h
  | nanCall =>
    dsimp only [runLeaf]
    exact lexNan_usc data

/-- C10: every token produced by `lex` whose type is `Nat`, `Int` or
`Float` places each `_` in its text strictly between two characters of
the required digit class (hex digits for hex literals and nan payloads,
decimal digits otherwise); in particular the text neither starts nor
ends with `_`, so a numeric run with a leading, trailing or doubled
underscore never lexes as a `Nat`/`Int`/`Float` token. -/
theorem lex_numeric_underscores (data : List Nat)
    (h : (lex data).1.type = .Nat ∨ (lex data).1.type = .Int
      ∨ (lex data).1.type = .Float) :
    underscoreOk (tokenDigitPred (lex data).1.info) (lex data).1.text := by
  revert h
  show uscOk (lex data)
  unfold lex
  try dsimp only
  by_cases h0 : peekChar data 0 = -1
  · rw [if_pos h0]
    intro h2
    simp at h2
  rw [if_neg h0]
  by_cases h40 : peekChar data 0 = 40
  · rw [if_pos h40]
    cases matchString data [40, 59] with
    | some x => exact uscOk_blockComment data
    | none =>
      try dsimp only
      cases matchString data [40, 64] with
      | some x => exact uscOk_annot data
      | none =>
        try dsimp only
        intro h2
        simp at h2
  rw [if_neg h40]
  by_cases h41 : peekChar data 0 = 41
  · rw [if_pos h41]
    intro h2
    simp at h2
  rw [if_neg h41]
  by_cases h59 : peekChar data 0 = 59
  · rw [if_pos h59]
    cases matchString data [59, 59] with
    | some x => exact uscOk_lineComment data
    | none =>
      try dsimp only
      intro h2
      simp at h2
  rw [if_neg h59]
  by_cases hws : peekChar data 0 = 32 ∨ peekChar data 0 = 9
      ∨ peekChar data 0 = 13 ∨ peekChar data 0 = 10
  · rw [if_pos hws]
    exact uscOk_whitespace data
  rw [if_neg hws]
  by_cases h34 : peekChar data 0 = 34
  · rw [if_pos h34]
    exact uscOk_text data
  rw [if_neg h34]
  by_cases hpm : peekChar data 0 = 43 ∨ peekChar data 0 = 45
  · rw [if_pos hpm]
    try dsimp only
    by_cases hc1a : peekChar data 1 = 105
    · rw [if_pos hc1a]
      exact lexInf_usc data
    rw [if_neg hc1a]
    by_cases hc1b : peekChar data 1 = 110
    · rw [if_pos hc1b]
      exact lexNan_usc data
    rw [if_neg hc1b]
    by_cases hc1c : peekChar data 1 = 48
    · rw [if_pos hc1c]
      cases matchString data.tail str0x with
      | some x => exact lexHexNumber_usc data .Int
      | none => exact lexNumber_usc data .Int
    rw [if_neg hc1c]
    by_cases hc1d : 49 ≤ peekChar data 1 ∧ peekChar data 1 ≤ 57
    · rw [if_pos hc1d]
      exact lexNumber_usc data .Int
    rw [if_neg hc1d]
    exact uscOk_reserved data
  rw [if_neg hpm]
  by_cases h48 : peekChar data 0 = 48
  · rw [if_pos h48]
    cases matchString data str0x with
    | some x => exact lexHexNumber_usc data .Nat
    | none => exact lexNumber_usc data .Nat
  rw [if_neg h48]
  by_cases h19 : 49 ≤ peekChar data 0 ∧ peekChar data 0 ≤ 57
  · rw [if_pos h19]
    exact lexNumber_usc data .Nat
  rw [if_neg h19]
  by_cases h36 : peekChar data 0 = 36
  · rw [if_pos h36]
    exact uscOk_id data
  rw [if_neg h36]
  cases kwDispatch data with
  | some leaf => exact runLeaf_usc data leaf
  | none =>
    try dsimp only
    by_cases hres : isReserved (peekChar data 0) = true
    · rw [if_pos hres]
      exact uscOk_reserved data
    · rw [if_neg hres]
      intro h2
      simp at h2

/-- C10 witness: lexing `"1_2"` yields a `Nat` token and its text
satisfies the underscore invariant. -/
theorem lex_numeric_underscores_witness :
    ((lex [49, 95, 50]).1.type = .Nat ∨ (lex [49, 95, 50]).1.type = .Int
      ∨ (lex [49, 95, 50]).1.type = .Float)
    ∧ underscoreOk (tokenDigitPred (lex [49, 95, 50]).1.info)
        (lex [49, 95, 50]).1.text := by
  have h : (lex [49, 95, 50]).1.type = .Nat := by
    simp +decide [lex, peekChar, lexNumber, matchSign, matchChar, matchNum,
      matchNumLoop, lexNumberExp, lexNumberFinish, readReservedChars, locTake,
      matchString, str0x]
  exact ⟨Or.inl h, lex_numeric_underscores [49, 95, 50] (Or.inl h)⟩

end Text

namespace Text

/-! ## C5: replaying lexer loops on the consumed prefix -/

end Text

namespace Text

/-! ## C5: the location round-trip, its counterexample and the amended
structural-token statement -/

end Text

end Wasp
